import Mathlib

/-!
# Intel SST audio DSP driver: IPC transport

A shallow embedding of `sound/soc/intel/sst/sst_ipc.c` and `sst_pvt.c`, and of the power
island call `pmc_nc_set_power_state` of `drivers/platform/x86/intel_soc_pmc.c`.

* C integers are `Nat` / `Int`; arithmetic that can wrap carries an explicit `% 2 ^ 32`.
* A pointer to raw bytes (`char *mailbox_data`, the mailbox window) is the map from
  byte offset to byte value of the memory it points to.
* An object returned by `kzalloc(n)` that the driver fills and hands on is the list of
  its `n` bytes; `NULL` is `none`.
* A memory-mapped register read returns the current content of the register file; the
  DSP changes the register file between driver steps (`udelay`, or an explicit step).
  Every driver write is also appended to `shim_writes`, in program order.
* Calls that leave the driver (stream callbacks, `wake_up`, uevents, `kzalloc` and
  `kfree` of reply payloads, the diagnostic dumps and frees of recovery) are appended to
  `trace`.
* The outcome of an allocation is an argument of the function that allocates.
* A blocking wait is applied to the driver state at the moment the wait ends.
* `sst_do_recovery` has two definitions in the source, selected by
  `CONFIG_SND_INTEL_SST_RECOVERY`; both are embedded and the option is an argument of
  `sst_wait_timeout`.
* The dispatch queue lock `ipc_spin_lock` is state of its own (`dispatch_lock`): the
  functions that touch the queue also have their lock and queue statements listed in
  program order (`..._ops`), and `lock_run` replays them on the lock state.
* The allocator calls of message and block creation are listed in call order
  (`mem_event`); `live_buffers` gives what is still allocated after them.
-/

namespace Sst

/-- Linux `EINTR`. -/
def EINTR : Int := 4
/-- Linux `ENOMEM`. -/
def ENOMEM : Int := 12
/-- Linux `EBUSY`. -/
def EBUSY : Int := 16
/-- Linux `EINVAL`. -/
def EINVAL : Int := 22

/-- The `struct sst_block` of the driver. `addr` is the address of the object, which is
what `sst_free_block` compares; `is_on` is the C field `on`. -/
structure sst_block where
  addr : Nat
  condition : Bool
  ret_code : Int
  data : Option (List Nat)
  size : Nat
  is_on : Bool
  msg_id : Nat
  drv_id : Nat
deriving DecidableEq

/-- The `struct ipc_post` of the driver: `header` is `header.full` (u32), `mrfld_header` is
`mrfld_header.full` (u64), `mailbox_data` the bytes behind the `char *`. -/
structure ipc_post where
  header : Nat
  mrfld_header : Nat
  is_large : Bool
  mailbox_data : Nat → Nat

/-- The fields of `struct stream_info` the IPC code reads. A callback pointer is `true`
when it is not `NULL`; the `*_param` fields and `pcm_substream` are the handles passed to
the callbacks (`pcm_substream = 0` is `NULL`). -/
structure stream_info where
  status : Nat
  pipe_id : Nat
  pcm_substream : Nat
  period_elapsed : Bool
  compr_cb : Bool
  compr_cb_param : Nat
  drain_notify : Bool
  drain_cb_param : Nat

/-- The `struct snd_sst_runtime_params` held in `runtime_param.param`: `bytes` is the object
representation of the struct, `addr` the memory behind the `addr` pointer (`none` is
`NULL`). -/
structure snd_sst_runtime_params where
  str_id : Nat
  size : Nat
  addr : Option (Nat → Nat)
  bytes : Nat → Nat

/-- The three wire variants the `ops->post_message` pointer can select. -/
inductive post_variant where
  | mfld
  | mrfld
  | mrfld32
deriving DecidableEq

/-- Calls that leave the IPC code, in program order. -/
inductive sst_event where
  | wake_up
  | stream_index (str_id : Int)
  | period_elapsed (pcm_substream : Nat)
  | compr_cb (param : Nat)
  | drain_notify (param : Nat)
  | kzalloc (n : Nat) (ok : Bool)
  | kfree_data
  | uevent (name : String) (res_size : Int) (result : List Nat)
  | sst_cdev_fragment_elapsed (str_id : Int)
  | sst_drop_stream (str_id : Int)
  | dump_stack
  | dump_sst_shim (regs : List Nat)
  | dump_sst_crash_area
  | snd_pcm_stop (pcm_substream : Nat)
  | set_bypass (on_off : Bool)
  | recovery_uevent (iram_size dram_size : Nat) (ddr : Option (Nat × Nat))
  | free_pending (header : Nat)
deriving DecidableEq

/-- The `struct sst_dump_buf` of the driver: the two capture buffers and their sizes. -/
structure sst_dump_buf where
  iram_size : Nat
  iram_buf : Nat → Nat
  dram_size : Nat
  dram_buf : Nat → Nat

/-- The part of `struct intel_sst_drv` (the global `sst_drv_ctx`) the IPC code uses.
`ipcx`, `ipcd` are `ipc_reg.ipcx`, `ipc_reg.ipcd`; `post_message` is `ops->post_message`;
`set_bypass` is `true` when `ops->set_bypass` is not `NULL`; `iram`, `dram` are the on-chip
memories behind the pointers of the same name; `ddr` is the `ddr` pointer (`none` is
`NULL`) and `ddr_size` is `ddr_end - ddr_base`. -/
structure intel_sst_drv where
  pci_id : Nat
  sst_state : Nat
  ipcx : Nat
  ipcd : Nat
  post_message : post_variant
  max_streams : Nat
  shim : Nat → Nat
  shim_writes : List (Nat × Nat)
  mailbox : Nat → Nat
  ipc_dispatch_list : List ipc_post
  block_list : List sst_block
  streams : Nat → stream_info
  runtime_param : snd_sst_runtime_params
  trace : List sst_event
  set_bypass : Bool
  dump_buf : sst_dump_buf
  iram : Nat → Nat
  dram : Nat → Nat
  ddr : Option Nat
  ddr_size : Nat

/-- The declarations of `sst.h`, `platform_ipc_v2.h` and `intel_sst_ioctl.h` that the two
source files use and that are not part of the tree: constants, the bit-field accessors of
`union ipc_header` (`part_*`) and of `union ipc_header_mrfld` (`header_low_payload`,
`high_*`), `sizeof` values and inline helpers. Every definition below takes them as a
parameter. -/
structure sst_h where
  SST_IPCX : Nat
  SST_MAILBOX_SEND : Nat
  SST_MAILBOX_SIZE : Nat
  SST_CLV_PCI_ID : Nat
  SST_ERROR : Nat
  FW_DWNL_ID : Nat
  IPC_CMD : Nat
  IPC_IA_DRAIN_STREAM : Nat
  IPC_IA_SET_RUNTIME_PARAMS : Nat
  IPC_SST_PERIOD_ELAPSED_MRFLD : Nat
  IPC_IA_DRAIN_STREAM_MRFLD : Nat
  IPC_IA_FW_INIT_CMPLT_MRFLD : Nat
  IPC_IA_FW_ASYNC_ERR_MRFLD : Nat
  IPC_IA_VTSV_DETECTED : Nat
  SST_ASYNC_DRV_ID : Nat
  SST_ASYNC_MSG_MASK : Nat
  SST_MRFLD_PCI_ID : Nat
  SST_BYT_PCI_ID : Nat
  SST_UN_INIT : Nat
  SST_FW_RUNNING : Nat
  STREAM_UN_INIT : Nat
  SST_ISRX : Nat
  SST_ISRD : Nat
  SST_IPCSC : Nat
  SST_IPCLPESC : Nat
  SST_ISRSC : Nat
  SST_ISRLPESC : Nat
  SST_PISR : Nat
  SST_CSR : Nat
  SST_PIMR : Nat
  SST_IMRX : Nat
  SST_IMRD : Nat
  SST_IMRSC : Nat
  SST_IMRLPESC : Nat
  SST_CLKCTL : Nat
  SST_CSR2 : Nat
  IPC_SST_PERIOD_ELAPSED : Nat
  IPC_SST_BUF_UNDER_RUN : Nat
  IPC_SST_BUF_OVER_RUN : Nat
  IPC_SST_FRAGMENT_ELPASED : Nat
  IPC_IA_PRINT_STRING : Nat
  IPC_IA_FW_INIT_CMPLT : Nat
  IPC_SST_STREAM_PROCESS_FATAL_ERR : Nat
  part_msg_id : Nat → Nat
  part_str_id : Nat → Nat
  part_large : Nat → Nat
  part_data : Nat → Nat
  part_busy : Nat → Nat
  set_part_data : Nat → Nat → Nat
  sst_fill_header : Nat → Nat → Nat → Nat → Nat
  header_low_payload : Nat → Nat
  high_msg_id : Nat → Nat
  high_drv_id : Nat → Nat
  high_result : Nat → Nat
  high_large : Nat → Nat
  high_busy : Nat → Nat
  fw_init_result : (Nat → Nat) → Nat
  sizeof_runtime_params : Nat
  sizeof_addr : Nat
  get_stream_id_mrfld : intel_sst_drv → Nat → Int

/-! ## Block registry (`sst_ipc.c`) -/

/-- `sst_create_block`; `kz` is the result of `kzalloc`: `none` for `NULL`, else the address
of the zero-filled object. -/
def sst_create_block (ctx : intel_sst_drv) (kz : Option Nat) (msg_id drv_id : Nat) :
    Option sst_block × intel_sst_drv :=
  match kz with
  | none => (none, ctx)
  | some a =>
    let msg : sst_block :=
      { addr := a, condition := false, ret_code := 0, data := none, size := 0,
        is_on := true, msg_id := msg_id, drv_id := drv_id }
    (some msg, { ctx with block_list := ctx.block_list ++ [msg] })

/-- The `list_for_each_entry` loop of `sst_wake_up_block` over the block list: `none` when
the loop runs to the end, else the list after the stores into the first matching block. -/
def wake_up_scan (result : Int) (drv_id ipc : Nat) (data : Option (List Nat)) (size : Nat) :
    List sst_block → Option (List sst_block)
  | [] => none
  | block :: rest =>
    if block.msg_id = ipc ∧ block.drv_id = drv_id then
      some ({ block with ret_code := result, data := data, size := size,
                         condition := true } :: rest)
    else
      (wake_up_scan result drv_id ipc data size rest).map (fun l => block :: l)

/-- `sst_wake_up_block`. -/
def sst_wake_up_block (ctx : intel_sst_drv) (result : Int) (drv_id ipc : Nat)
    (data : Option (List Nat)) (size : Nat) : Int × intel_sst_drv :=
  match wake_up_scan result drv_id ipc data size ctx.block_list with
  | some l => (0, { ctx with block_list := l, trace := ctx.trace ++ [sst_event.wake_up] })
  | none => (-EINVAL, ctx)

/-- The `list_for_each_entry_safe` loop of `sst_free_block`: `none` when no entry is the
object at address `freed`, else the list after `list_del`. -/
def free_scan (freed : Nat) : List sst_block → Option (List sst_block)
  | [] => none
  | block :: rest =>
    if block.addr = freed then some rest
    else (free_scan freed rest).map (fun l => block :: l)

/-- `sst_free_block`; `freed` is the pointer argument. -/
def sst_free_block (ctx : intel_sst_drv) (freed : Nat) : Int × intel_sst_drv :=
  match free_scan freed ctx.block_list with
  | some l => (0, { ctx with block_list := l })
  | none => (-EINVAL, ctx)

/-! ## Register shim and mailbox window -/

/-- Modelled from the spec: `sst_shim_read` / `sst_shim_read64` of `sst.h` are missing from
the tree; the register shim accessor reads the register at offset `addr`, pure I/O. -/
def sst_shim_read (shim : Nat → Nat) (addr : Nat) : Nat := shim addr

/-- Modelled from the spec: `sst_shim_write` / `sst_shim_write64` of `sst.h` are missing
from the tree; the register shim accessor writes `val` to the register at offset `addr`,
pure I/O. The write is recorded in `shim_writes`. -/
def sst_shim_write (ctx : intel_sst_drv) (addr val : Nat) : intel_sst_drv :=
  { ctx with shim := Function.update ctx.shim addr val,
             shim_writes := ctx.shim_writes ++ [(addr, val)] }

/-- The kernel's `memcpy_toio(dst + off, src, n)` on a byte window. -/
def memcpy_toio (dst : Nat → Nat) (off : Nat) (src : Nat → Nat) (n : Nat) : Nat → Nat :=
  fun i => if off ≤ i ∧ i < off + n then src (i - off) else dst i

/-- The little-endian `u32` at the start of a byte buffer (`*(u32 *)p` on x86). -/
def read_u32 (p : Nat → Nat) : Nat :=
  (p 0 % 256) + 256 * (p 1 % 256) + 65536 * (p 2 % 256) + 16777216 * (p 3 % 256)

/-- The conversion `(u32) c` of a `char` (signed on x86) holding the byte `b`. -/
def char_to_u32 (b : Nat) : Nat :=
  if b % 256 < 128 then b % 256 else b % 256 + (2 ^ 32 - 256)

/-! ## Dispatch queue and poster (`sst_ipc.c`) -/

/-- `sst_post_message_mfld`. -/
def sst_post_message_mfld (H : sst_h) (ctx : intel_sst_drv) : intel_sst_drv :=
  match ctx.ipc_dispatch_list with
  | [] => ctx
  | msg :: rest =>
    let header := sst_shim_read ctx.shim ctx.ipcx
    if H.part_busy header ≠ 0 then ctx
    else
      let ctx1 := { ctx with ipc_dispatch_list := rest }
      let ctx2 :=
        if H.part_large msg.header ≠ 0 then
          { ctx1 with mailbox := memcpy_toio ctx1.mailbox H.SST_MAILBOX_SEND
                                   msg.mailbox_data (H.part_data msg.header) }
        else ctx1
      sst_shim_write ctx2 ctx.ipcx msg.header

/-- `sst_post_message_mrfld`. -/
def sst_post_message_mrfld (H : sst_h) (ctx : intel_sst_drv) : intel_sst_drv :=
  match ctx.ipc_dispatch_list with
  | [] => ctx
  | msg :: rest =>
    let header := sst_shim_read ctx.shim H.SST_IPCX
    if H.high_busy header ≠ 0 then ctx
    else
      let ctx1 := { ctx with ipc_dispatch_list := rest }
      let ctx2 :=
        if H.high_large msg.mrfld_header ≠ 0 then
          { ctx1 with mailbox := memcpy_toio ctx1.mailbox H.SST_MAILBOX_SEND
                                   msg.mailbox_data (H.header_low_payload msg.mrfld_header) }
        else ctx1
      sst_shim_write ctx2 H.SST_IPCX msg.mrfld_header

/-- `sst_post_message_mrfld32`. -/
def sst_post_message_mrfld32 (H : sst_h) (ctx : intel_sst_drv) : intel_sst_drv :=
  match ctx.ipc_dispatch_list with
  | [] => ctx
  | msg :: rest =>
    let header := sst_shim_read ctx.shim H.SST_IPCX
    if H.part_busy header ≠ 0 then ctx
    else
      let ctx1 := { ctx with ipc_dispatch_list := rest }
      let size := read_u32 msg.mailbox_data
      let ctx2 :=
        { ctx1 with mailbox := memcpy_toio ctx1.mailbox H.SST_MAILBOX_SEND
                                 msg.mailbox_data ((size + 4) % 2 ^ 32) }
      sst_shim_write ctx2 H.SST_IPCX msg.header

/-- The call through `sst_drv_ctx->ops->post_message`. -/
def ops_post_message (H : sst_h) (ctx : intel_sst_drv) : intel_sst_drv :=
  match ctx.post_message with
  | post_variant.mfld => sst_post_message_mfld H ctx
  | post_variant.mrfld => sst_post_message_mrfld H ctx
  | post_variant.mrfld32 => sst_post_message_mrfld32 H ctx

/-- `sst_send_ipc_msg_nowait`. -/
def sst_send_ipc_msg_nowait (H : sst_h) (ctx : intel_sst_drv) (msg : ipc_post) :
    Int × intel_sst_drv :=
  let ctx1 := { ctx with ipc_dispatch_list := ctx.ipc_dispatch_list ++ [msg] }
  (0, ops_post_message H ctx1)

/-- The result of a synchronous post: the return value, the state, and how many times the
doorbell was read and `udelay(500)` was called. -/
structure sync_result where
  retval : Int
  ctx : intel_sst_drv
  reads : Nat
  delays : Nat

/-- The busy-wait loop shared by the three synchronous posters, entered after a read of
the doorbell at offset `reg` with `loop_count` delays done so far. `busy` is the busy bit
of the variant. During the `k`-th `udelay(500)` (counted from 0) the DSP leaves `dsp k` in
the doorbell. The result is `(true, _)` when the loop is left with the busy bit clear and
`(false, _)` on the `goto out`, with the final `loop_count` and register file. -/
def sync_busy_wait (busy : Nat → Nat) (reg : Nat) (dsp : Nat → Nat) (loop_count : Nat)
    (shim : Nat → Nat) : Bool × Nat × (Nat → Nat) :=
  if busy (sst_shim_read shim reg) ≠ 0 then
    if loop_count > 10 then (false, loop_count, shim)
    else sync_busy_wait busy reg dsp (loop_count + 1) (Function.update shim reg (dsp loop_count))
  else (true, loop_count, shim)
termination_by 11 - loop_count

/-- `sst_sync_post_message_mfld`. -/
def sst_sync_post_message_mfld (H : sst_h) (ctx : intel_sst_drv) (dsp : Nat → Nat)
    (msg : ipc_post) : sync_result :=
  match sync_busy_wait H.part_busy ctx.ipcx dsp 0 ctx.shim with
  | (false, n, shim) =>
    { retval := -EBUSY, ctx := { ctx with shim := shim }, reads := n + 1, delays := n }
  | (true, n, shim) =>
    let ctx1 := { ctx with shim := shim }
    let ctx2 :=
      if H.part_large msg.header ≠ 0 then
        { ctx1 with mailbox := memcpy_toio ctx1.mailbox H.SST_MAILBOX_SEND
                                 msg.mailbox_data (H.part_data msg.header) }
      else ctx1
    { retval := 0, ctx := sst_shim_write ctx2 ctx.ipcx msg.header, reads := n + 1, delays := n }

/-- `sst_sync_post_message_mrfld`. -/
def sst_sync_post_message_mrfld (H : sst_h) (ctx : intel_sst_drv) (dsp : Nat → Nat)
    (msg : ipc_post) : sync_result :=
  match sync_busy_wait H.high_busy H.SST_IPCX dsp 0 ctx.shim with
  | (false, n, shim) =>
    { retval := -EBUSY, ctx := { ctx with shim := shim }, reads := n + 1, delays := n }
  | (true, n, shim) =>
    let ctx1 := { ctx with shim := shim }
    let ctx2 :=
      if H.high_large msg.mrfld_header ≠ 0 then
        { ctx1 with mailbox := memcpy_toio ctx1.mailbox H.SST_MAILBOX_SEND
                                 msg.mailbox_data (H.header_low_payload msg.mrfld_header) }
      else ctx1
    { retval := 0, ctx := sst_shim_write ctx2 H.SST_IPCX msg.mrfld_header,
      reads := n + 1, delays := n }

/-- `sst_sync_post_message_mrfld32`. -/
def sst_sync_post_message_mrfld32 (H : sst_h) (ctx : intel_sst_drv) (dsp : Nat → Nat)
    (msg : ipc_post) : sync_result :=
  match sync_busy_wait H.part_busy H.SST_IPCX dsp 0 ctx.shim with
  | (false, n, shim) =>
    { retval := -EBUSY, ctx := { ctx with shim := shim }, reads := n + 1, delays := n }
  | (true, n, shim) =>
    let ctx1 := { ctx with shim := shim }
    let size := char_to_u32 (msg.mailbox_data 0)
    let ctx2 :=
      if size ≠ 0 then
        { ctx1 with mailbox := memcpy_toio ctx1.mailbox H.SST_MAILBOX_SEND
                                 msg.mailbox_data ((size + 4) % 2 ^ 32) }
      else ctx1
    { retval := 0, ctx := sst_shim_write ctx2 H.SST_IPCX msg.header, reads := n + 1, delays := n }

/-! ## Reply and event processor (`sst_ipc.c`, with its callees in `sst_pvt.c`) -/

/-- Results of the calls into the rest of the kernel made while one reply is processed:
`kzalloc_data` for the reply payload buffer, `kzalloc_msg` and `kzalloc_mailbox` for the two
allocations of `sst_create_ipc_msg` (`true` is success), and the results of
`kset_create_and_add`, `kobject_create_and_add` and `kobject_uevent_env`. -/
structure kernel_env where
  kzalloc_data : Bool
  kzalloc_msg : Bool
  kzalloc_mailbox : Bool
  kset_create : Bool
  kobject_create : Bool
  kobject_uevent_env : Int

/-- Ways the embedded code can leave defined behaviour. -/
inductive sst_fault where
  | vtsv_result_overrun
deriving DecidableEq

/-- Append an event to the trace. -/
def emit (ctx : intel_sst_drv) (e : sst_event) : intel_sst_drv :=
  { ctx with trace := ctx.trace ++ [e] }

/-- The value of an `int` that receives the 32-bit pattern `n`. -/
def to_int32 (n : Nat) : Int :=
  if n % 2 ^ 32 < 2 ^ 31 then ((n % 2 ^ 32 : Nat) : Int) else ((n % 2 ^ 32 : Nat) : Int) - 2 ^ 32

/-- The bytes `memcpy(dst, src, n)` leaves in a fresh `n`-byte object. -/
def copy_bytes (src : Nat → Nat) (n : Nat) : List Nat := (List.range n).map src

/-- `sst_create_and_send_uevent` (`sst_pvt.c`), for the event built by
`send_vtsv_result_event`: `res_size` and `result` are the entries of `envp`. -/
def sst_create_and_send_uevent (E : kernel_env) (ctx : intel_sst_drv) (name : String)
    (res_size : Int) (result : List Nat) : Int × intel_sst_drv :=
  if E.kset_create = false then (-ENOMEM, ctx)
  else if E.kobject_create = false then (-ENOMEM, ctx)
  else (E.kobject_uevent_env, emit ctx (sst_event.uevent name res_size result))

/-- `MAX_VTSV_RESULT_SIZE`. -/
def MAX_VTSV_RESULT_SIZE : Nat := 86

/-- The `while (size)` loop of `send_vtsv_result_event`: `i` is the index into `result[]`,
`acc` the bytes converted so far. A store to `result[i]` with `i` past the array is a
fault. -/
def vtsv_loop (tmp : Nat → Nat) (size : Int) (i : Nat) (acc : List Nat) :
    Except sst_fault (List Nat) :=
  if size = 0 then Except.ok acc
  else if MAX_VTSV_RESULT_SIZE ≤ i then Except.error sst_fault.vtsv_result_overrun
  else vtsv_loop tmp (size - 1) (i + 1) (acc ++ [tmp i])
termination_by MAX_VTSV_RESULT_SIZE - i

/-- `send_vtsv_result_event`. -/
def send_vtsv_result_event (E : kernel_env) (ctx : intel_sst_drv) (data : Nat → Nat)
    (size : Int) : Except sst_fault (Int × intel_sst_drv) :=
  if size > (MAX_VTSV_RESULT_SIZE : Int) then Except.ok (-1, ctx)
  else
    match vtsv_loop data size 0 [] with
    | Except.error f => Except.error f
    | Except.ok result =>
      Except.ok (sst_create_and_send_uevent E ctx "SST_VOICE_TRIGGER" size result)

/-- `process_fw_async_large_msg`; `data` is the copy of the mailbox, `msg_size` its size.
A byte read past the copy is 0, the fill of the `kzalloc` object. -/
def process_fw_async_large_msg (H : sst_h) (E : kernel_env) (ctx : intel_sst_drv)
    (data : List Nat) (msg_size : Nat) : Except sst_fault intel_sst_drv :=
  let msg_id := read_u32 (fun i => data.getD i 0)
  if msg_id = H.IPC_IA_FW_ASYNC_ERR_MRFLD then Except.ok ctx
  else if msg_id = H.IPC_IA_VTSV_DETECTED then
    let res_size := to_int32 ((msg_size % 2 ^ 32 + 2 ^ 32 - 4) % 2 ^ 32)
    match send_vtsv_result_event E ctx (fun i => data.getD (4 + i) 0) res_size with
    | Except.error f => Except.error f
    | Except.ok (_, ctx1) => Except.ok ctx1
  else Except.ok ctx

/-- `process_drain_notify`. -/
def process_drain_notify (ctx : intel_sst_drv) (str_id : Int) : intel_sst_drv :=
  if str_id > 0 then
    let ctx1 := emit ctx (sst_event.stream_index str_id)
    let stream := ctx.streams str_id.toNat
    if stream.drain_notify then emit ctx1 (sst_event.drain_notify stream.drain_cb_param)
    else ctx1
  else ctx

/-- `sst_create_ipc_msg` (`sst_pvt.c`): the return value and the message stored in `*arg`.
For a short message the source stores `mailbox_data = NULL`; `ipc_post` holds the memory
behind the pointer and has no null payload, so the short message carries the all-zero map
and `is_large = false` tells it apart. -/
def sst_create_ipc_msg (E : kernel_env) (large : Bool) : Int × Option ipc_post :=
  if E.kzalloc_msg = false then (-ENOMEM, none)
  else if large then
    if E.kzalloc_mailbox = false then (-ENOMEM, none)
    else (0, some { header := 0, mrfld_header := 0, is_large := large,
                    mailbox_data := fun _ => 0 })
  else (0, some { header := 0, mrfld_header := 0, is_large := large,
                  mailbox_data := fun _ => 0 })

/-- The bytes of a `u32` in memory (little endian). -/
def u32_bytes (v : Nat) : Nat → Nat := fun i => v / 256 ^ i % 256

/-- `sst_send_runtime_param`; `addr` is the memory behind `params->addr`. -/
def sst_send_runtime_param (H : sst_h) (E : kernel_env) (ctx : intel_sst_drv)
    (params : snd_sst_runtime_params) (addr : Nat → Nat) : Int × intel_sst_drv :=
  match sst_create_ipc_msg E true with
  | (_, some msg) =>
    let h1 := H.sst_fill_header msg.header H.IPC_IA_SET_RUNTIME_PARAMS 1 params.str_id
    let h2 := H.set_part_data h1 (4 + H.sizeof_runtime_params + params.size)
    let m1 := memcpy_toio msg.mailbox_data 0 (u32_bytes h2) 4
    let m2 := memcpy_toio m1 4 params.bytes H.sizeof_runtime_params
    let m3 := memcpy_toio m2 (4 + H.sizeof_runtime_params - H.sizeof_addr) addr params.size
    sst_send_ipc_msg_nowait H ctx { msg with header := h2, mailbox_data := m3 }
  | (ret_val, none) => (ret_val, ctx)

/-- `process_fw_init`. -/
def process_fw_init (H : sst_h) (E : kernel_env) (ctx : intel_sst_drv) (msg : ipc_post) :
    Int × intel_sst_drv :=
  let init_result := H.fw_init_result msg.mailbox_data
  if ctx.pci_id = H.SST_CLV_PCI_ID ∧ init_result ≠ 0 then
    let ctx1 := { ctx with sst_state := H.SST_ERROR }
    let retval : Int := init_result
    (retval, (sst_wake_up_block ctx1 retval H.FW_DWNL_ID 0 none 0).2)
  else
    let ctx1 :=
      match ctx.runtime_param.addr with
      | some addr => (sst_send_runtime_param H E ctx ctx.runtime_param addr).2
      | none => ctx
    (0, (sst_wake_up_block ctx1 0 H.FW_DWNL_ID 0 none 0).2)

/-- `sst_process_reply_mrfld`. -/
def sst_process_reply_mrfld (H : sst_h) (E : kernel_env) (ctx : intel_sst_drv)
    (msg : ipc_post) : Except sst_fault intel_sst_drv :=
  let msg_high := msg.mrfld_header
  let msg_low := H.header_low_payload msg.mrfld_header
  let drv_id := H.high_drv_id msg_high
  let msg_id := if H.high_large msg_high = 0 then msg_low &&& H.SST_ASYNC_MSG_MASK else 0
  if msg_id = H.IPC_SST_PERIOD_ELAPSED_MRFLD ∧ H.high_msg_id msg_high = H.IPC_CMD then
    let pipe_id := msg_low >>> 16
    let str_id := H.get_stream_id_mrfld ctx pipe_id
    if str_id > 0 then
      let ctx1 := emit ctx (sst_event.stream_index str_id)
      let stream := ctx.streams str_id.toNat
      let ctx2 :=
        if stream.period_elapsed then emit ctx1 (sst_event.period_elapsed stream.pcm_substream)
        else ctx1
      let ctx3 :=
        if stream.compr_cb then emit ctx2 (sst_event.compr_cb stream.compr_cb_param)
        else ctx2
      Except.ok ctx3
    else Except.ok ctx
  else if msg_id = H.IPC_IA_DRAIN_STREAM_MRFLD ∧ H.high_msg_id msg_high = H.IPC_CMD then
    let pipe_id := msg_low >>> 16
    let str_id := H.get_stream_id_mrfld ctx pipe_id
    if str_id > 0 then Except.ok (process_drain_notify ctx str_id)
    else Except.ok ctx
  else if H.high_result msg_high ≠ 0 ∧ drv_id ≠ 0 ∧ H.high_large msg_high = 0 then
    Except.ok (sst_wake_up_block ctx (H.high_result msg_high) (H.high_drv_id msg_high)
      (H.high_msg_id msg_high) none 0).2
  else if drv_id = H.SST_ASYNC_DRV_ID then
    if H.high_large msg_high = 0 then
      let msg_id := msg_low &&& H.SST_ASYNC_MSG_MASK
      if msg_id = H.IPC_IA_FW_INIT_CMPLT_MRFLD then Except.ok (process_fw_init H E ctx msg).2
      else Except.ok ctx
    else
      let ctx1 := emit ctx (sst_event.kzalloc msg_low E.kzalloc_data)
      if E.kzalloc_data = false then Except.ok ctx1
      else
        let data := copy_bytes msg.mailbox_data msg_low
        match process_fw_async_large_msg H E ctx1 data msg_low with
        | Except.error f => Except.error f
        | Except.ok ctx2 => Except.ok (emit ctx2 sst_event.kfree_data)
  else if H.high_large msg_high ≠ 0 then
    let ctx1 := emit ctx (sst_event.kzalloc msg_low E.kzalloc_data)
    if E.kzalloc_data = false then Except.ok ctx1
    else
      let data := copy_bytes msg.mailbox_data msg_low
      let r := sst_wake_up_block ctx1 (H.high_result msg_high) (H.high_drv_id msg_high)
        (H.high_msg_id msg_high) (some data) msg_low
      if r.1 ≠ 0 then Except.ok (emit r.2 sst_event.kfree_data)
      else Except.ok r.2
  else
    Except.ok (sst_wake_up_block ctx (H.high_result msg_high) (H.high_drv_id msg_high)
      (H.high_msg_id msg_high) none 0).2

/-- `sst_process_reply_mfld`. -/
def sst_process_reply_mfld (H : sst_h) (E : kernel_env) (ctx : intel_sst_drv)
    (msg : ipc_post) : intel_sst_drv :=
  let str_id := H.part_str_id msg.header
  if H.part_msg_id msg.header = H.IPC_IA_DRAIN_STREAM then
    process_drain_notify ctx str_id
  else if H.part_large msg.header = 0 then
    (sst_wake_up_block ctx (H.part_data msg.header) str_id (H.part_msg_id msg.header)
      none 0).2
  else
    let n := H.part_data msg.header
    let ctx1 := emit ctx (sst_event.kzalloc n E.kzalloc_data)
    if E.kzalloc_data = false then ctx1
    else
      let data := copy_bytes msg.mailbox_data n
      let r := sst_wake_up_block ctx1 0 str_id (H.part_msg_id msg.header) (some data) n
      if r.1 ≠ 0 then emit r.2 sst_event.kfree_data
      else r.2

/-! ## Message processor (`sst_ipc.c`) -/

/-- Modelled from the spec: `sst_validate_strid` of `sst.h` is missing from the tree; a
stream id is validated against the configured maximum. The result is 0 for
`1 <= str_id <= max_streams` and `-EINVAL` otherwise. -/
def sst_validate_strid (ctx : intel_sst_drv) (str_id : Int) : Int :=
  if str_id ≤ 0 ∨ str_id > (ctx.max_streams : Int) then -EINVAL else 0

/-- `sst_process_message_mfld`. The calls `sst_cdev_fragment_elapsed` and
`sst_drop_stream` leave the two source files and are recorded in the trace. -/
def sst_process_message_mfld (H : sst_h) (E : kernel_env) (ctx : intel_sst_drv)
    (msg : ipc_post) : intel_sst_drv :=
  let str_id : Int := H.part_str_id msg.header
  let msg_id := H.part_msg_id msg.header
  if msg_id = H.IPC_SST_PERIOD_ELAPSED then
    if sst_validate_strid ctx str_id ≠ 0 then ctx
    else
      let ctx1 := emit ctx (sst_event.stream_index str_id)
      let stream := ctx.streams str_id.toNat
      if stream.period_elapsed then emit ctx1 (sst_event.period_elapsed stream.pcm_substream)
      else ctx1
  else if msg_id = H.IPC_SST_BUF_UNDER_RUN ∨ msg_id = H.IPC_SST_BUF_OVER_RUN then ctx
  else if msg_id = H.IPC_SST_FRAGMENT_ELPASED then
    emit ctx (sst_event.sst_cdev_fragment_elapsed str_id)
  else if msg_id = H.IPC_IA_PRINT_STRING then ctx
  else if msg_id = H.IPC_IA_FW_INIT_CMPLT then (process_fw_init H E ctx msg).2
  else if msg_id = H.IPC_SST_STREAM_PROCESS_FATAL_ERR then
    if sst_validate_strid ctx str_id ≠ 0 then ctx
    else emit ctx (sst_event.sst_drop_stream str_id)
  else ctx

/-! ## Waiting and recovery (`sst_pvt.c`) -/

/-- The object a `struct sst_block *` of value `block` points to: the registered block at
that address (blocks are created registered and freed when unregistered). -/
def block_at (ctx : intel_sst_drv) (block : Nat) : Option sst_block :=
  ctx.block_list.find? (fun b => decide (b.addr = block))

/-- `sst_wait_interruptible`. `ctx` is the driver state when `wait_event_interruptible`
returns: it returns 0 when `block->condition` is true, and nonzero when a signal ends the
wait while the condition is false (`signal`). The result is `none` when `block` is not a
registered block or when the wait has not ended. -/
def sst_wait_interruptible (ctx : intel_sst_drv) (block : Nat) (signal : Bool) : Option Int :=
  match block_at ctx block with
  | none => none
  | some b =>
    if b.condition then
      if b.ret_code < 0 then some (-EBUSY) else some 0
    else if signal then some (-EINTR)
    else none

/-- `read_shim_data`. -/
def read_shim_data (H : sst_h) (ctx : intel_sst_drv) (addr : Nat) : Nat :=
  if ctx.pci_id = H.SST_CLV_PCI_ID then sst_shim_read ctx.shim addr
  else if ctx.pci_id = H.SST_MRFLD_PCI_ID ∨ ctx.pci_id = H.SST_BYT_PCI_ID then
    sst_shim_read ctx.shim addr
  else 0

/-- `write_shim_data`; the casts `(u32) data` and `(u64) data` are the reductions. -/
def write_shim_data (H : sst_h) (ctx : intel_sst_drv) (addr data : Nat) : intel_sst_drv :=
  if ctx.pci_id = H.SST_CLV_PCI_ID then sst_shim_write ctx addr (data % 2 ^ 32)
  else if ctx.pci_id = H.SST_MRFLD_PCI_ID ∨ ctx.pci_id = H.SST_BYT_PCI_ID then
    sst_shim_write ctx addr (data % 2 ^ 64)
  else ctx

/-- `dump_sst_shim`: the seventeen register values it prints, in print order. -/
def dump_sst_shim (H : sst_h) (ctx : intel_sst_drv) : intel_sst_drv :=
  emit ctx (sst_event.dump_sst_shim
    [read_shim_data H ctx H.SST_CSR, read_shim_data H ctx H.SST_PISR,
     read_shim_data H ctx H.SST_PIMR, read_shim_data H ctx H.SST_ISRX,
     read_shim_data H ctx H.SST_ISRD, read_shim_data H ctx H.SST_IMRX,
     read_shim_data H ctx H.SST_IMRD, read_shim_data H ctx ctx.ipcx,
     read_shim_data H ctx ctx.ipcd, read_shim_data H ctx H.SST_ISRSC,
     read_shim_data H ctx H.SST_ISRLPESC, read_shim_data H ctx H.SST_IMRSC,
     read_shim_data H ctx H.SST_IMRLPESC, read_shim_data H ctx H.SST_IPCSC,
     read_shim_data H ctx H.SST_IPCLPESC, read_shim_data H ctx H.SST_CLKCTL,
     read_shim_data H ctx H.SST_CSR2])

/-- `reset_sst_shim`: the nine calls `write_shim_data(sst, reg, 0x0)`, in source order. -/
def reset_sst_shim (H : sst_h) (ctx : intel_sst_drv) : intel_sst_drv :=
  [ctx.ipcx, ctx.ipcd, H.SST_ISRX, H.SST_ISRD, H.SST_IPCSC, H.SST_IPCLPESC, H.SST_ISRSC,
    H.SST_ISRLPESC, H.SST_PISR].foldl (fun c reg => write_shim_data H c reg 0) ctx

/-- `dump_sst_crash_area`: reads of the firmware exception area, printed. -/
def dump_sst_crash_area (ctx : intel_sst_drv) : intel_sst_drv :=
  emit ctx sst_event.dump_sst_crash_area

/-- `dump_ram_area`; `iram` is `type == SST_IRAM`. -/
def dump_ram_area (ctx : intel_sst_drv) (iram : Bool) : intel_sst_drv :=
  if iram then
    { ctx with dump_buf := { ctx.dump_buf with
        iram_buf := memcpy_toio ctx.dump_buf.iram_buf 0 ctx.iram ctx.dump_buf.iram_size } }
  else
    { ctx with dump_buf := { ctx.dump_buf with
        dram_buf := memcpy_toio ctx.dump_buf.dram_buf 0 ctx.dram ctx.dump_buf.dram_size } }

/-- The body of the loop of `sst_stream_recovery` for stream `i`. -/
def stream_recovery_step (H : sst_h) (ctx : intel_sst_drv) (i : Nat) : intel_sst_drv :=
  if (ctx.streams i).status ≠ H.STREAM_UN_INIT ∧ (ctx.streams i).pcm_substream ≠ 0 then
    emit ctx (sst_event.snd_pcm_stop (ctx.streams i).pcm_substream)
  else ctx

/-- The `for (i = 1; i <= sst->info.max_streams; i++)` loop of `sst_stream_recovery` with
its `u8` counter, entered at the test of the condition with counter `i`: `fuel` bounds the
number of tests, and the result is `none` when they are used up before the loop is left.
The increment wraps at 256, so for `max_streams >= 255` the condition holds for every
value of the counter and the loop is never left. -/
def sst_stream_recovery_u8 (H : sst_h) : Nat → Nat → intel_sst_drv → Option intel_sst_drv
  | 0, _, _ => none
  | fuel + 1, i, ctx =>
    if i ≤ ctx.max_streams then
      sst_stream_recovery_u8 H fuel ((i + 1) % 256) (stream_recovery_step H ctx i)
    else some ctx

/-- `sst_stream_recovery` when it returns: the loop body for `i = 1 .. max_streams`. This
is the result of the loop with the `u8` counter for `max_streams < 255` (theorem
`sst_stream_recovery_u8_returns`); for `max_streams >= 255` that loop does not return
(theorem `sst_stream_recovery_u8_never`), and every theorem about a call that runs
`sst_stream_recovery` carries the bound. -/
def sst_stream_recovery (H : sst_h) (ctx : intel_sst_drv) : intel_sst_drv :=
  (List.range ctx.max_streams).foldl (fun c k => stream_recovery_step H c (k + 1)) ctx

/-- The `list_for_each_entry_safe` loop that ends `sst_do_recovery` under
`CONFIG_SND_INTEL_SST_RECOVERY`: every pending message is printed, unlinked and freed. -/
def recovery_drain : List ipc_post → intel_sst_drv → intel_sst_drv
  | [], ctx => ctx
  | m :: rest, ctx =>
    recovery_drain rest
      (emit { ctx with ipc_dispatch_list := rest } (sst_event.free_pending m.header))

/-- The block `if (sst_drv_ctx->ops->set_bypass) { ... }` of `sst_do_recovery`: the IRAM
and DRAM captures between `set_bypass(true)` and `set_bypass(false)`. -/
def recovery_dump_ram (ctx : intel_sst_drv) : intel_sst_drv :=
  if ctx.set_bypass then
    emit (dump_ram_area (dump_ram_area (emit ctx (sst_event.set_bypass true)) true) false)
      (sst_event.set_bypass false)
  else ctx

/-- The `kobject_uevent_env` call of `sst_do_recovery` with the `envp` it builds: the two
dump sizes and, when `ddr` is not `NULL`, the DDR size and address. -/
def recovery_send_uevent (ctx : intel_sst_drv) : intel_sst_drv :=
  emit ctx (sst_event.recovery_uevent ctx.dump_buf.iram_size ctx.dump_buf.dram_size
    (ctx.ddr.map (fun a => (ctx.ddr_size, a))))

/-- `sst_do_recovery`, the definition under `#if IS_ENABLED(CONFIG_SND_INTEL_SST_RECOVERY)`. -/
def sst_do_recovery (H : sst_h) (ctx : intel_sst_drv) : intel_sst_drv :=
  let c0 :=
    if ctx.sst_state = H.SST_FW_RUNNING ∧ ctx.pci_id = H.SST_CLV_PCI_ID then
      dump_sst_crash_area ctx
    else ctx
  let c1 := { c0 with sst_state := H.SST_UN_INIT }
  let c2 := sst_stream_recovery H c1
  let c3 := emit c2 sst_event.dump_stack
  let c4 := dump_sst_shim H c3
  let c5 := reset_sst_shim H c4
  let c6 := recovery_dump_ram c5
  let c7 := recovery_send_uevent c6
  recovery_drain c7.ipc_dispatch_list c7

/-- `sst_do_recovery`, the definition under `#else`: without
`CONFIG_SND_INTEL_SST_RECOVERY` it prints the stack, the shim registers and the pending
headers. -/
def sst_do_recovery_else (H : sst_h) (ctx : intel_sst_drv) : intel_sst_drv :=
  if ctx.pci_id = H.SST_MRFLD_PCI_ID then emit ctx sst_event.dump_stack
  else
    let c1 := emit ctx sst_event.dump_stack
    let c2 := dump_sst_shim H c1
    if ctx.sst_state = H.SST_FW_RUNNING ∧ ctx.pci_id = H.SST_CLV_PCI_ID then
      dump_sst_crash_area c2
    else c2

/-- The store `block->on = false` through the pointer `block`. -/
def block_set_off (ctx : intel_sst_drv) (block : Nat) : intel_sst_drv :=
  { ctx with block_list :=
      ctx.block_list.map (fun b => if b.addr = block then { b with is_on := false } else b) }

/-- `sst_wait_timeout`. `CONFIG_SND_INTEL_SST_RECOVERY` selects which definition of
`sst_do_recovery` is compiled; `ctx` is the driver state when `wait_event_timeout`
returns: it returns nonzero when `block->condition` is true and 0 when the timeout has
elapsed with the condition false. The result is `none` when `block` is not a registered
block. -/
def sst_wait_timeout (H : sst_h) (CONFIG_SND_INTEL_SST_RECOVERY : Bool) (ctx : intel_sst_drv)
    (block : Nat) : Option (Int × intel_sst_drv) :=
  match block_at ctx block with
  | none => none
  | some b =>
    if b.condition then some (b.ret_code, ctx)
    else
      let ctx1 := block_set_off ctx block
      let ctx2 :=
        if CONFIG_SND_INTEL_SST_RECOVERY then sst_do_recovery H ctx1
        else sst_do_recovery_else H ctx1
      some (-EBUSY, ctx2)

/-! ## North-complex power islands (`intel_soc_pmc.c`) -/

/-- `EAGAIN` of `errno.h`. -/
def EAGAIN : Int := 11

/-- `PUNIT_PORT`. -/
def PUNIT_PORT : Nat := 0x04

/-- `PWRGT_CNT`. -/
def PWRGT_CNT : Nat := 0x60

/-- `PWRGT_STATUS`. -/
def PWRGT_STATUS : Nat := 0x61

/-- `SSS_SHIFT`. -/
def SSS_SHIFT : Nat := 24

/-- `MAX_POWER_ISLANDS`. -/
def MAX_POWER_ISLANDS : Nat := 16

/-- `ISLAND_UP`. -/
def ISLAND_UP : Int := 0x0

/-- `ISLAND_DOWN`. -/
def ISLAND_DOWN : Int := 0x1

/-- `ISLAND_SR`. -/
def ISLAND_SR : Int := 0x2

/-- `SR_MASK`. -/
def SR_MASK : Nat := 0x2

/-- `PMC_D0I3_MASK`. -/
def PMC_D0I3_MASK : Nat := 3

/-- `BITS_PER_LSS`. -/
def BITS_PER_LSS : Nat := 2

/-- The 32-bit pattern of `~x`. -/
def not32 (x : Nat) : Nat := 2 ^ 32 - 1 - x % 2 ^ 32

/-- The 32-bit pattern of `x >> n` for an `int` with pattern `x` (arithmetic shift). -/
def asr32 (x n : Nat) : Nat :=
  if x % 2 ^ 32 < 2 ^ 31 then (x % 2 ^ 32) >>> n
  else ((x % 2 ^ 32) >>> n) ||| (2 ^ 32 - 2 ^ (32 - n))

/-- What `pmc_nc_set_power_state` finds outside itself: whether the driver data `pmc` is
set, the registers behind the P-Unit port when the call reads `reg`, and the value the
`k`-th status poll of `pmc_wait_for_nc_pmcmd_complete` returns (counted from 0). -/
structure pmc_env where
  pmc : Bool
  msgbus : Nat → Nat
  punit : Nat → Nat

/-- The calls `pmc_nc_set_power_state` makes, the status polls apart. -/
inductive pmc_event where
  | down
  | msgbus_read32 (port reg : Nat)
  | msgbus_write32 (port reg val : Nat)
  | up
deriving DecidableEq

/-- The return value of `pmc_nc_set_power_state`, its calls in order, and the number of
status polls. -/
structure pmc_outcome where
  ret : Int
  trace : List pmc_event
  polls : Nat

/-- `pmc_wait_for_nc_pmcmd_complete`, entered with `count` polls done: the return value
and the number of polls. The masks are 32-bit patterns. -/
def pmc_wait_for_nc_pmcmd_complete (punit : Nat → Nat) (verify_mask status_mask : Nat)
    (state_type : Int) (reg : Nat) (count : Nat) : Int × Nat :=
  let raw := punit count % 2 ^ 32
  let pwr_sts := if reg = PWRGT_CNT then raw else asr32 raw SSS_SHIFT
  let done : Bool :=
    if state_type = ISLAND_DOWN ∨ state_type = ISLAND_SR then
      decide (pwr_sts &&& status_mask = verify_mask &&& status_mask)
    else if state_type = ISLAND_UP then
      decide (not32 pwr_sts &&& status_mask = not32 verify_mask &&& status_mask)
    else false
  if done then (0, count + 1)
  else if count + 1 > 500000 then (-EBUSY, count + 1)
  else pmc_wait_for_nc_pmcmd_complete punit verify_mask status_mask state_type reg (count + 1)
termination_by 500001 - count

/-- One pass of the `for` loop of `pmc_nc_set_power_state`, for island `i`: `acc` is
(`pwr_mask`, `status_mask`), `islands` the 32-bit pattern of the argument. The shifts of
the `int` masks are taken on the 32-bit pattern, as the kernel's compiler does. -/
def set_power_island (islands : Nat) (state_type : Int) (acc : Nat × Nat) (i : Nat) :
    Nat × Nat :=
  let lss := islands &&& (0x1 <<< i)
  if lss ≠ 0 then
    let mask := (PMC_D0I3_MASK <<< (BITS_PER_LSS * i)) % 2 ^ 32
    let status_mask := acc.2 ||| mask
    if state_type = ISLAND_DOWN then (acc.1 ||| mask, status_mask)
    else if state_type = ISLAND_UP then (acc.1 &&& not32 mask, status_mask)
    else if state_type = ISLAND_SR then
      ((acc.1 &&& not32 mask) ||| ((SR_MASK <<< (BITS_PER_LSS * i)) % 2 ^ 32), status_mask)
    else (acc.1, status_mask)
  else acc

/-- `pmc_nc_set_power_state`. -/
def pmc_nc_set_power_state (E : pmc_env) (islands : Nat) (state_type : Int) (reg : Nat) :
    pmc_outcome :=
  if E.pmc = false then { ret := -EAGAIN, trace := [], polls := 0 }
  else
    let pwr_sts := E.msgbus reg % 2 ^ 32
    let r := (List.range MAX_POWER_ISLANDS).foldl (set_power_island islands state_type)
      (pwr_sts, 0)
    let w := pmc_wait_for_nc_pmcmd_complete E.punit r.1 r.2 state_type reg 0
    { ret := w.1,
      trace := [pmc_event.down, pmc_event.msgbus_read32 PUNIT_PORT reg,
                pmc_event.msgbus_write32 PUNIT_PORT reg r.1, pmc_event.up],
      polls := w.2 }

/-! ## Message and block creation (`sst_pvt.c`) -/

/-- The objects `sst_create_block_and_ipc_msg` allocates: the message header
(`struct ipc_post`), the mailbox-sized payload buffer behind `mailbox_data`, and the
block. -/
inductive sst_buffer where
  | ipc_post
  | mailbox_data
  | block
deriving DecidableEq

/-- A call into the allocator: `kzalloc` for a buffer with its outcome (`true` is
success), or `kfree` of a buffer. -/
inductive mem_event where
  | kzalloc (b : sst_buffer) (ok : Bool)
  | kfree (b : sst_buffer)
deriving DecidableEq

/-- The allocator calls of `sst_create_ipc_msg`, in call order. -/
def sst_create_ipc_msg_mem (E : kernel_env) (large : Bool) : List mem_event :=
  if E.kzalloc_msg = false then [mem_event.kzalloc sst_buffer.ipc_post false]
  else if large then
    if E.kzalloc_mailbox = false then
      [mem_event.kzalloc sst_buffer.ipc_post true,
       mem_event.kzalloc sst_buffer.mailbox_data false,
       mem_event.kfree sst_buffer.ipc_post]
    else
      [mem_event.kzalloc sst_buffer.ipc_post true,
       mem_event.kzalloc sst_buffer.mailbox_data true]
  else [mem_event.kzalloc sst_buffer.ipc_post true]

/-- What `sst_create_block_and_ipc_msg` leaves: the return value, the pointers stored in
`*arg` and `*block`, the driver state, and its allocator calls in call order. -/
structure create_result where
  retval : Int
  arg : Option ipc_post
  block : Option sst_block
  ctx : intel_sst_drv
  mem : List mem_event

/-- `sst_create_block_and_ipc_msg`; `kz` is the result of the `kzalloc` in
`sst_create_block`. When the block allocation fails `*arg` keeps the pointer to the freed
header. -/
def sst_create_block_and_ipc_msg (E : kernel_env) (large : Bool) (ctx : intel_sst_drv)
    (kz : Option Nat) (msg_id drv_id : Nat) : create_result :=
  match sst_create_ipc_msg E large with
  | (retval, none) =>
    { retval := retval, arg := none, block := none, ctx := ctx,
      mem := sst_create_ipc_msg_mem E large }
  | (retval, some msg) =>
    match sst_create_block ctx kz msg_id drv_id with
    | (none, ctx1) =>
      { retval := -ENOMEM, arg := some msg, block := none, ctx := ctx1,
        mem := sst_create_ipc_msg_mem E large ++
          [mem_event.kzalloc sst_buffer.block false, mem_event.kfree sst_buffer.ipc_post] }
    | (some b, ctx1) =>
      { retval := retval, arg := some msg, block := some b, ctx := ctx1,
        mem := sst_create_ipc_msg_mem E large ++ [mem_event.kzalloc sst_buffer.block true] }

/-! ## The dispatch queue lock (`ipc_spin_lock`) -/

/-- What a statement does to the dispatch queue or to its lock `ipc_spin_lock`:
`spin_lock_irqsave`, `spin_unlock_irqrestore`, `list_add_tail` of the message with the
given header, `list_del` of the message with the given header. -/
inductive lock_op where
  | spin_lock
  | spin_unlock
  | list_add_tail (header : Nat)
  | list_del (header : Nat)
deriving DecidableEq

/-- The lock as state: whether `ipc_spin_lock` is held, and the headers of the messages
removed from the dispatch queue while it was not held, oldest first. -/
structure dispatch_lock where
  held : Bool
  unlocked_dels : List Nat
deriving DecidableEq

/-- The effect of one statement on the lock state. -/
def lock_step (s : dispatch_lock) : lock_op → dispatch_lock
  | lock_op.spin_lock => { s with held := true }
  | lock_op.spin_unlock => { s with held := false }
  | lock_op.list_add_tail _ => s
  | lock_op.list_del h =>
    if s.held then s else { s with unlocked_dels := s.unlocked_dels ++ [h] }

/-- The effect of a sequence of statements on the lock state. -/
def lock_run (s : dispatch_lock) (ops : List lock_op) : dispatch_lock :=
  ops.foldl lock_step s

/-- The lock and queue statements of `sst_post_message_mfld`, in program order. -/
def sst_post_message_mfld_ops (H : sst_h) (ctx : intel_sst_drv) : List lock_op :=
  lock_op.spin_lock ::
    (match ctx.ipc_dispatch_list with
     | [] => [lock_op.spin_unlock]
     | msg :: _ =>
       if H.part_busy (sst_shim_read ctx.shim ctx.ipcx) ≠ 0 then [lock_op.spin_unlock]
       else [lock_op.list_del msg.header, lock_op.spin_unlock])

/-- The lock and queue statements of `sst_post_message_mrfld`, in program order. -/
def sst_post_message_mrfld_ops (H : sst_h) (ctx : intel_sst_drv) : List lock_op :=
  lock_op.spin_lock ::
    (match ctx.ipc_dispatch_list with
     | [] => [lock_op.spin_unlock]
     | msg :: _ =>
       if H.high_busy (sst_shim_read ctx.shim H.SST_IPCX) ≠ 0 then [lock_op.spin_unlock]
       else [lock_op.list_del msg.header, lock_op.spin_unlock])

/-- The lock and queue statements of `sst_post_message_mrfld32`, in program order. -/
def sst_post_message_mrfld32_ops (H : sst_h) (ctx : intel_sst_drv) : List lock_op :=
  lock_op.spin_lock ::
    (match ctx.ipc_dispatch_list with
     | [] => [lock_op.spin_unlock]
     | msg :: _ =>
       if H.part_busy (sst_shim_read ctx.shim H.SST_IPCX) ≠ 0 then [lock_op.spin_unlock]
       else [lock_op.list_del msg.header, lock_op.spin_unlock])

/-- The lock and queue statements of the poster behind `ops->post_message`. -/
def ops_post_message_ops (H : sst_h) (ctx : intel_sst_drv) : List lock_op :=
  match ctx.post_message with
  | post_variant.mfld => sst_post_message_mfld_ops H ctx
  | post_variant.mrfld => sst_post_message_mrfld_ops H ctx
  | post_variant.mrfld32 => sst_post_message_mrfld32_ops H ctx

/-- The lock and queue statements of `sst_send_ipc_msg_nowait`, in program order. -/
def sst_send_ipc_msg_nowait_ops (H : sst_h) (ctx : intel_sst_drv) (msg : ipc_post) :
    List lock_op :=
  [lock_op.spin_lock, lock_op.list_add_tail msg.header, lock_op.spin_unlock] ++
    ops_post_message_ops H { ctx with ipc_dispatch_list := ctx.ipc_dispatch_list ++ [msg] }

/-- The lock statements of `dump_sst_shim`: the registers are printed under the lock. -/
def dump_sst_shim_ops : List lock_op := [lock_op.spin_lock, lock_op.spin_unlock]

/-- The lock and queue statements of `sst_do_recovery` under
`CONFIG_SND_INTEL_SST_RECOVERY`, in program order: `dump_sst_shim`, then the `list_empty`
test between `spin_lock_irqsave` and `spin_unlock_irqrestore`, then the
`list_for_each_entry_safe` loop with its `list_del` of every pending message. -/
def sst_do_recovery_ops (ctx : intel_sst_drv) : List lock_op :=
  dump_sst_shim_ops ++ [lock_op.spin_lock, lock_op.spin_unlock] ++
    ctx.ipc_dispatch_list.map (fun m => lock_op.list_del m.header)

/-! ## Concrete instances used to evaluate the definitions -/

/-- Modelled from the spec: `sst.h`, `platform_ipc_v2.h` and `intel_sst_ioctl.h` are missing
from the tree. This instance fixes one packing of the wire header fields of the spec
(short form: busy, done, data, message id, stream id and large flag in one 32-bit word;
extended form: a high word with the control bits, message id, driver id, large flag and
result, and a low word with the payload length), and values for the constants. It is used
only to evaluate the definitions on concrete inputs; every theorem holds for every
instance. -/
def sst_h_x86 : sst_h where
  SST_IPCX := 0x38
  SST_MAILBOX_SEND := 0
  SST_MAILBOX_SIZE := 0x400
  SST_CLV_PCI_ID := 0x08E7
  SST_ERROR := 4
  FW_DWNL_ID := 0xFF
  IPC_CMD := 1
  IPC_IA_DRAIN_STREAM := 0x44
  IPC_IA_SET_RUNTIME_PARAMS := 0x55
  IPC_SST_PERIOD_ELAPSED_MRFLD := 0xA
  IPC_IA_DRAIN_STREAM_MRFLD := 0x78
  IPC_IA_FW_INIT_CMPLT_MRFLD := 0x01
  IPC_IA_FW_ASYNC_ERR_MRFLD := 0x11
  IPC_IA_VTSV_DETECTED := 0x1028
  SST_ASYNC_DRV_ID := 0
  SST_ASYNC_MSG_MASK := 0xFFFF
  SST_MRFLD_PCI_ID := 0x119A
  SST_BYT_PCI_ID := 0x0F28
  SST_UN_INIT := 1
  SST_FW_RUNNING := 3
  STREAM_UN_INIT := 0
  SST_ISRX := 0x18
  SST_ISRD := 0x20
  SST_IPCSC := 0x68
  SST_IPCLPESC := 0x70
  SST_ISRSC := 0x48
  SST_ISRLPESC := 0x50
  SST_PISR := 0x08
  SST_CSR := 0x00
  SST_PIMR := 0x10
  SST_IMRX := 0x28
  SST_IMRD := 0x30
  SST_IMRSC := 0x58
  SST_IMRLPESC := 0x60
  SST_CLKCTL := 0x78
  SST_CSR2 := 0x80
  IPC_SST_PERIOD_ELAPSED := 0x97
  IPC_SST_BUF_UNDER_RUN := 0x9A
  IPC_SST_BUF_OVER_RUN := 0x9B
  IPC_SST_FRAGMENT_ELPASED := 0x9C
  IPC_IA_PRINT_STRING := 0x9F
  IPC_IA_FW_INIT_CMPLT := 0x81
  IPC_SST_STREAM_PROCESS_FATAL_ERR := 0x93
  part_msg_id := fun h => h % 256
  part_str_id := fun h => h / 2 ^ 8 % 32
  part_large := fun h => h / 2 ^ 13 % 2
  part_data := fun h => h / 2 ^ 16 % 2 ^ 14
  part_busy := fun h => h / 2 ^ 31 % 2
  set_part_data := fun h d => h - (h / 2 ^ 16 % 2 ^ 14) * 2 ^ 16 + (d % 2 ^ 14) * 2 ^ 16
  sst_fill_header := fun h msg large str_id =>
    (h / 2 ^ 14 % 4) * 2 ^ 14 + msg % 256 + (str_id % 32) * 2 ^ 8 + (large % 2) * 2 ^ 13 + 2 ^ 31
  header_low_payload := fun f => f % 2 ^ 32
  high_msg_id := fun f => f / 2 ^ 32 % 256
  high_drv_id := fun f => f / 2 ^ 44 % 16
  high_result := fun f => f / 2 ^ 56 % 16
  high_large := fun f => f / 2 ^ 61 % 2
  high_busy := fun f => f / 2 ^ 63 % 2
  fw_init_result := fun p => p 4 % 256 + 256 * (p 5 % 256)
  sizeof_runtime_params := 12
  sizeof_addr := 8
  get_stream_id_mrfld := fun ctx pipe_id =>
    match (List.range (ctx.max_streams + 1)).find?
        (fun i => decide (1 ≤ i) && decide ((ctx.streams i).pipe_id = pipe_id)) with
    | some i => (i : Int)
    | none => -1

/-- A stream slot with nothing registered. -/
def stream_idle : stream_info :=
  { status := 0, pipe_id := 0, pcm_substream := 0, period_elapsed := false,
    compr_cb := false, compr_cb_param := 0, drain_notify := false, drain_cb_param := 0 }

/-- An engine right after attach: no block, no queued message, registers and mailbox
zero. -/
def ctx_idle : intel_sst_drv :=
  { pci_id := 0x119A, sst_state := 0, ipcx := 0x38, ipcd := 0x40,
    post_message := post_variant.mrfld, max_streams := 4,
    shim := fun _ => 0, shim_writes := [], mailbox := fun _ => 0,
    ipc_dispatch_list := [], block_list := [],
    streams := fun _ => stream_idle,
    runtime_param := { str_id := 0, size := 0, addr := none, bytes := fun _ => 0 },
    trace := [], set_bypass := false,
    dump_buf := { iram_size := 0, iram_buf := fun _ => 0, dram_size := 0,
                  dram_buf := fun _ => 0 },
    iram := fun _ => 0, dram := fun _ => 0, ddr := none, ddr_size := 0 }

/-- A block as `sst_create_block` leaves it. -/
def block_new (addr msg_id drv_id : Nat) : sst_block :=
  { addr := addr, condition := false, ret_code := 0, data := none, size := 0,
    is_on := true, msg_id := msg_id, drv_id := drv_id }

/-- Kernel calls that all succeed. -/
def env_ok : kernel_env :=
  { kzalloc_data := true, kzalloc_msg := true, kzalloc_mailbox := true,
    kset_create := true, kobject_create := true, kobject_uevent_env := 0 }

/-- A short message: header only. -/
def msg_short (header mrfld_header : Nat) : ipc_post :=
  { header := header, mrfld_header := mrfld_header, is_large := false,
    mailbox_data := fun _ => 0 }

/-- A large message whose payload is the bytes 10, 11, 12, ... -/
def msg_large (header mrfld_header : Nat) : ipc_post :=
  { header := header, mrfld_header := mrfld_header, is_large := true,
    mailbox_data := fun i => 10 + i }

/-! ## Predicates used in the statements -/

/-- The key test of `sst_wake_up_block`. -/
def key_match (ipc drv_id : Nat) (b : sst_block) : Prop :=
  b.msg_id = ipc ∧ b.drv_id = drv_id

instance (ipc drv_id : Nat) (b : sst_block) : Decidable (key_match ipc drv_id b) := by
  unfold key_match; infer_instance

/-- The stores `sst_wake_up_block` makes into the block it finds. -/
def completed (b : sst_block) (result : Int) (data : Option (List Nat)) (size : Nat) :
    sst_block :=
  { b with ret_code := result, data := data, size := size, condition := true }

/-- The doorbell register the poster selected by `ops->post_message` reads and writes. -/
def doorbell (H : sst_h) (ctx : intel_sst_drv) : Nat :=
  match ctx.post_message with
  | post_variant.mfld => ctx.ipcx
  | post_variant.mrfld => H.SST_IPCX
  | post_variant.mrfld32 => H.SST_IPCX

/-- The busy bit the poster selected by `ops->post_message` reads from the doorbell. -/
def doorbell_busy (H : sst_h) (ctx : intel_sst_drv) : Nat :=
  match ctx.post_message with
  | post_variant.mfld => H.part_busy (sst_shim_read ctx.shim ctx.ipcx)
  | post_variant.mrfld => H.high_busy (sst_shim_read ctx.shim H.SST_IPCX)
  | post_variant.mrfld32 => H.part_busy (sst_shim_read ctx.shim H.SST_IPCX)

/-- The header the poster selected by `ops->post_message` writes to the doorbell. -/
def wire_header (ctx : intel_sst_drv) (msg : ipc_post) : Nat :=
  match ctx.post_message with
  | post_variant.mfld => msg.header
  | post_variant.mrfld => msg.mrfld_header
  | post_variant.mrfld32 => msg.header

/-- What one call of a poster does, from state `ctx` to state `r`: `busy`, `large` and
`len` are the busy bit, large flag and length field of the variant, `hdr` the header it
sends, `reg` its doorbell and `send` the mailbox send offset. -/
def post_contract (busy large len : Nat → Nat) (hdr : ipc_post → Nat) (reg send : Nat)
    (ctx r : intel_sst_drv) : Prop :=
  ((ctx.ipc_dispatch_list = [] ∨ busy (ctx.shim reg) ≠ 0) → r = ctx) ∧
  (∀ msg rest, ctx.ipc_dispatch_list = msg :: rest → busy (ctx.shim reg) = 0 →
    r.ipc_dispatch_list = rest ∧
    r.shim reg = hdr msg ∧
    (∀ a, a ≠ reg → r.shim a = ctx.shim a) ∧
    r.shim_writes = ctx.shim_writes ++ [(reg, hdr msg)] ∧
    (large (hdr msg) ≠ 0 →
      (∀ i, i < len (hdr msg) → r.mailbox (send + i) = msg.mailbox_data i) ∧
      (∀ j, ¬ (send ≤ j ∧ j < send + len (hdr msg)) → r.mailbox j = ctx.mailbox j)) ∧
    (large (hdr msg) = 0 → r.mailbox = ctx.mailbox)) ∧
  ctx.ipc_dispatch_list.length ≤ r.ipc_dispatch_list.length + 1

/-- One step of the engine as the dispatch queue sees it: a caller runs
`sst_send_ipc_msg_nowait` (`enqueue`), or only its first critical section, the
`list_add_tail` under the lock, when another step runs before its poster call (`append`,
its poster call is then a later `post`); the interrupt handler or such a caller invokes
the poster (`post`); or the DSP changes the register file (`dsp`). -/
inductive engine_op where
  | enqueue (msg : ipc_post)
  | append (msg : ipc_post)
  | post
  | dsp (shim : Nat → Nat)

/-- The effect of one engine step. -/
def engine_step (H : sst_h) (ctx : intel_sst_drv) : engine_op → intel_sst_drv
  | engine_op.enqueue msg => (sst_send_ipc_msg_nowait H ctx msg).2
  | engine_op.append msg => { ctx with ipc_dispatch_list := ctx.ipc_dispatch_list ++ [msg] }
  | engine_op.post => ops_post_message H ctx
  | engine_op.dsp shim => { ctx with shim := shim }

/-- The effect of a sequence of engine steps. -/
def engine_run (H : sst_h) (ctx : intel_sst_drv) (ops : List engine_op) : intel_sst_drv :=
  ops.foldl (engine_step H) ctx

/-- The messages enqueued by a sequence of engine steps, in enqueue order. -/
def enqueued : List engine_op → List ipc_post
  | [] => []
  | engine_op.enqueue msg :: ops => msg :: enqueued ops
  | engine_op.append msg :: ops => msg :: enqueued ops
  | engine_op.post :: ops => enqueued ops
  | engine_op.dsp _ :: ops => enqueued ops

/-- The values written to register `reg`, oldest first. -/
def writes_to (reg : Nat) (log : List (Nat × Nat)) : List Nat :=
  (log.filter (fun w => decide (w.1 = reg))).map (fun w => w.2)

/-- The `k`-th value a synchronous poster reads from the doorbell `reg` (counted from 0):
the register content at entry, then what the DSP left during each `udelay`. -/
def doorbell_reading (ctx : intel_sst_drv) (reg : Nat) (dsp : Nat → Nat) (k : Nat) : Nat :=
  if k = 0 then ctx.shim reg else dsp (k - 1)

/-- What one call of a synchronous poster does, from state `ctx` to result `r`: `busy` is
the busy bit of the variant, `hdr` the header of the message and `reg` the doorbell. -/
def sync_contract (busy : Nat → Nat) (hdr reg : Nat) (dsp : Nat → Nat)
    (ctx : intel_sst_drv) (r : sync_result) : Prop :=
  r.reads ≤ 12 ∧ r.delays ≤ 11 ∧ r.reads = r.delays + 1 ∧
  (r.retval = -EBUSY ↔ ∀ k, k < 12 → busy (doorbell_reading ctx reg dsp k) ≠ 0) ∧
  (r.retval = -EBUSY → r.ctx.shim_writes = ctx.shim_writes ∧ r.ctx.mailbox = ctx.mailbox) ∧
  (r.retval ≠ -EBUSY →
    r.retval = 0 ∧ r.ctx.shim_writes = ctx.shim_writes ++ [(reg, hdr)] ∧
    r.ctx.shim reg = hdr ∧
    busy (doorbell_reading ctx reg dsp r.delays) = 0 ∧
    ∀ k, k < r.delays → busy (doorbell_reading ctx reg dsp k) ≠ 0) ∧
  r.ctx.ipc_dispatch_list = ctx.ipc_dispatch_list

/-- A register file in which every register reads `v`. -/
def shim_const (v : Nat) : Nat → Nat := fun _ => v

/-- A run used to evaluate the FIFO property: one message is enqueued and posted at once,
the DSP raises the busy bit, two more messages are enqueued and stay queued through a
poster call, the DSP clears the busy bit and the next poster call sends the second
message. -/
def fifo_run : List engine_op :=
  [engine_op.enqueue (msg_short 0 0x0001000000000001),
   engine_op.dsp (shim_const 0x8001000000000001),
   engine_op.enqueue (msg_short 0 0x0001000000000002),
   engine_op.append (msg_short 0 0x0001000000000003),
   engine_op.post,
   engine_op.dsp (shim_const 0),
   engine_op.post]

/-- An engine whose doorbell shows the busy bit (short-header layout). -/
def ctx_busy : intel_sst_drv := { ctx_idle with shim := shim_const 0x80000000 }

/-- A DSP that never clears the busy bit. -/
def dsp_stuck : Nat → Nat := fun _ => 0x80000000

/-- A DSP that clears the busy bit during the fourth delay. -/
def dsp_slow : Nat → Nat := fun k => if k < 3 then 0x80000000 else 0

/-- A registry with block (7, 3) at address 1 and block (5, 2) at address 2. -/
def ctx_two_blocks : intel_sst_drv :=
  { ctx_idle with block_list := [block_new 1 7 3, block_new 2 5 2] }

/-- A reply whose mailbox snapshot holds the bytes 10, 11, 12, ... -/
def reply_msg (header mrfld_header : Nat) : ipc_post :=
  { header := header, mrfld_header := mrfld_header, is_large := false,
    mailbox_data := fun i => 10 + i }

/-- A registry with block (7, 3) at address 0x100. -/
def ctx_one_block : intel_sst_drv :=
  { ctx_idle with block_list := [block_new 0x100 7 3] }

/-- The `snd_pcm_stop` calls of `sst_stream_recovery` for streams `1 .. n`, in call
order. -/
def pcm_stop_events (H : sst_h) (streams : Nat → stream_info) : Nat → List sst_event
  | 0 => []
  | n + 1 =>
    pcm_stop_events H streams n ++
      (if (streams (n + 1)).status ≠ H.STREAM_UN_INIT ∧ (streams (n + 1)).pcm_substream ≠ 0
       then [sst_event.snd_pcm_stop (streams (n + 1)).pcm_substream] else [])

/-- The headers of the messages freed according to a trace, oldest first. -/
def freed_headers : List sst_event → List Nat
  | [] => []
  | sst_event.free_pending h :: t => h :: freed_headers t
  | _ :: t => freed_headers t

/-- The state `ctx` with the six fields recovery touches replaced: firmware state,
dispatch queue, register file, write log, dump buffers and trace. -/
def recovery_nf (ctx : intel_sst_drv) (st : Nat) (q : List ipc_post) (sh : Nat → Nat)
    (sw : List (Nat × Nat)) (d : sst_dump_buf) (t : List sst_event) : intel_sst_drv :=
  { ctx with sst_state := st, ipc_dispatch_list := q, shim := sh, shim_writes := sw,
             dump_buf := d, trace := t }

/-- The dump buffers after `dump_ram_area` has copied one memory into them. -/
def dump_after (ctx : intel_sst_drv) (d : sst_dump_buf) (iram : Bool) : sst_dump_buf :=
  if iram then { d with iram_buf := memcpy_toio d.iram_buf 0 ctx.iram d.iram_size }
  else { d with dram_buf := memcpy_toio d.dram_buf 0 ctx.dram d.dram_size }

/-- An engine with firmware running (state 3) on the BYT variant, one waiter on block
(9, 4) at address 4 and one message still queued. -/
def ctx_pending : intel_sst_drv :=
  { ctx_idle with pci_id := 0x0F28, sst_state := 3, post_message := post_variant.mrfld,
                  block_list := [block_new 4 9 4],
                  ipc_dispatch_list := [msg_short 0x80000905 0x8001400900000000] }

/-- An MRFLD engine (pci id 0x119A) in firmware state 2 with the init waiter's block
(msg_id 0, drv_id `FW_DWNL_ID`) registered at address 9. -/
def ctx_fw_init : intel_sst_drv :=
  { ctx_idle with sst_state := 2, block_list := [block_new 9 0 0xFF] }

/-- The same engine on the CLV variant (pci id 0x08E7). -/
def ctx_fw_init_clv : intel_sst_drv :=
  { ctx_fw_init with pci_id := 0x08E7 }

/-- A firmware-init-complete message whose `init->result` is 5. -/
def msg_fw_init_failed : ipc_post :=
  { header := 0, mrfld_header := 0x0000000100000001, is_large := false,
    mailbox_data := fun i => if i = 4 then 5 else 0 }

/-- A short-header engine with `max_streams = 4` whose stream slot 5, beyond the
configured maximum, holds a drain callback with parameter 77. -/
def ctx_stale_stream : intel_sst_drv :=
  { ctx_idle with post_message := post_variant.mfld, max_streams := 4,
                  streams := fun i =>
                    if i = 5 then
                      { stream_idle with drain_notify := true, drain_cb_param := 77 }
                    else stream_idle }

/-- An engine whose stream slot 2 plays pipe 7 with a period-elapsed callback on substream
0x70 and a drain callback with parameter 0x71. -/
def ctx_streaming : intel_sst_drv :=
  { ctx_one_block with
    streams := fun i =>
      if i = 2 then
        { stream_idle with pipe_id := 7, pcm_substream := 0x70, period_elapsed := true,
                           drain_notify := true, drain_cb_param := 0x71 }
      else stream_idle }

/-- A large async message from the firmware whose low word gives the payload length 3 and
whose mailbox snapshot starts with the bytes 0x28, 0x10, 0x00: the message id
`IPC_IA_VTSV_DETECTED` of the sample layout, cut short after three bytes. -/
def msg_vtsv_short : ipc_post :=
  { header := 0, mrfld_header := 0x2000000100000003, is_large := true,
    mailbox_data := fun i => if i = 0 then 0x28 else if i = 1 then 0x10 else 0 }

/-- The queued path for one message: the `list_add_tail` of `sst_send_ipc_msg_nowait`,
then the poster `post`. -/
def queued_post (post : intel_sst_drv → intel_sst_drv) (ctx : intel_sst_drv)
    (msg : ipc_post) : intel_sst_drv :=
  post { ctx with ipc_dispatch_list := ctx.ipc_dispatch_list ++ [msg] }

/-- An idle engine of the mrfld32 variant whose mailbox holds 0xEE in every byte. -/
def ctx_mrfld32 : intel_sst_drv :=
  { ctx_idle with post_message := post_variant.mrfld32, mailbox := fun _ => 0xEE }

/-- A message with header 0x105 whose payload starts with the 32-bit size word `n`,
followed by bytes 7. -/
def msg_size_word (n : Nat) : ipc_post :=
  { header := 0x105, mrfld_header := 0, is_large := true,
    mailbox_data := fun i => if i < 4 then u32_bytes n i else 7 }

/-- Kernel calls in which the allocation of the message header fails. -/
def env_nomem : kernel_env := { env_ok with kzalloc_msg := false }

/-- The engine `ctx_fw_init` on the short-header variant with a runtime parameter
configuration pending for stream 1: two bytes 0x50, 0x51 behind `addr`. -/
def ctx_fw_init_param : intel_sst_drv :=
  { ctx_fw_init with
    post_message := post_variant.mfld,
    runtime_param := { str_id := 1, size := 2, addr := some (fun i => 0x50 + i),
                       bytes := fun _ => 0 } }

/-- A firmware-init-complete message whose `init->result` is 0. -/
def msg_fw_init_ok : ipc_post :=
  { header := 0, mrfld_header := 0x0000000100000001, is_large := false,
    mailbox_data := fun _ => 0 }

/-- Bit `j` of the register after the islands below `n` have been handled, for the prior
value `v`: the bits of a selected island's field are set for `ISLAND_DOWN`, clear for
`ISLAND_UP`, and the upper one set and the lower one clear for `ISLAND_SR`; every other
bit is the bit of `v`. -/
def island_bit (islands : Nat) (state_type : Int) (v n j : Nat) : Bool :=
  if j < 2 * n ∧ islands.testBit (j / 2) = true then
    if state_type = ISLAND_DOWN then true
    else if state_type = ISLAND_UP then false
    else if state_type = ISLAND_SR then decide (j % 2 = 1)
    else v.testBit j
  else v.testBit j

/-- A P-Unit whose register 0x60 holds 0x12345678 and whose status reads 0 for three
polls and 0xFFFFFFFF afterwards. -/
def pmc_env_x86 : pmc_env :=
  { pmc := true, msgbus := fun r => if r = 0x60 then 0x12345678 else 0,
    punit := fun k => if k < 3 then 0 else 0xFFFFFFFF }

/-- The buffers that are allocated and not freed after the allocator calls `evs`, starting
from the allocated buffers `live`. -/
def live_buffers (live : List sst_buffer) : List mem_event → List sst_buffer
  | [] => live
  | mem_event.kzalloc b true :: evs => live_buffers (live ++ [b]) evs
  | mem_event.kzalloc _ false :: evs => live_buffers live evs
  | mem_event.kfree b :: evs => live_buffers (live.erase b) evs

/-- Kernel calls in which the allocation of the payload buffer fails. -/
def env_nomem_mailbox : kernel_env := { env_ok with kzalloc_mailbox := false }

/-- The lock state before a call: `ipc_spin_lock` free, nothing removed yet. -/
def lock_free : dispatch_lock := { held := false, unlocked_dels := [] }

/-! # Theorems -/

/-! ## Block registry -/

theorem wake_up_scan_none_iff (result : Int) (drv_id ipc : Nat) (data : Option (List Nat))
    (size : Nat) (l : List sst_block) :
    wake_up_scan result drv_id ipc data size l = none ↔
      ∀ b ∈ l, ¬ key_match ipc drv_id b := by
  induction l with
  | nil => simp [wake_up_scan]
  | cons x xs ih =>
    by_cases hx : x.msg_id = ipc ∧ x.drv_id = drv_id
    · simp [wake_up_scan, hx, key_match]
    · simp only [wake_up_scan, hx, if_false, Option.map_eq_none', ih, List.mem_cons,
        forall_eq_or_imp, key_match, not_false_eq_true, true_and]

theorem wake_up_scan_first (result : Int) (drv_id ipc : Nat) (data : Option (List Nat))
    (size : Nat) (l : List sst_block) (h : ∃ b ∈ l, key_match ipc drv_id b) :
    ∃ pre b post, l = pre ++ b :: post ∧ (∀ x ∈ pre, ¬ key_match ipc drv_id x) ∧
      key_match ipc drv_id b ∧
      wake_up_scan result drv_id ipc data size l
        = some (pre ++ completed b result data size :: post) := by
  induction l with
  | nil => simp at h
  | cons x xs ih =>
    by_cases hx : x.msg_id = ipc ∧ x.drv_id = drv_id
    · exact ⟨[], x, xs, rfl, by simp, hx, by simp [wake_up_scan, hx, completed]⟩
    · have h2 : ∃ b ∈ xs, key_match ipc drv_id b := by
        obtain ⟨b, hb, hk⟩ := h
        rcases List.mem_cons.mp hb with rfl | hb
        · exact absurd hk hx
        · exact ⟨b, hb, hk⟩
      obtain ⟨pre, b, post, hl, hpre, hb, hs⟩ := ih h2
      refine ⟨x :: pre, b, post, by simp [hl], ?_, hb, ?_⟩
      · intro y hy
        rcases List.mem_cons.mp hy with rfl | hy
        · exact hx
        · exact hpre y hy
      · simp [wake_up_scan, hx, hs]

theorem free_scan_none_iff (freed : Nat) (l : List sst_block) :
    free_scan freed l = none ↔ ∀ b ∈ l, b.addr ≠ freed := by
  induction l with
  | nil => simp [free_scan]
  | cons x xs ih =>
    by_cases hx : x.addr = freed
    · simp [free_scan, hx]
    · simp only [free_scan, hx, if_false, Option.map_eq_none', ih, List.mem_cons,
        forall_eq_or_imp, ne_eq, not_false_eq_true, true_and]

theorem free_scan_first (freed : Nat) (l : List sst_block) (h : ∃ b ∈ l, b.addr = freed) :
    ∃ pre b post, l = pre ++ b :: post ∧ (∀ x ∈ pre, x.addr ≠ freed) ∧ b.addr = freed ∧
      free_scan freed l = some (pre ++ post) := by
  induction l with
  | nil => simp at h
  | cons x xs ih =>
    by_cases hx : x.addr = freed
    · exact ⟨[], x, xs, rfl, by simp, hx, by simp [free_scan, hx]⟩
    · have h2 : ∃ b ∈ xs, b.addr = freed := by
        obtain ⟨b, hb, hk⟩ := h
        rcases List.mem_cons.mp hb with rfl | hb
        · exact absurd hk hx
        · exact ⟨b, hb, hk⟩
      obtain ⟨pre, b, post, hl, hpre, hb, hs⟩ := ih h2
      refine ⟨x :: pre, b, post, by simp [hl], ?_, hb, ?_⟩
      · intro y hy
        rcases List.mem_cons.mp hy with rfl | hy
        · exact hx
        · exact hpre y hy
      · simp [free_scan, hx, hs]

/-- C1: when the allocation succeeds, `sst_create_block` returns a block with
condition false, on true and the given msg_id and drv_id, and the new registry is the old
one with exactly that block appended at the tail: every existing block is unchanged and
keeps its position, and nothing else of the driver state changes. -/
theorem sst_create_block_appends (ctx : intel_sst_drv) (a msg_id drv_id : Nat) :
    ∃ b : sst_block,
      (sst_create_block ctx (some a) msg_id drv_id).1 = some b ∧
      b.condition = false ∧ b.is_on = true ∧ b.msg_id = msg_id ∧ b.drv_id = drv_id ∧
      (sst_create_block ctx (some a) msg_id drv_id).2
        = { ctx with block_list := ctx.block_list ++ [b] } ∧
      (sst_create_block ctx (some a) msg_id drv_id).2.block_list.length
        = ctx.block_list.length + 1 ∧
      (sst_create_block ctx (some a) msg_id drv_id).2.block_list[ctx.block_list.length]?
        = some b ∧
      ∀ i, i < ctx.block_list.length →
        (sst_create_block ctx (some a) msg_id drv_id).2.block_list[i]? = ctx.block_list[i]? := by
  refine ⟨block_new a msg_id drv_id, rfl, rfl, rfl, rfl, rfl, rfl, ?_, ?_, ?_⟩
  · simp [sst_create_block]
  · simp [sst_create_block, block_new]
  · intro i hi
    simp [sst_create_block, List.getElem?_append_left hi]

/-- C1 evaluated: creating block (5, 2) at address 0x200 in a registry that holds block
(7, 3) returns the new block and appends it behind the old one, which keeps index 0. -/
theorem sst_create_block_appends_witness :
    (sst_create_block ctx_one_block (some 0x200) 5 2).1 = some (block_new 0x200 5 2) ∧
    (sst_create_block ctx_one_block (some 0x200) 5 2).2.block_list
      = [block_new 0x100 7 3, block_new 0x200 5 2] ∧
    (sst_create_block ctx_one_block (some 0x200) 5 2).2.block_list.length = 2 ∧
    (sst_create_block ctx_one_block (some 0x200) 5 2).2.block_list[0]?
      = some (block_new 0x100 7 3) := by
  obtain ⟨b, h1, -, -, -, -, h6, h7, -, h9⟩ :=
    sst_create_block_appends ctx_one_block 0x200 5 2
  have hb : b = block_new 0x200 5 2 := Option.some.inj (h1.symm.trans rfl)
  subst hb
  exact ⟨h1, by rw [h6]; rfl, h7, h9 0 (by decide)⟩

/-- C2: when the registry holds a block whose (msg_id, drv_id) is the reply's
(ipc, drv_id), `sst_wake_up_block` returns 0 and stores result, data, size and
condition = true in the first such block in registry order and in no other: the blocks
before it, the blocks after it (also those with the same key) and the order are kept. -/
theorem sst_wake_up_block_first_match (ctx : intel_sst_drv) (result : Int) (drv_id ipc : Nat)
    (data : Option (List Nat)) (size : Nat)
    (h : ∃ b ∈ ctx.block_list, b.msg_id = ipc ∧ b.drv_id = drv_id) :
    ∃ pre b post,
      ctx.block_list = pre ++ b :: post ∧
      (∀ x ∈ pre, ¬ (x.msg_id = ipc ∧ x.drv_id = drv_id)) ∧
      (b.msg_id = ipc ∧ b.drv_id = drv_id) ∧
      (sst_wake_up_block ctx result drv_id ipc data size).1 = 0 ∧
      (sst_wake_up_block ctx result drv_id ipc data size).2.block_list
        = pre ++ { b with ret_code := result, data := data, size := size,
                          condition := true } :: post := by
  obtain ⟨pre, b, post, hl, hpre, hb, hs⟩ :=
    wake_up_scan_first result drv_id ipc data size ctx.block_list h
  exact ⟨pre, b, post, hl, hpre, hb, by simp [sst_wake_up_block, hs],
    by simp [sst_wake_up_block, hs, completed]⟩

/-- C2 evaluated: of two blocks with key (5, 2) behind a block with key (7, 3), the reply
for (5, 2) completes the first one only. -/
theorem sst_wake_up_block_first_match_witness :
    (∃ b ∈ [block_new 1 7 3, block_new 2 5 2, block_new 3 5 2], b.msg_id = 5 ∧ b.drv_id = 2) ∧
    ∃ pre b post,
      [block_new 1 7 3, block_new 2 5 2, block_new 3 5 2] = pre ++ b :: post ∧
      (∀ x ∈ pre, ¬ (x.msg_id = 5 ∧ x.drv_id = 2)) ∧
      (b.msg_id = 5 ∧ b.drv_id = 2) ∧
      (sst_wake_up_block
        { ctx_idle with block_list := [block_new 1 7 3, block_new 2 5 2, block_new 3 5 2] }
        9 2 5 (some [1, 2]) 2).1 = 0 ∧
      (sst_wake_up_block
        { ctx_idle with block_list := [block_new 1 7 3, block_new 2 5 2, block_new 3 5 2] }
        9 2 5 (some [1, 2]) 2).2.block_list
        = pre ++ { b with ret_code := 9, data := some [1, 2], size := 2,
                          condition := true } :: post :=
  ⟨⟨block_new 2 5 2, by simp, rfl, rfl⟩,
   sst_wake_up_block_first_match
    { ctx_idle with block_list := [block_new 1 7 3, block_new 2 5 2, block_new 3 5 2] }
    9 2 5 (some [1, 2]) 2 ⟨block_new 2 5 2, by simp, rfl, rfl⟩⟩

/-- C3: `sst_wake_up_block` returns -EINVAL exactly when no block of the registry has the
reply's (msg_id, drv_id), and then leaves the driver state unchanged; so when the only
block with key K has been freed, a reply for K returns -EINVAL and changes nothing. -/
theorem sst_wake_up_block_not_found (ctx : intel_sst_drv) (result : Int) (drv_id ipc : Nat)
    (data : Option (List Nat)) (size : Nat) :
    ((sst_wake_up_block ctx result drv_id ipc data size).1 = -EINVAL ↔
      ∀ b ∈ ctx.block_list, ¬ (b.msg_id = ipc ∧ b.drv_id = drv_id)) ∧
    ((∀ b ∈ ctx.block_list, ¬ (b.msg_id = ipc ∧ b.drv_id = drv_id)) →
      sst_wake_up_block ctx result drv_id ipc data size = (-EINVAL, ctx)) ∧
    (∀ b ∈ ctx.block_list,
      (ctx.block_list.map sst_block.addr).Nodup →
      b.msg_id = ipc → b.drv_id = drv_id →
      (∀ x ∈ ctx.block_list, x.msg_id = ipc ∧ x.drv_id = drv_id → x = b) →
      (sst_free_block ctx b.addr).1 = 0 ∧
      sst_wake_up_block (sst_free_block ctx b.addr).2 result drv_id ipc data size
        = (-EINVAL, (sst_free_block ctx b.addr).2)) := by
  have hnone : (∀ b ∈ ctx.block_list, ¬ (b.msg_id = ipc ∧ b.drv_id = drv_id)) →
      sst_wake_up_block ctx result drv_id ipc data size = (-EINVAL, ctx) := by
    intro h
    have := (wake_up_scan_none_iff result drv_id ipc data size ctx.block_list).mpr h
    simp [sst_wake_up_block, this]
  refine ⟨⟨?_, fun h => by rw [hnone h]⟩, hnone, ?_⟩
  · intro h
    by_contra hc
    push_neg at hc
    obtain ⟨pre, b, post, -, -, -, hs⟩ :=
      wake_up_scan_first result drv_id ipc data size ctx.block_list
        (by obtain ⟨b, hb, h1, h2⟩ := hc; exact ⟨b, hb, h1, h2⟩)
    simp [sst_wake_up_block, hs, EINVAL] at h
  · intro b hb hnd hk1 hk2 honly
    obtain ⟨pre, c, post, hl, hpre, hc, hs⟩ := free_scan_first b.addr ctx.block_list ⟨b, hb, rfl⟩
    have hfree : sst_free_block ctx b.addr = (0, { ctx with block_list := pre ++ post }) := by
      simp [sst_free_block, hs]
    have hcb : c = b := by
      rw [hl] at hnd hb
      rw [List.map_append, List.map_cons] at hnd
      rcases List.mem_append.mp hb with hb1 | hb1
      · exact absurd rfl (hpre b hb1)
      · rcases List.mem_cons.mp hb1 with rfl | hb2
        · rfl
        · exfalso
          have hnd2 := (List.nodup_append.mp hnd).2.1
          rw [List.nodup_cons] at hnd2
          exact hnd2.1 (by rw [hc]; exact List.mem_map_of_mem _ hb2)
    subst hcb
    have hno : ∀ x ∈ pre ++ post, ¬ (x.msg_id = ipc ∧ x.drv_id = drv_id) := by
      intro x hx hkx
      have hxl : x ∈ ctx.block_list := by
        rw [hl]
        rcases List.mem_append.mp hx with h1 | h1
        · exact List.mem_append_left _ h1
        · exact List.mem_append_right _ (List.mem_cons_of_mem _ h1)
      have hxc := honly x hxl hkx
      subst hxc
      rw [hl, List.map_append, List.map_cons] at hnd
      have h3 := List.nodup_append.mp hnd
      rcases List.mem_append.mp hx with h1 | h1
      · exact hpre x h1 rfl
      · exact (List.nodup_cons.mp h3.2.1).1 (List.mem_map_of_mem _ h1)
    rw [hfree]
    refine ⟨rfl, ?_⟩
    have := (wake_up_scan_none_iff result drv_id ipc data size (pre ++ post)).mpr hno
    simp [sst_wake_up_block, this]

/-- C3 evaluated: block (5, 2) at address 2 is the only one with its key; after it is
freed the reply for (5, 2) returns -EINVAL and the registry still holds the other block
unchanged. -/
theorem sst_wake_up_block_not_found_witness :
    (sst_free_block { ctx_idle with block_list := [block_new 1 7 3, block_new 2 5 2] } 2).1 = 0 ∧
    sst_wake_up_block
        (sst_free_block { ctx_idle with block_list := [block_new 1 7 3, block_new 2 5 2] } 2).2
        0 2 5 none 0
      = (-EINVAL,
         (sst_free_block { ctx_idle with block_list := [block_new 1 7 3, block_new 2 5 2] } 2).2) :=
  (sst_wake_up_block_not_found
    { ctx_idle with block_list := [block_new 1 7 3, block_new 2 5 2] } 0 2 5 none 0).2.2
    (block_new 2 5 2) (by simp) (by simp [block_new]) rfl rfl
    (by simp [block_new])

/-- C4: in a registry whose blocks have distinct addresses, if the block `b` passed to
`sst_free_block` is in the registry the call returns 0 and the new registry is the old one
with `b` removed, the other blocks unchanged and in the same order, and freeing `b` again
returns -EINVAL and changes nothing; if `b` is not in the registry the call returns -EINVAL
and changes nothing. -/
theorem sst_free_block_removes (ctx : intel_sst_drv) (b : sst_block)
    (hnd : (ctx.block_list.map sst_block.addr).Nodup) :
    (b ∈ ctx.block_list →
      ∃ pre post,
        ctx.block_list = pre ++ b :: post ∧
        sst_free_block ctx b.addr = (0, { ctx with block_list := pre ++ post }) ∧
        b ∉ pre ++ post ∧
        sst_free_block (sst_free_block ctx b.addr).2 b.addr
          = (-EINVAL, (sst_free_block ctx b.addr).2)) ∧
    ((∀ x ∈ ctx.block_list, x.addr ≠ b.addr) →
      sst_free_block ctx b.addr = (-EINVAL, ctx)) := by
  constructor
  · intro hb
    obtain ⟨pre, c, post, hl, hpre, hc, hs⟩ := free_scan_first b.addr ctx.block_list ⟨b, hb, rfl⟩
    have hfree : sst_free_block ctx b.addr = (0, { ctx with block_list := pre ++ post }) := by
      simp [sst_free_block, hs]
    have hnd2 := hnd
    rw [hl, List.map_append, List.map_cons] at hnd2
    have h3 := List.nodup_append.mp hnd2
    have hcb : c = b := by
      rw [hl] at hb
      rcases List.mem_append.mp hb with hb1 | hb1
      · exact absurd rfl (hpre b hb1)
      · rcases List.mem_cons.mp hb1 with rfl | hb2
        · rfl
        · exact absurd (by rw [hc]; exact List.mem_map_of_mem _ hb2) (List.nodup_cons.mp h3.2.1).1
    subst hcb
    have hno : ∀ x ∈ pre ++ post, x.addr ≠ c.addr := by
      intro x hx hxa
      rcases List.mem_append.mp hx with h1 | h1
      · exact hpre x h1 hxa
      · exact (List.nodup_cons.mp h3.2.1).1 (by rw [← hxa]; exact List.mem_map_of_mem _ h1)
    refine ⟨pre, post, hl, hfree, fun hmem => hno c hmem rfl, ?_⟩
    rw [hfree]
    have := (free_scan_none_iff c.addr (pre ++ post)).mpr hno
    simp [sst_free_block, this]
  · intro h
    have := (free_scan_none_iff b.addr ctx.block_list).mpr h
    simp [sst_free_block, this]

/-- C4 evaluated: freeing the block at address 2 out of three blocks returns 0 and keeps
the other two in order; freeing it again returns -EINVAL. -/
theorem sst_free_block_removes_witness :
    (sst_free_block
      { ctx_idle with block_list := [block_new 1 7 3, block_new 2 5 2, block_new 3 5 2] } 2
      = (0, { ctx_idle with block_list := [block_new 1 7 3, block_new 3 5 2] })) ∧
    (sst_free_block { ctx_idle with block_list := [block_new 1 7 3, block_new 3 5 2] } 2
      = (-EINVAL, { ctx_idle with block_list := [block_new 1 7 3, block_new 3 5 2] })) := by
  have hnd : (([block_new 1 7 3, block_new 2 5 2, block_new 3 5 2] : List sst_block).map
      sst_block.addr).Nodup := by simp [block_new]
  have hmem : block_new 2 5 2 ∈ ([block_new 1 7 3, block_new 2 5 2, block_new 3 5 2] :
      List sst_block) := by simp
  obtain ⟨pre, post, hl, hfree, -, h2⟩ :=
    (sst_free_block_removes
      { ctx_idle with block_list := [block_new 1 7 3, block_new 2 5 2, block_new 3 5 2] }
      (block_new 2 5 2) hnd).1 hmem
  have e1 : sst_free_block
      { ctx_idle with block_list := [block_new 1 7 3, block_new 2 5 2, block_new 3 5 2] } 2
      = (0, { ctx_idle with block_list := [block_new 1 7 3, block_new 3 5 2] }) := rfl
  refine ⟨e1, ?_⟩
  have h3 := h2
  simp only [block_new] at h3 e1
  rw [e1] at h3
  exact h3

/-! ## Dispatch queue and poster -/

theorem memcpy_toio_inside (dst src : Nat → Nat) (off n i : Nat) (h : i < n) :
    memcpy_toio dst off src n (off + i) = src i := by
  simp [memcpy_toio, h]

theorem memcpy_toio_outside (dst src : Nat → Nat) (off n j : Nat)
    (h : ¬ (off ≤ j ∧ j < off + n)) : memcpy_toio dst off src n j = dst j := by
  simp only [memcpy_toio, h, if_false]

theorem post_mfld_idle (H : sst_h) (ctx : intel_sst_drv)
    (h : ctx.ipc_dispatch_list = [] ∨ H.part_busy (ctx.shim ctx.ipcx) ≠ 0) :
    sst_post_message_mfld H ctx = ctx := by
  unfold sst_post_message_mfld sst_shim_read
  rcases h with h | h
  · rw [h]
  · cases hq : ctx.ipc_dispatch_list with
    | nil => rfl
    | cons m rest => simp [h]

theorem post_mfld_send (H : sst_h) (ctx : intel_sst_drv) (msg : ipc_post) (rest : List ipc_post)
    (hq : ctx.ipc_dispatch_list = msg :: rest) (hb : H.part_busy (ctx.shim ctx.ipcx) = 0) :
    sst_post_message_mfld H ctx
      = sst_shim_write
          (if H.part_large msg.header ≠ 0 then
            { ctx with ipc_dispatch_list := rest,
                       mailbox := memcpy_toio ctx.mailbox H.SST_MAILBOX_SEND
                                    msg.mailbox_data (H.part_data msg.header) }
           else { ctx with ipc_dispatch_list := rest })
          ctx.ipcx msg.header := by
  unfold sst_post_message_mfld sst_shim_read
  rw [hq]
  simp [hb]

theorem post_mrfld_idle (H : sst_h) (ctx : intel_sst_drv)
    (h : ctx.ipc_dispatch_list = [] ∨ H.high_busy (ctx.shim H.SST_IPCX) ≠ 0) :
    sst_post_message_mrfld H ctx = ctx := by
  unfold sst_post_message_mrfld sst_shim_read
  rcases h with h | h
  · rw [h]
  · cases hq : ctx.ipc_dispatch_list with
    | nil => rfl
    | cons m rest => simp [h]

theorem post_mrfld_send (H : sst_h) (ctx : intel_sst_drv) (msg : ipc_post)
    (rest : List ipc_post) (hq : ctx.ipc_dispatch_list = msg :: rest)
    (hb : H.high_busy (ctx.shim H.SST_IPCX) = 0) :
    sst_post_message_mrfld H ctx
      = sst_shim_write
          (if H.high_large msg.mrfld_header ≠ 0 then
            { ctx with ipc_dispatch_list := rest,
                       mailbox := memcpy_toio ctx.mailbox H.SST_MAILBOX_SEND
                                    msg.mailbox_data (H.header_low_payload msg.mrfld_header) }
           else { ctx with ipc_dispatch_list := rest })
          H.SST_IPCX msg.mrfld_header := by
  unfold sst_post_message_mrfld sst_shim_read
  rw [hq]
  simp [hb]

theorem post_mrfld32_idle (H : sst_h) (ctx : intel_sst_drv)
    (h : ctx.ipc_dispatch_list = [] ∨ H.part_busy (ctx.shim H.SST_IPCX) ≠ 0) :
    sst_post_message_mrfld32 H ctx = ctx := by
  unfold sst_post_message_mrfld32 sst_shim_read
  rcases h with h | h
  · rw [h]
  · cases hq : ctx.ipc_dispatch_list with
    | nil => rfl
    | cons m rest => simp [h]

theorem post_mrfld32_send (H : sst_h) (ctx : intel_sst_drv) (msg : ipc_post)
    (rest : List ipc_post) (hq : ctx.ipc_dispatch_list = msg :: rest)
    (hb : H.part_busy (ctx.shim H.SST_IPCX) = 0) :
    sst_post_message_mrfld32 H ctx
      = sst_shim_write
          { ctx with ipc_dispatch_list := rest,
                     mailbox := memcpy_toio ctx.mailbox H.SST_MAILBOX_SEND msg.mailbox_data
                                  ((read_u32 msg.mailbox_data + 4) % 2 ^ 32) }
          H.SST_IPCX msg.header := by
  unfold sst_post_message_mrfld32 sst_shim_read
  rw [hq]
  simp [hb]

theorem post_contract_of (busy large len : Nat → Nat) (hdr : ipc_post → Nat) (reg send : Nat)
    (ctx r : intel_sst_drv)
    (hidle : (ctx.ipc_dispatch_list = [] ∨ busy (ctx.shim reg) ≠ 0) → r = ctx)
    (hsend : ∀ msg rest, ctx.ipc_dispatch_list = msg :: rest → busy (ctx.shim reg) = 0 →
      r = sst_shim_write
          (if large (hdr msg) ≠ 0 then
            { ctx with ipc_dispatch_list := rest,
                       mailbox := memcpy_toio ctx.mailbox send msg.mailbox_data (len (hdr msg)) }
           else { ctx with ipc_dispatch_list := rest })
          reg (hdr msg)) :
    post_contract busy large len hdr reg send ctx r := by
  refine ⟨hidle, ?_, ?_⟩
  · intro msg rest hq hb
    have hr := hsend msg rest hq hb
    by_cases hl : large (hdr msg) = 0
    · simp only [hl, ne_eq, not_true_eq_false, if_false] at hr
      subst hr
      refine ⟨rfl, by simp [sst_shim_write], ?_, rfl, fun h => absurd hl h, fun _ => rfl⟩
      intro a ha
      simp [sst_shim_write, Function.update_noteq ha]
    · simp only [ne_eq, hl, not_false_eq_true, if_true] at hr
      subst hr
      refine ⟨rfl, by simp [sst_shim_write], ?_, rfl, fun _ => ⟨?_, ?_⟩, fun h => absurd h hl⟩
      · intro a ha
        simp [sst_shim_write, Function.update_noteq ha]
      · intro i hi
        exact memcpy_toio_inside _ _ _ _ _ hi
      · intro j hj
        exact memcpy_toio_outside _ _ _ _ _ hj
  · by_cases hc : ctx.ipc_dispatch_list = [] ∨ busy (ctx.shim reg) ≠ 0
    · rw [hidle hc]; omega
    · push_neg at hc
      obtain ⟨msg, rest, hq⟩ := List.exists_cons_of_ne_nil hc.1
      have hr := hsend msg rest hq hc.2
      have : r.ipc_dispatch_list = rest := by
        rw [hr]; by_cases hl : large (hdr msg) = 0 <;> simp [hl, sst_shim_write]
      rw [this, hq]; simp

/-- C5: one call of the poster, `sst_post_message_mfld` and `sst_post_message_mrfld`: when
the dispatch queue is empty or the doorbell read shows the busy bit, the whole driver state
(queue, mailbox, doorbell) is unchanged; otherwise exactly the head message leaves the
queue, the doorbell holds its full header (one write, no other register changes), and the
mailbox send region holds the first n bytes of its payload (n the length field of the
header) when its large flag is set and the mailbox is unchanged when it is not. A call
removes at most one message. -/
theorem sst_post_message_contract (H : sst_h) (ctx : intel_sst_drv) :
    post_contract H.part_busy H.part_large H.part_data ipc_post.header ctx.ipcx
      H.SST_MAILBOX_SEND ctx (sst_post_message_mfld H ctx) ∧
    post_contract H.high_busy H.high_large H.header_low_payload ipc_post.mrfld_header
      H.SST_IPCX H.SST_MAILBOX_SEND ctx (sst_post_message_mrfld H ctx) :=
  ⟨post_contract_of _ _ _ _ _ _ _ _ (post_mfld_idle H ctx) (post_mfld_send H ctx),
   post_contract_of _ _ _ _ _ _ _ _ (post_mrfld_idle H ctx) (post_mrfld_send H ctx)⟩

/-- C5 evaluated on the short-header poster: with the doorbell clear and a large message of
length 2 (header 0x80022205) ahead of a short one, one call leaves the short message
queued, the header in the doorbell and the two payload bytes in the mailbox; with the
busy bit set in the doorbell the same call changes nothing. -/
theorem sst_post_message_contract_witness :
    ((sst_post_message_mfld sst_h_x86
        { ctx_idle with ipc_dispatch_list := [msg_large 0x80022205 0, msg_short 0x80000105 0] }
      ).ipc_dispatch_list = [msg_short 0x80000105 0] ∧
     (sst_post_message_mfld sst_h_x86
        { ctx_idle with ipc_dispatch_list := [msg_large 0x80022205 0, msg_short 0x80000105 0] }
      ).shim 0x38 = 0x80022205 ∧
     (sst_post_message_mfld sst_h_x86
        { ctx_idle with ipc_dispatch_list := [msg_large 0x80022205 0, msg_short 0x80000105 0] }
      ).mailbox 1 = 11) ∧
    sst_post_message_mfld sst_h_x86
        { ctx_idle with shim := fun _ => 0x80000000,
                        ipc_dispatch_list := [msg_large 0x80022205 0] }
      = { ctx_idle with shim := fun _ => 0x80000000,
                        ipc_dispatch_list := [msg_large 0x80022205 0] } := by
  have h := (sst_post_message_contract sst_h_x86
    { ctx_idle with ipc_dispatch_list := [msg_large 0x80022205 0, msg_short 0x80000105 0] }).1.2.1
    (msg_large 0x80022205 0) [msg_short 0x80000105 0] rfl (by decide)
  have hbusy := (sst_post_message_contract sst_h_x86
    { ctx_idle with shim := fun _ => 0x80000000,
                    ipc_dispatch_list := [msg_large 0x80022205 0] }).1.1
    (Or.inr (by decide))
  refine ⟨⟨h.1, h.2.1, ?_⟩, hbusy⟩
  have h5 := (h.2.2.2.2.1 (by decide)).1 1 (by decide)
  simpa [sst_h_x86, msg_large] using h5

theorem ops_post_message_posts (H : sst_h) (ctx : intel_sst_drv) :
    ∃ posted : List ipc_post,
      posted ++ (ops_post_message H ctx).ipc_dispatch_list = ctx.ipc_dispatch_list ∧
      (ops_post_message H ctx).shim_writes
        = ctx.shim_writes ++ posted.map (fun m => (doorbell H ctx, wire_header ctx m)) ∧
      (ops_post_message H ctx).post_message = ctx.post_message ∧
      (ops_post_message H ctx).ipcx = ctx.ipcx := by
  unfold ops_post_message doorbell wire_header
  cases hv : ctx.post_message with
  | mfld =>
    by_cases hc : ctx.ipc_dispatch_list = [] ∨ H.part_busy (ctx.shim ctx.ipcx) ≠ 0
    · exact ⟨[], by simp [post_mfld_idle H ctx hc, hv]⟩
    · push_neg at hc
      obtain ⟨msg, rest, hq⟩ := List.exists_cons_of_ne_nil hc.1
      refine ⟨[msg], ?_⟩
      simp only [post_mfld_send H ctx msg rest hq hc.2]
      by_cases hl : H.part_large msg.header = 0 <;> simp [hl, sst_shim_write, hq, hv]
  | mrfld =>
    by_cases hc : ctx.ipc_dispatch_list = [] ∨ H.high_busy (ctx.shim H.SST_IPCX) ≠ 0
    · exact ⟨[], by simp [post_mrfld_idle H ctx hc, hv]⟩
    · push_neg at hc
      obtain ⟨msg, rest, hq⟩ := List.exists_cons_of_ne_nil hc.1
      refine ⟨[msg], ?_⟩
      simp only [post_mrfld_send H ctx msg rest hq hc.2]
      by_cases hl : H.high_large msg.mrfld_header = 0 <;> simp [hl, sst_shim_write, hq, hv]
  | mrfld32 =>
    by_cases hc : ctx.ipc_dispatch_list = [] ∨ H.part_busy (ctx.shim H.SST_IPCX) ≠ 0
    · exact ⟨[], by simp [post_mrfld32_idle H ctx hc, hv]⟩
    · push_neg at hc
      obtain ⟨msg, rest, hq⟩ := List.exists_cons_of_ne_nil hc.1
      refine ⟨[msg], ?_⟩
      simp only [post_mrfld32_send H ctx msg rest hq hc.2]
      simp [sst_shim_write, hq, hv]

theorem engine_step_posts (H : sst_h) (ctx : intel_sst_drv) (op : engine_op) :
    ∃ posted : List ipc_post,
      posted ++ (engine_step H ctx op).ipc_dispatch_list
        = ctx.ipc_dispatch_list ++ enqueued [op] ∧
      (engine_step H ctx op).shim_writes
        = ctx.shim_writes ++ posted.map (fun m => (doorbell H ctx, wire_header ctx m)) ∧
      (engine_step H ctx op).post_message = ctx.post_message ∧
      (engine_step H ctx op).ipcx = ctx.ipcx := by
  cases op with
  | enqueue msg =>
    obtain ⟨posted, h1, h2, h3, h4⟩ :=
      ops_post_message_posts H { ctx with ipc_dispatch_list := ctx.ipc_dispatch_list ++ [msg] }
    exact ⟨posted, by simpa [engine_step, sst_send_ipc_msg_nowait, enqueued] using h1,
      by simpa [engine_step, sst_send_ipc_msg_nowait, doorbell, wire_header] using h2,
      by simpa [engine_step, sst_send_ipc_msg_nowait] using h3,
      by simpa [engine_step, sst_send_ipc_msg_nowait] using h4⟩
  | post =>
    obtain ⟨posted, h1, h2, h3, h4⟩ := ops_post_message_posts H ctx
    exact ⟨posted, by simpa [engine_step, enqueued] using h1, h2, h3, h4⟩
  | append msg => exact ⟨[], by simp [engine_step, enqueued]⟩
  | dsp shim => exact ⟨[], by simp [engine_step, enqueued]⟩

theorem enqueued_cons (op : engine_op) (ops : List engine_op) :
    enqueued (op :: ops) = enqueued [op] ++ enqueued ops := by
  cases op <;> simp [enqueued]

theorem engine_run_posts (H : sst_h) (ops : List engine_op) :
    ∀ ctx : intel_sst_drv, ∃ posted : List ipc_post,
      posted ++ (engine_run H ctx ops).ipc_dispatch_list
        = ctx.ipc_dispatch_list ++ enqueued ops ∧
      (engine_run H ctx ops).shim_writes
        = ctx.shim_writes ++ posted.map (fun m => (doorbell H ctx, wire_header ctx m)) := by
  induction ops with
  | nil => intro ctx; exact ⟨[], by simp [engine_run, enqueued]⟩
  | cons op ops ih =>
    intro ctx
    obtain ⟨p1, h1, h2, h3, h4⟩ := engine_step_posts H ctx op
    obtain ⟨p2, k1, k2⟩ := ih (engine_step H ctx op)
    have hd : doorbell H (engine_step H ctx op) = doorbell H ctx := by
      simp [doorbell, h3, h4]
    have hw : ∀ m, wire_header (engine_step H ctx op) m = wire_header ctx m := by
      intro m; simp [wire_header, h3]
    refine ⟨p1 ++ p2, ?_, ?_⟩
    · have : engine_run H ctx (op :: ops) = engine_run H (engine_step H ctx op) ops := rfl
      rw [this, List.append_assoc, k1, ← List.append_assoc, h1, enqueued_cons op ops,
        List.append_assoc]
    · have : engine_run H ctx (op :: ops) = engine_run H (engine_step H ctx op) ops := rfl
      rw [this, k2, h2, hd]
      simp [hw]

theorem writes_to_map (reg : Nat) (l : List Nat) :
    writes_to reg (l.map (fun h => (reg, h))) = l := by
  induction l with
  | nil => rfl
  | cons x xs ih =>
    simp only [writes_to, List.map_cons, List.filter_cons, decide_True, if_true] at ih ⊢
    rw [ih]

/-- C6 (FIFO): for every sequence of enqueues (`sst_send_ipc_msg_nowait`, whole or split
at its unlock), poster invocations and changes of the register file by the DSP, from any
state, the poster writes
only to the doorbell, and the messages whose headers it wrote, in write order, followed by
the messages still queued are the messages queued at the start followed by the enqueued
messages in enqueue order. So from an empty queue and an empty write log the headers
written to the doorbell are a prefix of the headers of the enqueued messages: none is
posted twice, skipped or reordered. -/
theorem dispatch_fifo (H : sst_h) (ctx : intel_sst_drv) (ops : List engine_op) :
    (∃ posted : List ipc_post,
      posted ++ (engine_run H ctx ops).ipc_dispatch_list
        = ctx.ipc_dispatch_list ++ enqueued ops ∧
      (engine_run H ctx ops).shim_writes
        = ctx.shim_writes ++ posted.map (fun m => (doorbell H ctx, wire_header ctx m))) ∧
    (ctx.ipc_dispatch_list = [] → ctx.shim_writes = [] →
      writes_to (doorbell H ctx) (engine_run H ctx ops).shim_writes
        <+: (enqueued ops).map (wire_header ctx)) := by
  obtain ⟨posted, h1, h2⟩ := engine_run_posts H ops ctx
  refine ⟨⟨posted, h1, h2⟩, ?_⟩
  intro hq hw
  rw [h2, hw, List.nil_append]
  rw [hq, List.nil_append] at h1
  have : posted.map (fun m => (doorbell H ctx, wire_header ctx m))
      = (posted.map (wire_header ctx)).map (fun h => (doorbell H ctx, h)) := by
    simp [List.map_map]
  rw [this, writes_to_map, ← h1, List.map_append]
  exact List.prefix_append _ _

/-- C6 evaluated on `fifo_run`: the doorbell received the headers of the first and the
second message, in that order, a prefix of the three enqueued headers. -/
theorem dispatch_fifo_witness :
    writes_to (doorbell sst_h_x86 ctx_idle) (engine_run sst_h_x86 ctx_idle fifo_run).shim_writes
        = [0x0001000000000001, 0x0001000000000002] ∧
    writes_to (doorbell sst_h_x86 ctx_idle) (engine_run sst_h_x86 ctx_idle fifo_run).shim_writes
        <+: (enqueued fifo_run).map (wire_header ctx_idle) :=
  ⟨rfl, (dispatch_fifo sst_h_x86 ctx_idle fifo_run).2 rfl rfl⟩

theorem ops_post_message_send (H : sst_h) (ctx : intel_sst_drv) (msg : ipc_post)
    (rest : List ipc_post) (hq : ctx.ipc_dispatch_list = msg :: rest)
    (hb : doorbell_busy H ctx = 0) :
    (ops_post_message H ctx).ipc_dispatch_list = rest ∧
    (ops_post_message H ctx).shim (doorbell H ctx) = wire_header ctx msg ∧
    (ops_post_message H ctx).shim_writes
      = ctx.shim_writes ++ [(doorbell H ctx, wire_header ctx msg)] := by
  unfold doorbell_busy sst_shim_read at hb
  unfold ops_post_message doorbell wire_header
  cases hv : ctx.post_message with
  | mfld =>
    rw [hv] at hb
    simp only at hb ⊢
    rw [post_mfld_send H ctx msg rest hq hb]
    by_cases hl : H.part_large msg.header = 0 <;> simp [hl, sst_shim_write]
  | mrfld =>
    rw [hv] at hb
    simp only at hb ⊢
    rw [post_mrfld_send H ctx msg rest hq hb]
    by_cases hl : H.high_large msg.mrfld_header = 0 <;> simp [hl, sst_shim_write]
  | mrfld32 =>
    rw [hv] at hb
    simp only at hb ⊢
    rw [post_mrfld32_send H ctx msg rest hq hb]
    simp [sst_shim_write]

/-- C7: `sst_send_ipc_msg_nowait` returns 0 and its resulting state is the state obtained
by appending the message at the tail of the dispatch queue and then running the poster of
the variant once; when the queue is empty and the doorbell is not busy, the header of the
message is written to the doorbell within the call and the queue is empty afterwards. -/
theorem sst_send_ipc_msg_nowait_posts (H : sst_h) (ctx : intel_sst_drv) (msg : ipc_post) :
    sst_send_ipc_msg_nowait H ctx msg
      = (0, ops_post_message H
              { ctx with ipc_dispatch_list := ctx.ipc_dispatch_list ++ [msg] }) ∧
    (ctx.ipc_dispatch_list = [] → doorbell_busy H ctx = 0 →
      (sst_send_ipc_msg_nowait H ctx msg).2.ipc_dispatch_list = [] ∧
      (sst_send_ipc_msg_nowait H ctx msg).2.shim (doorbell H ctx) = wire_header ctx msg ∧
      (sst_send_ipc_msg_nowait H ctx msg).2.shim_writes
        = ctx.shim_writes ++ [(doorbell H ctx, wire_header ctx msg)]) := by
  refine ⟨rfl, ?_⟩
  intro hq hb
  exact ops_post_message_send H { ctx with ipc_dispatch_list := ctx.ipc_dispatch_list ++ [msg] }
    msg [] (by simp [hq]) hb

/-- C7 evaluated: on an idle engine the header of the message is in the doorbell when
`sst_send_ipc_msg_nowait` returns, and the queue is empty. -/
theorem sst_send_ipc_msg_nowait_posts_witness :
    (sst_send_ipc_msg_nowait sst_h_x86 ctx_idle (msg_short 0 0x0001000000000001)).1 = 0 ∧
    (sst_send_ipc_msg_nowait sst_h_x86 ctx_idle
      (msg_short 0 0x0001000000000001)).2.ipc_dispatch_list = [] ∧
    (sst_send_ipc_msg_nowait sst_h_x86 ctx_idle
      (msg_short 0 0x0001000000000001)).2.shim 0x38 = 0x0001000000000001 :=
  ⟨by rw [(sst_send_ipc_msg_nowait_posts sst_h_x86 ctx_idle (msg_short 0 0x0001000000000001)).1],
   ((sst_send_ipc_msg_nowait_posts sst_h_x86 ctx_idle (msg_short 0 0x0001000000000001)).2
      rfl (by decide)).1,
   ((sst_send_ipc_msg_nowait_posts sst_h_x86 ctx_idle (msg_short 0 0x0001000000000001)).2
      rfl (by decide)).2.1⟩

theorem sync_busy_wait_spec (busy : Nat → Nat) (reg : Nat) (dsp : Nat → Nat)
    (ctx : intel_sst_drv) :
    ∀ (n lc : Nat) (s : Nat → Nat), 11 - lc = n → lc ≤ 11 →
      s reg = doorbell_reading ctx reg dsp lc →
      lc ≤ (sync_busy_wait busy reg dsp lc s).2.1 ∧
      (sync_busy_wait busy reg dsp lc s).2.1 ≤ 11 ∧
      (∀ k, lc ≤ k → k < (sync_busy_wait busy reg dsp lc s).2.1 →
        busy (doorbell_reading ctx reg dsp k) ≠ 0) ∧
      ((sync_busy_wait busy reg dsp lc s).1 = true →
        busy (doorbell_reading ctx reg dsp (sync_busy_wait busy reg dsp lc s).2.1) = 0) ∧
      ((sync_busy_wait busy reg dsp lc s).1 = false →
        (sync_busy_wait busy reg dsp lc s).2.1 = 11 ∧
        busy (doorbell_reading ctx reg dsp 11) ≠ 0) := by
  intro n
  induction n with
  | zero =>
    intro lc s hn hlc hs
    have h11 : lc = 11 := by omega
    subst h11
    rw [sync_busy_wait]
    by_cases hb : busy (sst_shim_read s reg) = 0
    · simp only [hb, ne_eq, not_true_eq_false, if_false]
      refine ⟨le_refl _, le_refl _, fun k h1 h2 => absurd h1 (by omega), fun _ => ?_, fun h => ?_⟩
      · rw [← hs]; exact hb
      · cases h
    · have hgt : (11 : Nat) > 10 := by omega
      simp only [ne_eq, hb, not_false_eq_true, if_true, hgt]
      refine ⟨le_refl _, le_refl _, fun k h1 h2 => absurd h1 (by omega), fun h => ?_, fun _ => ?_⟩
      · simp at h
      · refine ⟨by simp, ?_⟩
        rw [← hs]; exact hb
  | succ n ih =>
    intro lc s hn hlc hs
    have hlt : lc ≤ 10 := by omega
    rw [sync_busy_wait]
    by_cases hb : busy (sst_shim_read s reg) = 0
    · simp only [hb, ne_eq, not_true_eq_false, if_false]
      refine ⟨le_refl _, hlc, fun k h1 h2 => absurd h1 (by omega), fun _ => ?_, fun h => ?_⟩
      · rw [← hs]; exact hb
      · cases h
    · have hgt : ¬ lc > 10 := by omega
      simp only [ne_eq, hb, not_false_eq_true, if_true, hgt, if_false]
      have hs2 : Function.update s reg (dsp lc) reg = doorbell_reading ctx reg dsp (lc + 1) := by
        simp [doorbell_reading]
      obtain ⟨a1, a2, a3, a4, a5⟩ :=
        ih (lc + 1) (Function.update s reg (dsp lc)) (by omega) (by omega) hs2
      refine ⟨by omega, a2, ?_, a4, a5⟩
      intro k h1 h2
      by_cases hk : k = lc
      · subst hk; rw [← hs]; exact hb
      · exact a3 k (by omega) h2

theorem sync_contract_of (busy : Nat → Nat) (hdr reg : Nat) (dsp : Nat → Nat)
    (ctx : intel_sst_drv) (r : sync_result) (sent : intel_sst_drv)
    (hsent : sent.shim_writes = ctx.shim_writes ++ [(reg, hdr)] ∧ sent.shim reg = hdr ∧
      sent.ipc_dispatch_list = ctx.ipc_dispatch_list)
    (hfail : (sync_busy_wait busy reg dsp 0 ctx.shim).1 = false →
      r = { retval := -EBUSY,
            ctx := { ctx with shim := (sync_busy_wait busy reg dsp 0 ctx.shim).2.2 },
            reads := (sync_busy_wait busy reg dsp 0 ctx.shim).2.1 + 1,
            delays := (sync_busy_wait busy reg dsp 0 ctx.shim).2.1 })
    (hok : (sync_busy_wait busy reg dsp 0 ctx.shim).1 = true →
      r = { retval := 0, ctx := sent,
            reads := (sync_busy_wait busy reg dsp 0 ctx.shim).2.1 + 1,
            delays := (sync_busy_wait busy reg dsp 0 ctx.shim).2.1 }) :
    sync_contract busy hdr reg dsp ctx r := by
  obtain ⟨b1, b2, b3, b4, b5⟩ :=
    sync_busy_wait_spec busy reg dsp ctx 11 0 ctx.shim rfl (by omega) (by simp [doorbell_reading])
  cases hw : (sync_busy_wait busy reg dsp 0 ctx.shim).1 with
  | false =>
    have hr := hfail hw
    obtain ⟨c1, c2⟩ := b5 hw
    subst hr
    refine ⟨by simp [c1], by simp [c1], rfl, ?_, fun _ => ⟨rfl, rfl⟩, fun h => absurd rfl h, rfl⟩
    refine ⟨fun _ k hk => ?_, fun _ => rfl⟩
    by_cases hk11 : k = 11
    · subst hk11; exact c2
    · exact b3 k (by omega) (by omega)
  | true =>
    have hr := hok hw
    subst hr
    have hne : (0 : Int) ≠ -EBUSY := by simp [EBUSY]
    refine ⟨by simp; omega, by simpa using b2, rfl, ?_, fun h => absurd h hne,
      fun _ => ⟨rfl, hsent.1, hsent.2.1, b4 hw, fun k hk => b3 k (by omega) hk⟩, hsent.2.2⟩
    refine ⟨fun h => absurd h hne, fun hall => ?_⟩
    exact absurd (b4 hw) (hall _ (by omega))

/-- C8: each synchronous poster (`sst_sync_post_message_mfld`, `_mrfld`, `_mrfld32`) is a
total function of the doorbell readings and makes at most 12 reads of the doorbell and 11
delays; it returns -EBUSY exactly when the busy bit is set in all of the first 12
readings, and then writes neither a register nor the mailbox; otherwise it returns 0 after
the first reading with the busy bit clear and writes the header of the message to the
doorbell. The dispatch queue is unchanged in both cases. -/
theorem sst_sync_post_message_contract (H : sst_h) (ctx : intel_sst_drv) (dsp : Nat → Nat)
    (msg : ipc_post) :
    sync_contract H.part_busy msg.header ctx.ipcx dsp ctx
      (sst_sync_post_message_mfld H ctx dsp msg) ∧
    sync_contract H.high_busy msg.mrfld_header H.SST_IPCX dsp ctx
      (sst_sync_post_message_mrfld H ctx dsp msg) ∧
    sync_contract H.part_busy msg.header H.SST_IPCX dsp ctx
      (sst_sync_post_message_mrfld32 H ctx dsp msg) := by
  refine ⟨?_, ?_, ?_⟩
  · refine sync_contract_of _ _ _ _ _ _
      (sst_shim_write
        (if H.part_large msg.header ≠ 0 then
          { ctx with shim := (sync_busy_wait H.part_busy ctx.ipcx dsp 0 ctx.shim).2.2,
                     mailbox := memcpy_toio ctx.mailbox H.SST_MAILBOX_SEND msg.mailbox_data
                                  (H.part_data msg.header) }
         else { ctx with shim := (sync_busy_wait H.part_busy ctx.ipcx dsp 0 ctx.shim).2.2 })
        ctx.ipcx msg.header) ?_ ?_ ?_
    · by_cases hl : H.part_large msg.header = 0 <;> simp [hl, sst_shim_write]
    · intro hw
      unfold sst_sync_post_message_mfld
      rcases hh : sync_busy_wait H.part_busy ctx.ipcx dsp 0 ctx.shim with ⟨ok, n, sh⟩
      rw [hh] at hw; simp only at hw; subst hw; rfl
    · intro hw
      unfold sst_sync_post_message_mfld
      rcases hh : sync_busy_wait H.part_busy ctx.ipcx dsp 0 ctx.shim with ⟨ok, n, sh⟩
      rw [hh] at hw; simp only at hw; subst hw; rfl
  · refine sync_contract_of _ _ _ _ _ _
      (sst_shim_write
        (if H.high_large msg.mrfld_header ≠ 0 then
          { ctx with shim := (sync_busy_wait H.high_busy H.SST_IPCX dsp 0 ctx.shim).2.2,
                     mailbox := memcpy_toio ctx.mailbox H.SST_MAILBOX_SEND msg.mailbox_data
                                  (H.header_low_payload msg.mrfld_header) }
         else { ctx with shim := (sync_busy_wait H.high_busy H.SST_IPCX dsp 0 ctx.shim).2.2 })
        H.SST_IPCX msg.mrfld_header) ?_ ?_ ?_
    · by_cases hl : H.high_large msg.mrfld_header = 0 <;> simp [hl, sst_shim_write]
    · intro hw
      unfold sst_sync_post_message_mrfld
      rcases hh : sync_busy_wait H.high_busy H.SST_IPCX dsp 0 ctx.shim with ⟨ok, n, sh⟩
      rw [hh] at hw; simp only at hw; subst hw; rfl
    · intro hw
      unfold sst_sync_post_message_mrfld
      rcases hh : sync_busy_wait H.high_busy H.SST_IPCX dsp 0 ctx.shim with ⟨ok, n, sh⟩
      rw [hh] at hw; simp only at hw; subst hw; rfl
  · refine sync_contract_of _ _ _ _ _ _
      (sst_shim_write
        (if char_to_u32 (msg.mailbox_data 0) ≠ 0 then
          { ctx with shim := (sync_busy_wait H.part_busy H.SST_IPCX dsp 0 ctx.shim).2.2,
                     mailbox := memcpy_toio ctx.mailbox H.SST_MAILBOX_SEND msg.mailbox_data
                                  ((char_to_u32 (msg.mailbox_data 0) + 4) % 2 ^ 32) }
         else { ctx with shim := (sync_busy_wait H.part_busy H.SST_IPCX dsp 0 ctx.shim).2.2 })
        H.SST_IPCX msg.header) ?_ ?_ ?_
    · by_cases hl : char_to_u32 (msg.mailbox_data 0) = 0 <;> simp [hl, sst_shim_write]
    · intro hw
      unfold sst_sync_post_message_mrfld32
      rcases hh : sync_busy_wait H.part_busy H.SST_IPCX dsp 0 ctx.shim with ⟨ok, n, sh⟩
      rw [hh] at hw; simp only at hw; subst hw; rfl
    · intro hw
      unfold sst_sync_post_message_mrfld32
      rcases hh : sync_busy_wait H.part_busy H.SST_IPCX dsp 0 ctx.shim with ⟨ok, n, sh⟩
      rw [hh] at hw; simp only at hw; subst hw; rfl

/-- C8 evaluated on the short-header variant: with the busy bit set at entry and left set
by the DSP the call returns -EBUSY and writes nothing; when the DSP clears the bit during
the fourth delay the call returns 0 after 4 delays and 5 reads with the header in the
doorbell. -/
theorem sst_sync_post_message_contract_witness :
    ((sst_sync_post_message_mfld sst_h_x86 ctx_busy dsp_stuck
        (msg_short 0x80000105 0)).retval = -EBUSY ∧
     (sst_sync_post_message_mfld sst_h_x86 ctx_busy dsp_stuck
        (msg_short 0x80000105 0)).ctx.shim_writes = []) ∧
    ((sst_sync_post_message_mfld sst_h_x86 ctx_busy dsp_slow
        (msg_short 0x80000105 0)).retval = 0 ∧
     (sst_sync_post_message_mfld sst_h_x86 ctx_busy dsp_slow
        (msg_short 0x80000105 0)).delays = 4 ∧
     (sst_sync_post_message_mfld sst_h_x86 ctx_busy dsp_slow
        (msg_short 0x80000105 0)).ctx.shim 0x38 = 0x80000105) := by
  obtain ⟨-, -, -, a4, a5, -, -⟩ :=
    (sst_sync_post_message_contract sst_h_x86 ctx_busy dsp_stuck (msg_short 0x80000105 0)).1
  obtain ⟨-, b2, -, b4, -, b6, -⟩ :=
    (sst_sync_post_message_contract sst_h_x86 ctx_busy dsp_slow (msg_short 0x80000105 0)).1
  have hall : ∀ k, k < 12 → sst_h_x86.part_busy
      (doorbell_reading ctx_busy ctx_busy.ipcx dsp_stuck k) ≠ 0 := by
    intro k _
    unfold doorbell_reading
    split
    · decide
    · show sst_h_x86.part_busy 0x80000000 ≠ 0
      decide
  have hebusy := a4.mpr hall
  have hnot : ¬ ∀ k, k < 12 → sst_h_x86.part_busy
      (doorbell_reading ctx_busy ctx_busy.ipcx dsp_slow k) ≠ 0 := by
    intro h
    exact h 4 (by omega) (by decide)
  have hne := fun h => hnot (b4.mp h)
  obtain ⟨c1, -, c3, c4, c5⟩ := b6 hne
  refine ⟨⟨hebusy, (a5 hebusy).1⟩, c1, ?_, c3⟩
  have hle : (sst_sync_post_message_mfld sst_h_x86 ctx_busy dsp_slow
      (msg_short 0x80000105 0)).delays ≤ 4 := by
    by_contra hgt
    exact c5 4 (by omega) (by decide)
  generalize (sst_sync_post_message_mfld sst_h_x86 ctx_busy dsp_slow
      (msg_short 0x80000105 0)).delays = d at c4 hle
  interval_cases d
  · exact absurd c4 (by decide)
  · exact absurd c4 (by decide)
  · exact absurd c4 (by decide)
  · exact absurd c4 (by decide)
  · rfl

/-! ## Reply processor -/

/-- C9: a reply handled by `sst_process_reply_mrfld` that is not a period-elapsed or drain
notification and whose header has a nonzero result, a nonzero driver id and the large flag
clear does exactly what `sst_wake_up_block` does with (result, drv_id, msg_id, NULL, 0):
if a block matches, the first one receives ret_code = result, data = NULL, size = 0 and
condition = true and the only trace entry added is the wake-up (no callback, no
allocation, no copy, no queue or firmware-state change); if none matches, nothing
changes. -/
theorem sst_process_reply_mrfld_error_response (H : sst_h) (E : kernel_env)
    (ctx : intel_sst_drv) (msg : ipc_post)
    (hlarge : H.high_large msg.mrfld_header = 0)
    (hnotif : ¬ ((H.header_low_payload msg.mrfld_header &&& H.SST_ASYNC_MSG_MASK
                    = H.IPC_SST_PERIOD_ELAPSED_MRFLD ∨
                  H.header_low_payload msg.mrfld_header &&& H.SST_ASYNC_MSG_MASK
                    = H.IPC_IA_DRAIN_STREAM_MRFLD) ∧
                 H.high_msg_id msg.mrfld_header = H.IPC_CMD))
    (hres : H.high_result msg.mrfld_header ≠ 0)
    (hdrv : H.high_drv_id msg.mrfld_header ≠ 0) :
    sst_process_reply_mrfld H E ctx msg
      = Except.ok (sst_wake_up_block ctx (H.high_result msg.mrfld_header)
          (H.high_drv_id msg.mrfld_header) (H.high_msg_id msg.mrfld_header) none 0).2 ∧
    ((∃ b ∈ ctx.block_list, b.msg_id = H.high_msg_id msg.mrfld_header ∧
        b.drv_id = H.high_drv_id msg.mrfld_header) →
      ∃ pre b post,
        ctx.block_list = pre ++ b :: post ∧
        (∀ x ∈ pre, ¬ (x.msg_id = H.high_msg_id msg.mrfld_header ∧
          x.drv_id = H.high_drv_id msg.mrfld_header)) ∧
        (b.msg_id = H.high_msg_id msg.mrfld_header ∧
          b.drv_id = H.high_drv_id msg.mrfld_header) ∧
        sst_process_reply_mrfld H E ctx msg
          = Except.ok
              { ctx with
                block_list := pre ++ { b with ret_code := (H.high_result msg.mrfld_header : Int),
                                              data := none, size := 0,
                                              condition := true } :: post,
                trace := ctx.trace ++ [sst_event.wake_up] }) ∧
    ((∀ b ∈ ctx.block_list, ¬ (b.msg_id = H.high_msg_id msg.mrfld_header ∧
        b.drv_id = H.high_drv_id msg.mrfld_header)) →
      sst_process_reply_mrfld H E ctx msg = Except.ok ctx) := by
  have h1 : ¬ (H.header_low_payload msg.mrfld_header &&& H.SST_ASYNC_MSG_MASK
      = H.IPC_SST_PERIOD_ELAPSED_MRFLD ∧ H.high_msg_id msg.mrfld_header = H.IPC_CMD) :=
    fun h => hnotif ⟨Or.inl h.1, h.2⟩
  have h2 : ¬ (H.header_low_payload msg.mrfld_header &&& H.SST_ASYNC_MSG_MASK
      = H.IPC_IA_DRAIN_STREAM_MRFLD ∧ H.high_msg_id msg.mrfld_header = H.IPC_CMD) :=
    fun h => hnotif ⟨Or.inr h.1, h.2⟩
  have hmain : sst_process_reply_mrfld H E ctx msg
      = Except.ok (sst_wake_up_block ctx (H.high_result msg.mrfld_header)
          (H.high_drv_id msg.mrfld_header) (H.high_msg_id msg.mrfld_header) none 0).2 := by
    unfold sst_process_reply_mrfld
    simp only [hlarge, if_true, h1, h2, if_false, ne_eq, hres, hdrv, not_false_eq_true,
      and_self]
  refine ⟨hmain, ?_, ?_⟩
  · intro hex
    obtain ⟨pre, b, post, hl, hpre, hb, hs⟩ :=
      wake_up_scan_first (H.high_result msg.mrfld_header) (H.high_drv_id msg.mrfld_header)
        (H.high_msg_id msg.mrfld_header) none 0 ctx.block_list hex
    refine ⟨pre, b, post, hl, hpre, hb, ?_⟩
    rw [hmain]
    simp [sst_wake_up_block, hs, completed]
  · intro hno
    rw [hmain]
    have := (wake_up_scan_none_iff (H.high_result msg.mrfld_header)
      (H.high_drv_id msg.mrfld_header) (H.high_msg_id msg.mrfld_header) none 0
      ctx.block_list).mpr hno
    simp [sst_wake_up_block, this]

/-- C9 evaluated: the reply 0x03002005_00001234 (result 3, driver id 2, message id 5, not
large) completes block (5, 2) with ret_code 3 and no payload, and adds only the wake-up
to the trace. -/
theorem sst_process_reply_mrfld_error_response_witness :
    sst_process_reply_mrfld sst_h_x86 env_ok ctx_two_blocks (reply_msg 0 0x0300200500001234)
      = Except.ok
          { ctx_idle with
            block_list := [block_new 1 7 3,
                           { block_new 2 5 2 with ret_code := 3, condition := true }],
            trace := [sst_event.wake_up] } := by
  rw [(sst_process_reply_mrfld_error_response sst_h_x86 env_ok ctx_two_blocks
    (reply_msg 0 0x0300200500001234) (by decide) (by decide) (by decide) (by decide)).1]
  rfl

theorem copy_bytes_length (src : Nat → Nat) (n : Nat) : (copy_bytes src n).length = n := by
  simp [copy_bytes]

theorem copy_bytes_get (src : Nat → Nat) (n i : Nat) (h : i < n) :
    (copy_bytes src n)[i]? = some (src i) := by
  simp [copy_bytes, List.getElem?_map, List.getElem?_range h]

/-- C10: when the allocation of the payload buffer succeeds and a block with the key of
the reply is registered, a large reply that is not taken for a notification and whose
driver id is not the async class is handled by completing the first such block with a
buffer of n bytes that are, byte for byte, the first n bytes of the mailbox snapshot, and
with size n, where n is the length carried by the header: `sst_process_reply_mrfld` with
n the low word and the result of the header as ret_code, `sst_process_reply_mfld` with n
the data field and ret_code 0. -/
theorem large_reply_payload (H : sst_h) (E : kernel_env) (ctx : intel_sst_drv) (msg : ipc_post)
    (halloc : E.kzalloc_data = true) :
    (H.high_large msg.mrfld_header ≠ 0 →
      H.high_drv_id msg.mrfld_header ≠ H.SST_ASYNC_DRV_ID →
      ¬ ((0 = H.IPC_SST_PERIOD_ELAPSED_MRFLD ∨ 0 = H.IPC_IA_DRAIN_STREAM_MRFLD) ∧
          H.high_msg_id msg.mrfld_header = H.IPC_CMD) →
      (∃ b ∈ ctx.block_list, b.msg_id = H.high_msg_id msg.mrfld_header ∧
        b.drv_id = H.high_drv_id msg.mrfld_header) →
      ∃ pre b post r,
        ctx.block_list = pre ++ b :: post ∧
        (∀ x ∈ pre, ¬ (x.msg_id = H.high_msg_id msg.mrfld_header ∧
          x.drv_id = H.high_drv_id msg.mrfld_header)) ∧
        (b.msg_id = H.high_msg_id msg.mrfld_header ∧
          b.drv_id = H.high_drv_id msg.mrfld_header) ∧
        sst_process_reply_mrfld H E ctx msg = Except.ok r ∧
        r.block_list
          = pre ++ { b with ret_code := (H.high_result msg.mrfld_header : Int),
                            data := some (copy_bytes msg.mailbox_data
                                      (H.header_low_payload msg.mrfld_header)),
                            size := H.header_low_payload msg.mrfld_header,
                            condition := true } :: post) ∧
    (H.part_large msg.header ≠ 0 →
      H.part_msg_id msg.header ≠ H.IPC_IA_DRAIN_STREAM →
      (∃ b ∈ ctx.block_list, b.msg_id = H.part_msg_id msg.header ∧
        b.drv_id = H.part_str_id msg.header) →
      ∃ pre b post,
        ctx.block_list = pre ++ b :: post ∧
        (∀ x ∈ pre, ¬ (x.msg_id = H.part_msg_id msg.header ∧
          x.drv_id = H.part_str_id msg.header)) ∧
        (b.msg_id = H.part_msg_id msg.header ∧ b.drv_id = H.part_str_id msg.header) ∧
        (sst_process_reply_mfld H E ctx msg).block_list
          = pre ++ { b with ret_code := 0,
                            data := some (copy_bytes msg.mailbox_data
                                      (H.part_data msg.header)),
                            size := H.part_data msg.header,
                            condition := true } :: post) ∧
    (∀ n, (copy_bytes msg.mailbox_data n).length = n ∧
      ∀ i, i < n → (copy_bytes msg.mailbox_data n)[i]? = some (msg.mailbox_data i)) := by
  refine ⟨?_, ?_, fun n => ⟨copy_bytes_length _ n, fun i hi => copy_bytes_get _ n i hi⟩⟩
  · intro hlarge hdrv hnotif hex
    have h1 : ¬ (0 = H.IPC_SST_PERIOD_ELAPSED_MRFLD ∧ H.high_msg_id msg.mrfld_header = H.IPC_CMD) :=
      fun h => hnotif ⟨Or.inl h.1, h.2⟩
    have h2 : ¬ (0 = H.IPC_IA_DRAIN_STREAM_MRFLD ∧ H.high_msg_id msg.mrfld_header = H.IPC_CMD) :=
      fun h => hnotif ⟨Or.inr h.1, h.2⟩
    obtain ⟨pre, b, post, hl, hpre, hb, hs⟩ :=
      wake_up_scan_first (H.high_result msg.mrfld_header) (H.high_drv_id msg.mrfld_header)
        (H.high_msg_id msg.mrfld_header)
        (some (copy_bytes msg.mailbox_data (H.header_low_payload msg.mrfld_header)))
        (H.header_low_payload msg.mrfld_header) ctx.block_list hex
    have hw : sst_wake_up_block
        (emit ctx (sst_event.kzalloc (H.header_low_payload msg.mrfld_header) true))
        (H.high_result msg.mrfld_header) (H.high_drv_id msg.mrfld_header)
        (H.high_msg_id msg.mrfld_header)
        (some (copy_bytes msg.mailbox_data (H.header_low_payload msg.mrfld_header)))
        (H.header_low_payload msg.mrfld_header)
        = (0, { emit ctx (sst_event.kzalloc (H.header_low_payload msg.mrfld_header)
                  true) with
                block_list := pre ++ completed b (H.high_result msg.mrfld_header)
                  (some (copy_bytes msg.mailbox_data (H.header_low_payload msg.mrfld_header)))
                  (H.header_low_payload msg.mrfld_header) :: post,
                trace := (emit ctx (sst_event.kzalloc (H.header_low_payload msg.mrfld_header)
                  true)).trace ++ [sst_event.wake_up] }) := by
      simp [sst_wake_up_block, emit, hs]
    refine ⟨pre, b, post,
      (sst_wake_up_block
        (emit ctx (sst_event.kzalloc (H.header_low_payload msg.mrfld_header) true))
        (H.high_result msg.mrfld_header) (H.high_drv_id msg.mrfld_header)
        (H.high_msg_id msg.mrfld_header)
        (some (copy_bytes msg.mailbox_data (H.header_low_payload msg.mrfld_header)))
        (H.header_low_payload msg.mrfld_header)).2, hl, hpre, hb, ?_, ?_⟩
    · unfold sst_process_reply_mrfld
      simp only [hlarge, if_false, h1, h2, ne_eq, not_false_eq_true, and_false, hdrv,
        not_true_eq_false, if_true, halloc, Bool.true_eq_false, hw]
    · rw [hw]
      simp [completed]
  · intro hlarge hdrain hex
    obtain ⟨pre, b, post, hl, hpre, hb, hs⟩ :=
      wake_up_scan_first 0 (H.part_str_id msg.header) (H.part_msg_id msg.header)
        (some (copy_bytes msg.mailbox_data (H.part_data msg.header)))
        (H.part_data msg.header) ctx.block_list hex
    refine ⟨pre, b, post, hl, hpre, hb, ?_⟩
    unfold sst_process_reply_mfld
    simp [hlarge, hdrain, halloc, sst_wake_up_block, emit, hs, completed]

/-- C10 evaluated with n = 64: for the large reply 0x20003007_00000040 (message id 7,
driver id 3, length 64) and a mailbox snapshot holding 10, 11, 12, ..., block (7, 3)
receives a 64-byte buffer equal to the first 64 bytes of the snapshot, and size 64. -/
theorem large_reply_payload_witness :
    env_ok.kzalloc_data = true ∧
    (∃ pre b post r,
      ctx_two_blocks.block_list = pre ++ b :: post ∧
      (∀ x ∈ pre, ¬ (x.msg_id = 7 ∧ x.drv_id = 3)) ∧
      (b.msg_id = 7 ∧ b.drv_id = 3) ∧
      sst_process_reply_mrfld sst_h_x86 env_ok ctx_two_blocks (reply_msg 0 0x2000300700000040)
        = Except.ok r ∧
      r.block_list
        = pre ++ { b with ret_code := 0,
                          data := some (copy_bytes (fun i => 10 + i) 64),
                          size := 64, condition := true } :: post) ∧
    sst_process_reply_mrfld sst_h_x86 env_ok ctx_two_blocks (reply_msg 0 0x2000300700000040)
      = Except.ok
          { ctx_idle with
            block_list := [{ block_new 1 7 3 with data := some (copy_bytes (fun i => 10 + i) 64),
                                                  size := 64, condition := true },
                           block_new 2 5 2],
            trace := [sst_event.kzalloc 64 true, sst_event.wake_up] } ∧
    (copy_bytes (fun i => 10 + i) 64).length = 64 ∧
    (copy_bytes (fun i => 10 + i) 64)[63]? = some 73 :=
  ⟨rfl,
   (large_reply_payload sst_h_x86 env_ok ctx_two_blocks (reply_msg 0 0x2000300700000040) rfl).1
     (by decide) (by decide) (by decide) ⟨block_new 1 7 3, by simp [ctx_two_blocks], rfl, rfl⟩,
   rfl,
   ((large_reply_payload sst_h_x86 env_ok ctx_two_blocks (reply_msg 0 0x2000300700000040)
      rfl).2.2 64).1,
   ((large_reply_payload sst_h_x86 env_ok ctx_two_blocks (reply_msg 0 0x2000300700000040)
      rfl).2.2 64).2 63 (by omega)⟩

/-! ## Waiting and recovery -/

theorem sst_stream_recovery_eq (H : sst_h) (ctx : intel_sst_drv) :
    sst_stream_recovery H ctx
      = { ctx with trace := ctx.trace ++ pcm_stop_events H ctx.streams ctx.max_streams } := by
  have key : ∀ n, (List.range n).foldl (fun c k => stream_recovery_step H c (k + 1)) ctx
      = { ctx with trace := ctx.trace ++ pcm_stop_events H ctx.streams n } := by
    intro n
    induction n with
    | zero => simp [pcm_stop_events]
    | succ n ih =>
      rw [List.range_succ, List.foldl_append, ih]
      simp only [List.foldl_cons, List.foldl_nil, stream_recovery_step, pcm_stop_events, emit]
      split <;> simp
  exact key ctx.max_streams

theorem stream_recovery_step_max_streams (H : sst_h) (ctx : intel_sst_drv) (i : Nat) :
    (stream_recovery_step H ctx i).max_streams = ctx.max_streams := by
  unfold stream_recovery_step
  split <;> rfl

theorem sst_stream_recovery_u8_range (H : sst_h) :
    ∀ (n fuel i : Nat) (ctx : intel_sst_drv), i + n = ctx.max_streams + 1 →
      ctx.max_streams < 255 → n < fuel →
      sst_stream_recovery_u8 H fuel i ctx
        = some ((List.range' i n).foldl (stream_recovery_step H) ctx)
  | 0, fuel, i, ctx, h, _, hf => by
    obtain ⟨f, rfl⟩ : ∃ f, fuel = f + 1 := ⟨fuel - 1, by omega⟩
    have hi : ¬ i ≤ ctx.max_streams := by omega
    rw [sst_stream_recovery_u8, if_neg hi]
    rfl
  | n + 1, fuel, i, ctx, h, hm, hf => by
    obtain ⟨f, rfl⟩ : ∃ f, fuel = f + 1 := ⟨fuel - 1, by omega⟩
    have hi : i ≤ ctx.max_streams := by omega
    have hmod : (i + 1) % 256 = i + 1 := by omega
    have hmax := stream_recovery_step_max_streams H ctx i
    rw [sst_stream_recovery_u8, if_pos hi, hmod, List.range'_succ, List.foldl_cons]
    exact sst_stream_recovery_u8_range H n f (i + 1) (stream_recovery_step H ctx i)
      (by rw [hmax]; omega) (by rw [hmax]; exact hm) (by omega)

theorem sst_stream_recovery_u8_returns (H : sst_h) (ctx : intel_sst_drv)
    (h : ctx.max_streams < 255) :
    sst_stream_recovery_u8 H 256 1 ctx = some (sst_stream_recovery H ctx) := by
  rw [sst_stream_recovery_u8_range H ctx.max_streams 256 1 ctx (by omega) h (by omega)]
  unfold sst_stream_recovery
  rw [List.range'_eq_map_range, List.foldl_map]
  simp only [Nat.add_comm 1]

theorem sst_stream_recovery_u8_never (H : sst_h) :
    ∀ (fuel i : Nat) (ctx : intel_sst_drv), 255 ≤ ctx.max_streams → i < 256 →
      sst_stream_recovery_u8 H fuel i ctx = none
  | 0, _, _, _, _ => rfl
  | fuel + 1, i, ctx, hm, hi => by
    have hle : i ≤ ctx.max_streams := by omega
    rw [sst_stream_recovery_u8, if_pos hle]
    exact sst_stream_recovery_u8_never H fuel _ _
      (by rw [stream_recovery_step_max_streams]; exact hm) (Nat.mod_lt _ (by norm_num))

theorem write_shim_data_zero (H : sst_h) (ctx : intel_sst_drv) (addr : Nat) :
    write_shim_data H ctx addr 0
      = if ctx.pci_id = H.SST_CLV_PCI_ID ∨ ctx.pci_id = H.SST_MRFLD_PCI_ID ∨
            ctx.pci_id = H.SST_BYT_PCI_ID then
          { ctx with shim := Function.update ctx.shim addr 0,
                     shim_writes := ctx.shim_writes ++ [(addr, 0)] }
        else ctx := by
  unfold write_shim_data sst_shim_write
  by_cases h1 : ctx.pci_id = H.SST_CLV_PCI_ID
  · simp [h1]
  · by_cases h2 : ctx.pci_id = H.SST_MRFLD_PCI_ID ∨ ctx.pci_id = H.SST_BYT_PCI_ID
    · simp [h1, h2]
    · simp [h1, h2]

theorem fold_write_zero (H : sst_h) (l : List Nat) :
    ∀ ctx : intel_sst_drv,
      l.foldl (fun c a => write_shim_data H c a 0) ctx
        = if ctx.pci_id = H.SST_CLV_PCI_ID ∨ ctx.pci_id = H.SST_MRFLD_PCI_ID ∨
              ctx.pci_id = H.SST_BYT_PCI_ID then
            { ctx with shim := l.foldl (fun f a => Function.update f a 0) ctx.shim,
                       shim_writes := ctx.shim_writes ++ l.map (fun a => (a, 0)) }
          else ctx := by
  induction l with
  | nil => intro ctx; simp
  | cons a l ih =>
    intro ctx
    rw [List.foldl_cons, ih, write_shim_data_zero]
    by_cases h : ctx.pci_id = H.SST_CLV_PCI_ID ∨ ctx.pci_id = H.SST_MRFLD_PCI_ID ∨
        ctx.pci_id = H.SST_BYT_PCI_ID
    · simp [h]
    · simp [h]

theorem fold_update_zero_fixed (l : List Nat) :
    ∀ f : Nat → Nat, (∀ a ∈ l, f a = 0) → l.foldl (fun f a => Function.update f a 0) f = f := by
  induction l with
  | nil => intro f _; rfl
  | cons a l ih =>
    intro f h
    have ha : Function.update f a 0 = f := by
      rw [← h a (List.mem_cons_self a l)]
      exact Function.update_eq_self a f
    rw [List.foldl_cons, ha]
    exact ih f (fun x hx => h x (List.mem_cons_of_mem a hx))

theorem fold_update_zero_mem (l : List Nat) :
    ∀ (f : Nat → Nat) (x : Nat),
      (x ∈ l ∨ f x = 0) → l.foldl (fun f a => Function.update f a 0) f x = 0 := by
  induction l with
  | nil =>
    intro f x h
    rcases h with h | h
    · simp at h
    · exact h
  | cons a l ih =>
    intro f x h
    rw [List.foldl_cons]
    apply ih
    by_cases hx : x = a
    · right; subst hx; simp
    · rcases h with h | h
      · left
        rcases List.mem_cons.mp h with h | h
        · exact absurd h hx
        · exact h
      · right; rw [Function.update_noteq hx]; exact h

theorem recovery_drain_eq (l : List ipc_post) :
    ∀ ctx : intel_sst_drv, ctx.ipc_dispatch_list = l →
      recovery_drain l ctx
        = { ctx with ipc_dispatch_list := [],
                     trace := ctx.trace ++ l.map (fun m => sst_event.free_pending m.header) } := by
  induction l with
  | nil =>
    intro ctx h
    cases ctx
    simp only at h
    subst h
    simp [recovery_drain]
  | cons m rest ih =>
    intro ctx h
    rw [recovery_drain, ih _ rfl]
    simp [emit]

theorem freed_headers_append (a b : List sst_event) :
    freed_headers (a ++ b) = freed_headers a ++ freed_headers b := by
  induction a with
  | nil => rfl
  | cons e a ih => cases e <;> simp [freed_headers, ih]

theorem freed_headers_pcm_stop (H : sst_h) (streams : Nat → stream_info) (n : Nat) :
    freed_headers (pcm_stop_events H streams n) = [] := by
  induction n with
  | zero => rfl
  | succ n ih =>
    rw [pcm_stop_events, freed_headers_append, ih]
    split <;> rfl

theorem freed_headers_free_pending (l : List ipc_post) :
    freed_headers (l.map (fun m => sst_event.free_pending m.header))
      = l.map ipc_post.header := by
  induction l with
  | nil => rfl
  | cons m l ih => simp [freed_headers, ih]

theorem count_dump_stack_pcm_stop (H : sst_h) (streams : Nat → stream_info) (n : Nat) :
    (pcm_stop_events H streams n).count sst_event.dump_stack = 0 := by
  induction n with
  | zero => rfl
  | succ n ih =>
    rw [pcm_stop_events, List.count_append, ih]
    split <;> simp

theorem count_dump_stack_free_pending (l : List ipc_post) :
    (l.map (fun m => sst_event.free_pending m.header)).count sst_event.dump_stack = 0 := by
  induction l with
  | nil => rfl
  | cons m l ih => simp [List.count_cons, ih]

theorem recovery_nf_proj (ctx : intel_sst_drv) (st : Nat) (q : List ipc_post)
    (sh : Nat → Nat) (sw : List (Nat × Nat)) (d : sst_dump_buf) (t : List sst_event) :
    (recovery_nf ctx st q sh sw d t).sst_state = st ∧
    (recovery_nf ctx st q sh sw d t).ipc_dispatch_list = q ∧
    (recovery_nf ctx st q sh sw d t).shim = sh ∧
    (recovery_nf ctx st q sh sw d t).shim_writes = sw ∧
    (recovery_nf ctx st q sh sw d t).trace = t ∧
    (recovery_nf ctx st q sh sw d t).mailbox = ctx.mailbox ∧
    (recovery_nf ctx st q sh sw d t).block_list = ctx.block_list ∧
    (recovery_nf ctx st q sh sw d t).pci_id = ctx.pci_id ∧
    (recovery_nf ctx st q sh sw d t).ipcx = ctx.ipcx ∧
    (recovery_nf ctx st q sh sw d t).ipcd = ctx.ipcd :=
  ⟨rfl, rfl, rfl, rfl, rfl, rfl, rfl, rfl, rfl, rfl⟩

theorem block_at_recovery_nf (ctx : intel_sst_drv) (st : Nat) (q : List ipc_post)
    (sh : Nat → Nat) (sw : List (Nat × Nat)) (d : sst_dump_buf) (t : List sst_event)
    (block : Nat) :
    block_at (recovery_nf ctx st q sh sw d t) block = block_at ctx block := rfl

theorem recovery_nf_self (ctx : intel_sst_drv) :
    ctx = recovery_nf ctx ctx.sst_state ctx.ipc_dispatch_list ctx.shim ctx.shim_writes
            ctx.dump_buf ctx.trace := by
  cases ctx; rfl

theorem recovery_nf_emit (ctx : intel_sst_drv) (st : Nat) (q : List ipc_post) (sh : Nat → Nat)
    (sw : List (Nat × Nat)) (d : sst_dump_buf) (t : List sst_event) (e : sst_event) :
    emit (recovery_nf ctx st q sh sw d t) e = recovery_nf ctx st q sh sw d (t ++ [e]) := rfl

theorem recovery_nf_stream (H : sst_h) (ctx : intel_sst_drv) (st : Nat) (q : List ipc_post)
    (sh : Nat → Nat) (sw : List (Nat × Nat)) (d : sst_dump_buf) (t : List sst_event) :
    sst_stream_recovery H (recovery_nf ctx st q sh sw d t)
      = recovery_nf ctx st q sh sw d (t ++ pcm_stop_events H ctx.streams ctx.max_streams) := by
  rw [sst_stream_recovery_eq]; rfl

theorem recovery_nf_reset (H : sst_h) (ctx : intel_sst_drv) (st : Nat) (q : List ipc_post)
    (d : sst_dump_buf) (t : List sst_event) :
    reset_sst_shim H (recovery_nf ctx st q ctx.shim ctx.shim_writes d t)
      = recovery_nf ctx st q (reset_sst_shim H ctx).shim (reset_sst_shim H ctx).shim_writes
          d t := by
  unfold reset_sst_shim
  rw [fold_write_zero, fold_write_zero]
  by_cases hk : ctx.pci_id = H.SST_CLV_PCI_ID ∨ ctx.pci_id = H.SST_MRFLD_PCI_ID ∨
      ctx.pci_id = H.SST_BYT_PCI_ID
  · simp [hk, recovery_nf]
  · simp [hk, recovery_nf]

theorem recovery_nf_dump_ram_area (ctx : intel_sst_drv) (st : Nat) (q : List ipc_post)
    (sh : Nat → Nat) (sw : List (Nat × Nat)) (d : sst_dump_buf) (t : List sst_event)
    (iram : Bool) :
    dump_ram_area (recovery_nf ctx st q sh sw d t) iram
      = recovery_nf ctx st q sh sw (dump_after ctx d iram) t := by
  cases iram <;> rfl

theorem recovery_nf_drain (ctx : intel_sst_drv) (st : Nat) (q : List ipc_post)
    (sh : Nat → Nat) (sw : List (Nat × Nat)) (d : sst_dump_buf) (t : List sst_event) :
    recovery_drain q (recovery_nf ctx st q sh sw d t)
      = recovery_nf ctx st [] sh sw d (t ++ q.map (fun m => sst_event.free_pending m.header)) := by
  rw [recovery_drain_eq q _ rfl]; rfl

theorem sst_do_recovery_eq (H : sst_h) (ctx : intel_sst_drv) :
    ∃ (t : List sst_event) (dump : sst_dump_buf),
      sst_do_recovery H ctx
        = recovery_nf ctx H.SST_UN_INIT [] (reset_sst_shim H ctx).shim
            (reset_sst_shim H ctx).shim_writes dump (ctx.trace ++ t) ∧
      t.count sst_event.dump_stack = 1 ∧
      freed_headers t = ctx.ipc_dispatch_list.map ipc_post.header := by
  have h1 : ∃ t0, ({ (if ctx.sst_state = H.SST_FW_RUNNING ∧ ctx.pci_id = H.SST_CLV_PCI_ID then
        dump_sst_crash_area ctx else ctx) with sst_state := H.SST_UN_INIT } : intel_sst_drv)
      = recovery_nf ctx H.SST_UN_INIT ctx.ipc_dispatch_list ctx.shim ctx.shim_writes
          ctx.dump_buf (ctx.trace ++ t0) ∧
      t0.count sst_event.dump_stack = 0 ∧ freed_headers t0 = [] := by
    by_cases hc : ctx.sst_state = H.SST_FW_RUNNING ∧ ctx.pci_id = H.SST_CLV_PCI_ID
    · exact ⟨[sst_event.dump_sst_crash_area], by rw [if_pos hc]; rfl, by decide, rfl⟩
    · refine ⟨[], ?_, rfl, rfl⟩
      rw [if_neg hc, List.append_nil]
      rfl
  obtain ⟨t0, e1, k1, f1⟩ := h1
  have h6 : ∀ (t : List sst_event),
      ∃ t6 d6, recovery_dump_ram (recovery_nf ctx H.SST_UN_INIT ctx.ipc_dispatch_list
          (reset_sst_shim H ctx).shim (reset_sst_shim H ctx).shim_writes ctx.dump_buf t)
        = recovery_nf ctx H.SST_UN_INIT ctx.ipc_dispatch_list (reset_sst_shim H ctx).shim
            (reset_sst_shim H ctx).shim_writes d6 (t ++ t6) ∧
        t6.count sst_event.dump_stack = 0 ∧ freed_headers t6 = [] := by
    intro t
    unfold recovery_dump_ram
    by_cases hb : ctx.set_bypass = true
    · have hb2 : (recovery_nf ctx H.SST_UN_INIT ctx.ipc_dispatch_list
          (reset_sst_shim H ctx).shim (reset_sst_shim H ctx).shim_writes ctx.dump_buf
          t).set_bypass = true := hb
      rw [if_pos hb2, recovery_nf_emit, recovery_nf_dump_ram_area, recovery_nf_dump_ram_area,
        recovery_nf_emit, List.append_assoc]
      exact ⟨_, _, rfl, by decide, rfl⟩
    · have hb2 : ¬ (recovery_nf ctx H.SST_UN_INIT ctx.ipc_dispatch_list
          (reset_sst_shim H ctx).shim (reset_sst_shim H ctx).shim_writes ctx.dump_buf
          t).set_bypass = true := hb
      rw [if_neg hb2]
      exact ⟨[], _, by rw [List.append_nil], rfl, rfl⟩
  unfold sst_do_recovery
  simp only []
  rw [e1, recovery_nf_stream, recovery_nf_emit]
  unfold dump_sst_shim
  rw [recovery_nf_emit, recovery_nf_reset]
  obtain ⟨t6, d6, e6, k6, f6⟩ := h6 _
  rw [e6]
  unfold recovery_send_uevent
  rw [recovery_nf_emit]
  have hq : ∀ t, (recovery_nf ctx H.SST_UN_INIT ctx.ipc_dispatch_list
      (reset_sst_shim H ctx).shim (reset_sst_shim H ctx).shim_writes d6 t).ipc_dispatch_list
      = ctx.ipc_dispatch_list := fun _ => rfl
  rw [hq, recovery_nf_drain]
  simp only [List.append_assoc]
  refine ⟨_, d6, rfl, ?_, ?_⟩
  · simp only [List.count_append, k1, k6, count_dump_stack_pcm_stop,
      count_dump_stack_free_pending]
    simp [List.count_cons]
  · simp only [freed_headers_append, f1, f6, freed_headers_pcm_stop,
      freed_headers_free_pending]
    simp [freed_headers]

theorem emit_eq_recovery_nf (ctx : intel_sst_drv) (e : sst_event) :
    emit ctx e
      = recovery_nf ctx ctx.sst_state ctx.ipc_dispatch_list ctx.shim ctx.shim_writes
          ctx.dump_buf (ctx.trace ++ [e]) := by
  cases ctx; rfl

theorem sst_do_recovery_else_eq (H : sst_h) (ctx : intel_sst_drv) :
    ∃ t : List sst_event,
      sst_do_recovery_else H ctx
        = recovery_nf ctx ctx.sst_state ctx.ipc_dispatch_list ctx.shim ctx.shim_writes
            ctx.dump_buf (ctx.trace ++ t) ∧
      t.count sst_event.dump_stack = 1 ∧ freed_headers t = [] := by
  unfold sst_do_recovery_else
  by_cases hm : ctx.pci_id = H.SST_MRFLD_PCI_ID
  · rw [if_pos hm, emit_eq_recovery_nf]
    exact ⟨[sst_event.dump_stack], rfl, by decide, rfl⟩
  · rw [if_neg hm]
    simp only []
    unfold dump_sst_shim dump_sst_crash_area
    rw [emit_eq_recovery_nf ctx, recovery_nf_emit]
    by_cases hc : ctx.sst_state = H.SST_FW_RUNNING ∧ ctx.pci_id = H.SST_CLV_PCI_ID
    · rw [if_pos hc, recovery_nf_emit]
      simp only [List.append_assoc]
      exact ⟨_, rfl, by simp [List.count_cons], rfl⟩
    · rw [if_neg hc]
      simp only [List.append_assoc]
      exact ⟨_, rfl, by simp [List.count_cons], rfl⟩

theorem reset_sst_shim_writes (H : sst_h) (ctx : intel_sst_drv) :
    ∃ w : List (Nat × Nat),
      (reset_sst_shim H ctx).shim_writes = ctx.shim_writes ++ w ∧ ∀ x ∈ w, x.2 = 0 := by
  unfold reset_sst_shim
  rw [fold_write_zero]
  by_cases hk : ctx.pci_id = H.SST_CLV_PCI_ID ∨ ctx.pci_id = H.SST_MRFLD_PCI_ID ∨
      ctx.pci_id = H.SST_BYT_PCI_ID
  · rw [if_pos hk]
    refine ⟨_, rfl, ?_⟩
    intro x hx
    obtain ⟨a, -, rfl⟩ := List.mem_map.mp hx
    rfl
  · rw [if_neg hk]
    exact ⟨[], by simp, by simp⟩

theorem reset_sst_shim_fixed (H : sst_h) (ctx c : intel_sst_drv) (hp : c.pci_id = ctx.pci_id)
    (hx : c.ipcx = ctx.ipcx) (hd : c.ipcd = ctx.ipcd)
    (hs : c.shim = (reset_sst_shim H ctx).shim) :
    (reset_sst_shim H c).shim = c.shim := by
  unfold reset_sst_shim at hs ⊢
  rw [fold_write_zero] at hs ⊢
  rw [hp, hx, hd]
  by_cases hk : ctx.pci_id = H.SST_CLV_PCI_ID ∨ ctx.pci_id = H.SST_MRFLD_PCI_ID ∨
      ctx.pci_id = H.SST_BYT_PCI_ID
  · rw [if_pos hk] at hs ⊢
    simp only at hs ⊢
    apply fold_update_zero_fixed
    intro a ha
    rw [hs]
    exact fold_update_zero_mem _ _ _ (Or.inl ha)
  · rw [if_neg hk]

theorem block_at_set_off (ctx : intel_sst_drv) (block : Nat) (b : sst_block)
    (h : block_at ctx block = some b) :
    block_at (block_set_off ctx block) block = some { b with is_on := false } := by
  unfold block_at block_set_off at *
  simp only
  generalize ctx.block_list = l at h
  induction l with
  | nil => simp at h
  | cons x xs ih =>
    by_cases hx : x.addr = block
    · rw [List.find?_cons_of_pos _ (by simpa using hx)] at h
      have hxb : x = b := Option.some.inj h
      subst hxb
      rw [List.map_cons, if_pos hx, List.find?_cons_of_pos _ (by simpa using hx)]
    · rw [List.find?_cons_of_neg _ (by simpa using hx)] at h
      rw [List.map_cons, if_neg hx, List.find?_cons_of_neg _ (by simpa using hx)]
      exact ih h

theorem first_split_unique (p : sst_block → Prop) :
    ∀ (pre pre2 post post2 : List sst_block) (b b2 : sst_block),
      pre ++ b :: post = pre2 ++ b2 :: post2 →
      (∀ x ∈ pre, ¬ p x) → (∀ x ∈ pre2, ¬ p x) → p b → p b2 →
      pre = pre2 ∧ b = b2 ∧ post = post2 := by
  intro pre
  induction pre with
  | nil =>
    intro pre2 post post2 b b2 h _ hp2 hb _
    cases pre2 with
    | nil => simpa using h
    | cons y ys =>
      exfalso
      have hy : b = y := (List.cons.inj h).1
      exact hp2 y (List.mem_cons_self _ _) (by rw [← hy]; exact hb)
  | cons x xs ih =>
    intro pre2 post post2 b b2 h hp hp2 hb hb2
    cases pre2 with
    | nil =>
      exfalso
      have hx : x = b2 := (List.cons.inj h).1
      exact hp x (List.mem_cons_self _ _) (by rw [hx]; exact hb2)
    | cons y ys =>
      have hxy : x = y := (List.cons.inj h).1
      have htl : xs ++ b :: post = ys ++ b2 :: post2 := (List.cons.inj h).2
      obtain ⟨e1, e2, e3⟩ := ih ys post post2 b b2 htl
        (fun z hz => hp z (List.mem_cons_of_mem _ hz))
        (fun z hz => hp2 z (List.mem_cons_of_mem _ hz)) hb hb2
      exact ⟨by rw [hxy, e1], e2, e3⟩

theorem block_at_first (l pre post : List sst_block) (b : sst_block) (block : Nat)
    (hl : l = pre ++ b :: post) (hb : b.addr = block) (hpre : ∀ x ∈ pre, x.addr ≠ block) :
    l.find? (fun x => decide (x.addr = block)) = some b := by
  subst hl
  rw [List.find?_append]
  have h1 : pre.find? (fun x => decide (x.addr = block)) = none := by
    rw [List.find?_eq_none]
    intro x hx
    simpa using hpre x hx
  rw [h1, List.find?_cons_of_pos _ (by simpa using hb)]
  rfl

/-- C11: when the block's condition is true at the end of the wait, `sst_wait_timeout`
returns exactly the block's ret_code and leaves the whole driver state unchanged (no
recovery: firmware state, dispatch queue and the block's on flag are as before), in both
builds. In particular, after `sst_process_reply_mrfld` has handled a short reply with
result 0 whose key is the key of the waiter's block, the first with that key, the wait
returns 0 and the block holds data NULL. -/
theorem sst_wait_timeout_completed (H : sst_h) (CONFIG_SND_INTEL_SST_RECOVERY : Bool)
    (ctx : intel_sst_drv) (block : Nat) :
    (∀ b, block_at ctx block = some b → b.condition = true →
      sst_wait_timeout H CONFIG_SND_INTEL_SST_RECOVERY ctx block = some (b.ret_code, ctx)) ∧
    (∀ (E : kernel_env) (msg : ipc_post) (pre post : List sst_block) (b : sst_block),
      H.high_large msg.mrfld_header = 0 →
      ¬ ((H.header_low_payload msg.mrfld_header &&& H.SST_ASYNC_MSG_MASK
            = H.IPC_SST_PERIOD_ELAPSED_MRFLD ∨
          H.header_low_payload msg.mrfld_header &&& H.SST_ASYNC_MSG_MASK
            = H.IPC_IA_DRAIN_STREAM_MRFLD) ∧
         H.high_msg_id msg.mrfld_header = H.IPC_CMD) →
      H.high_result msg.mrfld_header = 0 →
      H.high_drv_id msg.mrfld_header ≠ H.SST_ASYNC_DRV_ID →
      ctx.block_list = pre ++ b :: post →
      (∀ x ∈ pre, ¬ (x.msg_id = H.high_msg_id msg.mrfld_header ∧
        x.drv_id = H.high_drv_id msg.mrfld_header) ∧ x.addr ≠ block) →
      b.msg_id = H.high_msg_id msg.mrfld_header →
      b.drv_id = H.high_drv_id msg.mrfld_header →
      b.addr = block →
      ∃ r, sst_process_reply_mrfld H E ctx msg = Except.ok r ∧
        block_at r block
          = some { b with ret_code := 0, data := none, size := 0, condition := true } ∧
        r.sst_state = ctx.sst_state ∧ r.ipc_dispatch_list = ctx.ipc_dispatch_list ∧
        sst_wait_timeout H CONFIG_SND_INTEL_SST_RECOVERY r block = some (0, r)) := by
  have part1 : ∀ (c : intel_sst_drv) (b : sst_block), block_at c block = some b →
      b.condition = true →
      sst_wait_timeout H CONFIG_SND_INTEL_SST_RECOVERY c block = some (b.ret_code, c) := by
    intro c b hb hc
    unfold sst_wait_timeout
    rw [hb]
    simp [hc]
  refine ⟨part1 ctx, ?_⟩
  intro E msg pre post b hlarge hnotif hres hdrv hl hpre hk1 hk2 haddr
  have h1 : ¬ (H.header_low_payload msg.mrfld_header &&& H.SST_ASYNC_MSG_MASK
      = H.IPC_SST_PERIOD_ELAPSED_MRFLD ∧ H.high_msg_id msg.mrfld_header = H.IPC_CMD) :=
    fun h => hnotif ⟨Or.inl h.1, h.2⟩
  have h2 : ¬ (H.header_low_payload msg.mrfld_header &&& H.SST_ASYNC_MSG_MASK
      = H.IPC_IA_DRAIN_STREAM_MRFLD ∧ H.high_msg_id msg.mrfld_header = H.IPC_CMD) :=
    fun h => hnotif ⟨Or.inr h.1, h.2⟩
  have hmain : sst_process_reply_mrfld H E ctx msg
      = Except.ok (sst_wake_up_block ctx (H.high_result msg.mrfld_header)
          (H.high_drv_id msg.mrfld_header) (H.high_msg_id msg.mrfld_header) none 0).2 := by
    unfold sst_process_reply_mrfld
    simp only [hlarge, if_true, h1, h2, if_false, ne_eq, hres, hdrv, not_true_eq_false,
      false_and, not_false_eq_true]
  obtain ⟨pre2, b2, post2, hl2, hpre2, hb2, hs⟩ :=
    wake_up_scan_first (H.high_result msg.mrfld_header) (H.high_drv_id msg.mrfld_header)
      (H.high_msg_id msg.mrfld_header) none 0 ctx.block_list
      ⟨b, by rw [hl]; simp, hk1, hk2⟩
  have hw : (sst_wake_up_block ctx (H.high_result msg.mrfld_header)
      (H.high_drv_id msg.mrfld_header) (H.high_msg_id msg.mrfld_header) none 0).2
      = { ctx with block_list := pre2 ++ completed b2 (H.high_result msg.mrfld_header) none 0
                                  :: post2,
                   trace := ctx.trace ++ [sst_event.wake_up] } := by
    simp [sst_wake_up_block, hs]
  have hsame : pre2 = pre ∧ b2 = b ∧ post2 = post :=
    first_split_unique (fun x => x.msg_id = H.high_msg_id msg.mrfld_header ∧
        x.drv_id = H.high_drv_id msg.mrfld_header) pre2 pre post2 post b2 b
      (by rw [← hl2, hl]) hpre2 (fun x hx => (hpre x hx).1) hb2 ⟨hk1, hk2⟩
  obtain ⟨rfl, rfl, rfl⟩ := hsame
  have hat : block_at
      (sst_wake_up_block ctx (H.high_result msg.mrfld_header)
        (H.high_drv_id msg.mrfld_header) (H.high_msg_id msg.mrfld_header) none 0).2 block
      = some (completed b2 (H.high_result msg.mrfld_header) none 0) := by
    rw [hw]
    exact block_at_first _ pre2 post2 _ block rfl haddr (fun x hx => (hpre x hx).2)
  refine ⟨_, hmain, ?_, ?_, ?_, ?_⟩
  · rw [hat, hres]; rfl
  · rw [hw]
  · rw [hw]
  · rw [part1 _ _ hat rfl, hres]; rfl

/-- C11 evaluated on the scenario of the spec: block (5, 2) is registered at address 2,
the processor handles the reply 0x00002005_00000000 (message id 5, driver id 2, result 0,
not large); the wait returns 0, the block holds no payload, and firmware state and queue
are as before. -/
theorem sst_wait_timeout_completed_witness :
    ∃ r, sst_process_reply_mrfld sst_h_x86 env_ok ctx_two_blocks
          (reply_msg 0 0x0000200500000000) = Except.ok r ∧
      block_at r 2 = some { block_new 2 5 2 with ret_code := 0, data := none, size := 0,
                                                  condition := true } ∧
      r.sst_state = ctx_two_blocks.sst_state ∧
      r.ipc_dispatch_list = ctx_two_blocks.ipc_dispatch_list ∧
      sst_wait_timeout sst_h_x86 true r 2 = some (0, r) :=
  (sst_wait_timeout_completed sst_h_x86 true ctx_two_blocks 2).2 env_ok
    (reply_msg 0 0x0000200500000000) [block_new 1 7 3] [] (block_new 2 5 2)
    (by decide) (by decide) (by decide) (by decide) rfl
    (by intro x hx; simp at hx; subst hx; decide) rfl rfl rfl

/-- C12, as stated, fails in the build without `CONFIG_SND_INTEL_SST_RECOVERY`: with
firmware running (state 3), one message queued and the waiter's block (9, 4) not
completed, the timed-out wait returns -EBUSY and leaves the firmware state at 3, not
`SST_UN_INIT`, and the message in the queue. The comment that follows the call of
`sst_do_recovery` in `sst_wait_timeout` ("settign firmware state as uninit") describes the
recovery build only: in this build no statement writes `sst_state`. -/
theorem sst_wait_timeout_else_build_keeps_state :
    ∃ r, sst_wait_timeout sst_h_x86 false ctx_pending 4 = some (-EBUSY, r) ∧
      r.sst_state = 3 ∧ r.sst_state ≠ sst_h_x86.SST_UN_INIT ∧
      r.ipc_dispatch_list.length = 1 :=
  ⟨_, rfl, rfl, by decide, rfl⟩

theorem sst_wait_timeout_else_build (H : sst_h) (ctx : intel_sst_drv) (block : Nat)
    (b : sst_block) (hb : block_at ctx block = some b) (hc : b.condition = false) :
    ∃ r, sst_wait_timeout H false ctx block = some (-EBUSY, r) ∧
      r.sst_state = ctx.sst_state ∧ r.ipc_dispatch_list = ctx.ipc_dispatch_list := by
  obtain ⟨t, e, -, -⟩ := sst_do_recovery_else_eq H (block_set_off ctx block)
  refine ⟨sst_do_recovery_else H (block_set_off ctx block), ?_, ?_, ?_⟩
  · unfold sst_wait_timeout
    rw [hb]
    simp [hc]
  · rw [e]; exact (recovery_nf_proj _ _ _ _ _ _ _).1
  · rw [e]; exact (recovery_nf_proj _ _ _ _ _ _ _).2.1

/-- C12 (amended): in the build with `CONFIG_SND_INTEL_SST_RECOVERY`, for every engine
state with `max_streams < 255` and every dispatch queue, when the wait of
`sst_wait_timeout` ends with the block's condition false, the call returns -EBUSY and the
recovery it runs leaves the firmware state equal to `SST_UN_INIT` and the dispatch queue
empty (length 0). The bound is the range of the `u8` counter of `sst_stream_recovery`:
under it the counter loop returns, in every state with this `max_streams`, the value the
embedding of the call uses. -/
theorem sst_wait_timeout_recovery_build (H : sst_h) (ctx : intel_sst_drv) (block : Nat)
    (b : sst_block) (hb : block_at ctx block = some b) (hc : b.condition = false)
    (hmax : ctx.max_streams < 255) :
    (∀ c : intel_sst_drv, c.max_streams = ctx.max_streams →
      sst_stream_recovery_u8 H 256 1 c = some (sst_stream_recovery H c)) ∧
    ∃ r, sst_wait_timeout H true ctx block = some (-EBUSY, r) ∧
      r.sst_state = H.SST_UN_INIT ∧ r.ipc_dispatch_list = [] ∧
      r.ipc_dispatch_list.length = 0 := by
  refine ⟨fun c hcm => sst_stream_recovery_u8_returns H c (by rw [hcm]; exact hmax), ?_⟩
  obtain ⟨t, d, e, -, -⟩ := sst_do_recovery_eq H (block_set_off ctx block)
  refine ⟨sst_do_recovery H (block_set_off ctx block), ?_, ?_, ?_, ?_⟩
  · unfold sst_wait_timeout
    rw [hb]
    simp [hc]
  · rw [e]; exact (recovery_nf_proj _ _ _ _ _ _ _).1
  · rw [e]; exact (recovery_nf_proj _ _ _ _ _ _ _).2.1
  · rw [e, (recovery_nf_proj _ _ _ _ _ _ _).2.1]; rfl

/-- C12 (amended) evaluated: in the recovery build the same timed-out wait, on an engine
with `max_streams = 4`, leaves state `SST_UN_INIT` (1) and an empty queue. -/
theorem sst_wait_timeout_recovery_build_witness :
    block_at ctx_pending 4 = some (block_new 4 9 4) ∧
    ctx_pending.max_streams < 255 ∧
    ∃ r, sst_wait_timeout sst_h_x86 true ctx_pending 4 = some (-EBUSY, r) ∧
      r.sst_state = 1 ∧ r.ipc_dispatch_list = [] ∧ r.ipc_dispatch_list.length = 0 :=
  ⟨rfl, by decide,
   (sst_wait_timeout_recovery_build sst_h_x86 ctx_pending 4 (block_new 4 9 4) rfl rfl
      (by decide)).2⟩

/-- C13: when the wait of `sst_wait_timeout` ends with the block's condition false, in
either build the call marks the block inactive (on = false), runs the recovery of the
build exactly once (one `dump_stack`), and returns -EBUSY whatever the block's ret_code
is. Nothing is sent again: every register write it makes is a reset write of 0, the
mailbox is not written and the dispatch queue is either emptied or left as it was. In the
recovery build, which runs `sst_stream_recovery`, the engine has `max_streams < 255`, the
range of the `u8` counter of that loop: under it the counter loop returns, in every state
with this `max_streams`, the value the embedding of the call uses. -/
theorem sst_wait_timeout_expired (H : sst_h) (CONFIG_SND_INTEL_SST_RECOVERY : Bool)
    (ctx : intel_sst_drv) (block : Nat) (b : sst_block)
    (hb : block_at ctx block = some b) (hc : b.condition = false)
    (hmax : CONFIG_SND_INTEL_SST_RECOVERY = true → ctx.max_streams < 255) :
    (CONFIG_SND_INTEL_SST_RECOVERY = true →
      ∀ c : intel_sst_drv, c.max_streams = ctx.max_streams →
        sst_stream_recovery_u8 H 256 1 c = some (sst_stream_recovery H c)) ∧
    ∃ r, sst_wait_timeout H CONFIG_SND_INTEL_SST_RECOVERY ctx block = some (-EBUSY, r) ∧
      r = (if CONFIG_SND_INTEL_SST_RECOVERY then sst_do_recovery H (block_set_off ctx block)
           else sst_do_recovery_else H (block_set_off ctx block)) ∧
      block_at r block = some { b with is_on := false } ∧
      r.trace.count sst_event.dump_stack = ctx.trace.count sst_event.dump_stack + 1 ∧
      (∃ w, r.shim_writes = ctx.shim_writes ++ w ∧ ∀ x ∈ w, x.2 = 0) ∧
      r.mailbox = ctx.mailbox ∧
      (r.ipc_dispatch_list = [] ∨ r.ipc_dispatch_list = ctx.ipc_dispatch_list) := by
  have hoff := block_at_set_off ctx block b hb
  have hret : sst_wait_timeout H CONFIG_SND_INTEL_SST_RECOVERY ctx block
      = some (-EBUSY,
          if CONFIG_SND_INTEL_SST_RECOVERY then sst_do_recovery H (block_set_off ctx block)
          else sst_do_recovery_else H (block_set_off ctx block)) := by
    unfold sst_wait_timeout
    rw [hb]
    simp [hc]
  refine ⟨fun hcfg c hcm =>
    sst_stream_recovery_u8_returns H c (by rw [hcm]; exact hmax hcfg), _, hret, rfl, ?_⟩
  cases CONFIG_SND_INTEL_SST_RECOVERY with
  | true =>
    obtain ⟨t, d, e, k, -⟩ := sst_do_recovery_eq H (block_set_off ctx block)
    obtain ⟨w, hw, hz⟩ := reset_sst_shim_writes H (block_set_off ctx block)
    simp only [if_true]
    rw [e]
    obtain ⟨p1, p2, p3, p4, p5, p6, p7, -⟩ :=
      recovery_nf_proj (block_set_off ctx block) H.SST_UN_INIT []
        (reset_sst_shim H (block_set_off ctx block)).shim
        (reset_sst_shim H (block_set_off ctx block)).shim_writes d
        ((block_set_off ctx block).trace ++ t)
    rw [block_at_recovery_nf, p5, p4, p6, p2]
    refine ⟨hoff, ?_, ⟨w, hw, hz⟩, rfl, Or.inl rfl⟩
    show (ctx.trace ++ t).count sst_event.dump_stack = _
    rw [List.count_append, k]
  | false =>
    obtain ⟨t, e, k, -⟩ := sst_do_recovery_else_eq H (block_set_off ctx block)
    simp only [Bool.false_eq_true, if_false]
    rw [e]
    obtain ⟨p1, p2, p3, p4, p5, p6, p7, -⟩ :=
      recovery_nf_proj (block_set_off ctx block) (block_set_off ctx block).sst_state
        (block_set_off ctx block).ipc_dispatch_list (block_set_off ctx block).shim
        (block_set_off ctx block).shim_writes (block_set_off ctx block).dump_buf
        ((block_set_off ctx block).trace ++ t)
    rw [block_at_recovery_nf, p5, p4, p6, p2]
    refine ⟨hoff, ?_, ⟨[], by rw [List.append_nil]; rfl, by simp⟩, rfl, Or.inr rfl⟩
    show (ctx.trace ++ t).count sst_event.dump_stack = _
    rw [List.count_append, k]

/-- C13 evaluated on the scenario of the spec: no reply arrives for block (9, 4); in the
recovery build the wait returns -EBUSY, the block is inactive and the firmware state is
`SST_UN_INIT` (1). -/
theorem sst_wait_timeout_expired_witness :
    block_at ctx_pending 4 = some (block_new 4 9 4) ∧
    ctx_pending.max_streams < 255 ∧
    ∃ r, sst_wait_timeout sst_h_x86 true ctx_pending 4 = some (-EBUSY, r) ∧
      block_at r 4 = some { block_new 4 9 4 with is_on := false } ∧
      r.sst_state = 1 ∧
      r.trace.count sst_event.dump_stack = 1 := by
  obtain ⟨-, r, h1, h2, h3, h4, -⟩ :=
    sst_wait_timeout_expired sst_h_x86 true ctx_pending 4 (block_new 4 9 4) rfl rfl
      (fun _ => by decide)
  refine ⟨rfl, by decide, r, h1, h3, ?_, h4⟩
  rw [h2]
  obtain ⟨t, d, e, -, -⟩ := sst_do_recovery_eq sst_h_x86 (block_set_off ctx_pending 4)
  simp only [if_true]
  rw [e]
  exact (recovery_nf_proj _ _ _ _ _ _ _).1

/-- C19: on an engine with `max_streams < 255`, `sst_do_recovery` (the recovery build) run
twice in a row leaves the same firmware state (`SST_UN_INIT`), the same (empty) dispatch
queue and the same shim register values as one run; the first run frees exactly the queued
messages and the second run frees none. The bound is the range of the `u8` counter of
`sst_stream_recovery`: under it the counter loop returns, in every state with this
`max_streams` (the second run starts in one), the value the embedding of the call uses. -/
theorem sst_do_recovery_idempotent (H : sst_h) (ctx : intel_sst_drv)
    (hmax : ctx.max_streams < 255) :
    (∀ c : intel_sst_drv, c.max_streams = ctx.max_streams →
      sst_stream_recovery_u8 H 256 1 c = some (sst_stream_recovery H c)) ∧
    (sst_do_recovery H ctx).max_streams = ctx.max_streams ∧
    (sst_do_recovery H ctx).sst_state = H.SST_UN_INIT ∧
    (sst_do_recovery H (sst_do_recovery H ctx)).sst_state = (sst_do_recovery H ctx).sst_state ∧
    (sst_do_recovery H ctx).ipc_dispatch_list = [] ∧
    (sst_do_recovery H (sst_do_recovery H ctx)).ipc_dispatch_list
      = (sst_do_recovery H ctx).ipc_dispatch_list ∧
    (sst_do_recovery H (sst_do_recovery H ctx)).shim = (sst_do_recovery H ctx).shim ∧
    freed_headers (sst_do_recovery H ctx).trace
      = freed_headers ctx.trace ++ ctx.ipc_dispatch_list.map ipc_post.header ∧
    freed_headers (sst_do_recovery H (sst_do_recovery H ctx)).trace
      = freed_headers (sst_do_recovery H ctx).trace := by
  obtain ⟨t1, d1, e1, -, f1⟩ := sst_do_recovery_eq H ctx
  obtain ⟨t2, d2, e2, -, f2⟩ := sst_do_recovery_eq H (sst_do_recovery H ctx)
  have P1 := recovery_nf_proj ctx H.SST_UN_INIT [] (reset_sst_shim H ctx).shim
    (reset_sst_shim H ctx).shim_writes d1 (ctx.trace ++ t1)
  rw [← e1] at P1
  obtain ⟨hs1, hq1, hsh1, -, ht1, -, -, hp, hx, hd⟩ := P1
  have P2 := recovery_nf_proj (sst_do_recovery H ctx) H.SST_UN_INIT []
    (reset_sst_shim H (sst_do_recovery H ctx)).shim
    (reset_sst_shim H (sst_do_recovery H ctx)).shim_writes d2
    ((sst_do_recovery H ctx).trace ++ t2)
  rw [← e2] at P2
  obtain ⟨hs2, hq2, hsh2, -, ht2, -⟩ := P2
  have hfix := reset_sst_shim_fixed H ctx (sst_do_recovery H ctx) hp hx hd hsh1
  rw [hq1] at f2
  refine ⟨fun c hcm => sst_stream_recovery_u8_returns H c (by rw [hcm]; exact hmax),
    by rw [e1]; rfl, hs1, ?_, hq1, ?_, ?_, ?_, ?_⟩
  · rw [hs2, hs1]
  · rw [hq2, hq1]
  · rw [hsh2]; exact hfix
  · rw [ht1, freed_headers_append, f1]
  · rw [ht2, freed_headers_append, f2]
    simp

/-- C19 evaluated: on an engine with one queued message (header 0x80000905) the first
recovery frees that message and the second recovery frees nothing more; state, queue and
registers agree after one and after two runs. -/
theorem sst_do_recovery_idempotent_witness :
    ctx_pending.max_streams < 255 ∧
    (sst_do_recovery sst_h_x86 ctx_pending).sst_state = 1 ∧
    (sst_do_recovery sst_h_x86 (sst_do_recovery sst_h_x86 ctx_pending)).sst_state
      = (sst_do_recovery sst_h_x86 ctx_pending).sst_state ∧
    (sst_do_recovery sst_h_x86 ctx_pending).ipc_dispatch_list = [] ∧
    (sst_do_recovery sst_h_x86 (sst_do_recovery sst_h_x86 ctx_pending)).shim
      = (sst_do_recovery sst_h_x86 ctx_pending).shim ∧
    freed_headers (sst_do_recovery sst_h_x86 ctx_pending).trace = [0x80000905] ∧
    freed_headers (sst_do_recovery sst_h_x86 (sst_do_recovery sst_h_x86 ctx_pending)).trace
      = freed_headers (sst_do_recovery sst_h_x86 ctx_pending).trace :=
  ⟨by decide,
   (sst_do_recovery_idempotent sst_h_x86 ctx_pending (by decide)).2.2.1,
   (sst_do_recovery_idempotent sst_h_x86 ctx_pending (by decide)).2.2.2.1,
   (sst_do_recovery_idempotent sst_h_x86 ctx_pending (by decide)).2.2.2.2.1,
   (sst_do_recovery_idempotent sst_h_x86 ctx_pending (by decide)).2.2.2.2.2.2.1,
   (sst_do_recovery_idempotent sst_h_x86 ctx_pending (by decide)).2.2.2.2.2.2.2.1,
   (sst_do_recovery_idempotent sst_h_x86 ctx_pending (by decide)).2.2.2.2.2.2.2.2⟩

/-! ## Replies to completed or inactive blocks -/

/-- C14, as stated, fails: block (5, 2) is completed by a first reply with result 0 and no
payload; a second reply with the same key, result 7 and a two-byte payload, arriving while
the block is still registered, replaces the stored result code, payload and size. -/
theorem second_reply_overwrites_completed_block :
    block_at (sst_wake_up_block ctx_two_blocks 0 2 5 none 0).2 2
      = some { block_new 2 5 2 with condition := true } ∧
    block_at (sst_wake_up_block (sst_wake_up_block ctx_two_blocks 0 2 5 none 0).2
        7 2 5 (some [1, 2]) 2).2 2
      = some { block_new 2 5 2 with ret_code := 7, data := some [1, 2], size := 2,
                                    condition := true } ∧
    (block_at (sst_wake_up_block (sst_wake_up_block ctx_two_blocks 0 2 5 none 0).2
        7 2 5 (some [1, 2]) 2).2 2).map sst_block.ret_code
      ≠ (block_at (sst_wake_up_block ctx_two_blocks 0 2 5 none 0).2 2).map sst_block.ret_code :=
  ⟨rfl, rfl, by decide⟩

/-- C14 (amended): `sst_wake_up_block` does not test `condition`. A further reply with the
same (msg_id, drv_id) that arrives while a completed block is still registered and is the
first block with that key returns 0 and replaces the block's ret_code, data and size by
the values of the new reply (condition stays true); every other block is unchanged. -/
theorem sst_wake_up_block_overwrites_completed (ctx : intel_sst_drv) (result : Int)
    (drv_id ipc : Nat) (data : Option (List Nat)) (size : Nat)
    (pre post : List sst_block) (b : sst_block)
    (hl : ctx.block_list = pre ++ b :: post)
    (hpre : ∀ x ∈ pre, ¬ (x.msg_id = ipc ∧ x.drv_id = drv_id))
    (hb : b.msg_id = ipc ∧ b.drv_id = drv_id)
    (hc : b.condition = true) :
    sst_wake_up_block ctx result drv_id ipc data size
      = (0, { ctx with
              block_list := pre ++ { b with ret_code := result, data := data,
                                            size := size } :: post,
              trace := ctx.trace ++ [sst_event.wake_up] }) := by
  obtain ⟨pre2, b2, post2, hl2, hpre2, hb2, hs⟩ :=
    wake_up_scan_first result drv_id ipc data size ctx.block_list
      ⟨b, by rw [hl]; simp, hb⟩
  obtain ⟨rfl, rfl, rfl⟩ :=
    first_split_unique (fun x => x.msg_id = ipc ∧ x.drv_id = drv_id) pre2 pre post2 post b2 b
      (by rw [← hl2, hl]) hpre2 hpre hb2 hb
  have hcomp : completed b2 result data size
      = { b2 with ret_code := result, data := data, size := size } := by
    cases b2
    simp only at hc
    subst hc
    rfl
  simp [sst_wake_up_block, hs, hcomp]

/-- C14 (amended) evaluated: the second reply (7, two bytes) on the completed block (5, 2)
returns 0 and leaves its values in the block; block (7, 3) ahead of it is untouched. -/
theorem sst_wake_up_block_overwrites_completed_witness :
    (sst_wake_up_block ctx_two_blocks 0 2 5 none 0).2.block_list
      = [block_new 1 7 3] ++ { block_new 2 5 2 with condition := true } :: [] ∧
    sst_wake_up_block (sst_wake_up_block ctx_two_blocks 0 2 5 none 0).2 7 2 5 (some [1, 2]) 2
      = (0, { (sst_wake_up_block ctx_two_blocks 0 2 5 none 0).2 with
              block_list := [block_new 1 7 3] ++
                { block_new 2 5 2 with ret_code := 7, data := some [1, 2], size := 2,
                                       condition := true } :: [],
              trace := (sst_wake_up_block ctx_two_blocks 0 2 5 none 0).2.trace
                         ++ [sst_event.wake_up] }) :=
  ⟨rfl,
   sst_wake_up_block_overwrites_completed (sst_wake_up_block ctx_two_blocks 0 2 5 none 0).2
    7 2 5 (some [1, 2]) 2 [block_new 1 7 3] [] { block_new 2 5 2 with condition := true }
    rfl (by intro x hx; simp at hx; subst hx; decide) ⟨rfl, rfl⟩ rfl⟩

/-- C15, as stated, fails: the waiter on block (9, 4) times out, which marks the block
inactive; a late reply with the key (9, 4), result 3 and a one-byte payload then stores
its result, payload, size and condition = true in that block. -/
theorem late_reply_completes_inactive_block :
    ∃ r, sst_wait_timeout sst_h_x86 true ctx_pending 4 = some (-EBUSY, r) ∧
      block_at r 4 = some { block_new 4 9 4 with is_on := false } ∧
      block_at (sst_wake_up_block r 3 4 9 (some [7]) 1).2 4
        = some { block_new 4 9 4 with is_on := false, ret_code := 3, data := some [7],
                                      size := 1, condition := true } :=
  ⟨_, rfl, rfl, rfl⟩

/-- C15 (amended): `sst_wake_up_block` does not read the `on` flag. Called with the key of
a block that is marked inactive (on = false), still registered and the first block with
that key, it returns 0 and stores result, data, size and condition = true in the block;
`on` stays false and every other block is unchanged. -/
theorem sst_wake_up_block_ignores_on (ctx : intel_sst_drv) (result : Int)
    (drv_id ipc : Nat) (data : Option (List Nat)) (size : Nat)
    (pre post : List sst_block) (b : sst_block)
    (hl : ctx.block_list = pre ++ b :: post)
    (hpre : ∀ x ∈ pre, ¬ (x.msg_id = ipc ∧ x.drv_id = drv_id))
    (hb : b.msg_id = ipc ∧ b.drv_id = drv_id)
    (hoff : b.is_on = false) :
    (sst_wake_up_block ctx result drv_id ipc data size).1 = 0 ∧
    (sst_wake_up_block ctx result drv_id ipc data size).2.block_list
      = pre ++ { b with ret_code := result, data := data, size := size, condition := true,
                        is_on := false } :: post := by
  obtain ⟨pre2, b2, post2, hl2, hpre2, hb2, hs⟩ :=
    wake_up_scan_first result drv_id ipc data size ctx.block_list
      ⟨b, by rw [hl]; simp, hb⟩
  obtain ⟨rfl, rfl, rfl⟩ :=
    first_split_unique (fun x => x.msg_id = ipc ∧ x.drv_id = drv_id) pre2 pre post2 post b2 b
      (by rw [← hl2, hl]) hpre2 hpre hb2 hb
  have hcomp : completed b2 result data size
      = { b2 with ret_code := result, data := data, size := size, condition := true,
                  is_on := false } := by
    cases b2
    simp only at hoff
    subst hoff
    rfl
  simp [sst_wake_up_block, hs, hcomp]

/-- C15 (amended) evaluated on the block a timed-out waiter left inactive. -/
theorem sst_wake_up_block_ignores_on_witness :
    (sst_wake_up_block (block_set_off ctx_pending 4) 3 4 9 (some [7]) 1).1 = 0 ∧
    (sst_wake_up_block (block_set_off ctx_pending 4) 3 4 9 (some [7]) 1).2.block_list
      = [] ++ { block_new 4 9 4 with ret_code := 3, data := some [7], size := 1,
                                     condition := true, is_on := false } :: [] :=
  sst_wake_up_block_ignores_on (block_set_off ctx_pending 4) 3 4 9 (some [7]) 1 [] []
    { block_new 4 9 4 with is_on := false } rfl (by simp) ⟨rfl, rfl⟩ rfl

/-! ## Firmware-init handler, detection events, interruptible wait -/

theorem ops_post_message_frame (H : sst_h) (ctx : intel_sst_drv) :
    (ops_post_message H ctx).block_list = ctx.block_list ∧
    (ops_post_message H ctx).sst_state = ctx.sst_state ∧
    (ops_post_message H ctx).trace = ctx.trace := by
  unfold ops_post_message
  cases ctx.post_message with
  | mfld =>
    by_cases hc : ctx.ipc_dispatch_list = [] ∨ H.part_busy (ctx.shim ctx.ipcx) ≠ 0
    · simp [post_mfld_idle H ctx hc]
    · push_neg at hc
      obtain ⟨msg, rest, hq⟩ := List.exists_cons_of_ne_nil hc.1
      simp only [post_mfld_send H ctx msg rest hq hc.2]
      by_cases hl : H.part_large msg.header = 0 <;> simp [hl, sst_shim_write]
  | mrfld =>
    by_cases hc : ctx.ipc_dispatch_list = [] ∨ H.high_busy (ctx.shim H.SST_IPCX) ≠ 0
    · simp [post_mrfld_idle H ctx hc]
    · push_neg at hc
      obtain ⟨msg, rest, hq⟩ := List.exists_cons_of_ne_nil hc.1
      simp only [post_mrfld_send H ctx msg rest hq hc.2]
      by_cases hl : H.high_large msg.mrfld_header = 0 <;> simp [hl, sst_shim_write]
  | mrfld32 =>
    by_cases hc : ctx.ipc_dispatch_list = [] ∨ H.part_busy (ctx.shim H.SST_IPCX) ≠ 0
    · simp [post_mrfld32_idle H ctx hc]
    · push_neg at hc
      obtain ⟨msg, rest, hq⟩ := List.exists_cons_of_ne_nil hc.1
      simp only [post_mrfld32_send H ctx msg rest hq hc.2]
      simp [sst_shim_write]

theorem sst_send_runtime_param_frame (H : sst_h) (E : kernel_env) (ctx : intel_sst_drv)
    (params : snd_sst_runtime_params) (addr : Nat → Nat) :
    (sst_send_runtime_param H E ctx params addr).2.block_list = ctx.block_list ∧
    (sst_send_runtime_param H E ctx params addr).2.sst_state = ctx.sst_state ∧
    (sst_send_runtime_param H E ctx params addr).2.trace = ctx.trace := by
  unfold sst_send_runtime_param
  rcases h : sst_create_ipc_msg E true with ⟨ret, _ | msg⟩
  · exact ⟨rfl, rfl, rfl⟩
  · simp only [sst_send_ipc_msg_nowait]
    exact ops_post_message_frame H _

theorem sst_wake_up_block_sst_state (ctx : intel_sst_drv) (result : Int) (drv_id ipc : Nat)
    (data : Option (List Nat)) (size : Nat) :
    (sst_wake_up_block ctx result drv_id ipc data size).2.sst_state = ctx.sst_state := by
  unfold sst_wake_up_block
  cases wake_up_scan result drv_id ipc data size ctx.block_list <;> rfl

theorem sst_wake_up_block_congr (c1 c2 : intel_sst_drv) (result : Int) (drv_id ipc : Nat)
    (data : Option (List Nat)) (size : Nat) (h : c1.block_list = c2.block_list) :
    (sst_wake_up_block c1 result drv_id ipc data size).2.block_list
      = (sst_wake_up_block c2 result drv_id ipc data size).2.block_list := by
  unfold sst_wake_up_block
  rw [h]
  cases wake_up_scan result drv_id ipc data size c2.block_list with
  | none => exact h
  | some l => rfl

/-- C16, as stated, fails for a variant other than CLV: on an MRFLD engine (pci id
0x119A) in state 2, a firmware-init-complete event with `init->result` = 5 leaves the
state at 2, not `SST_ERROR` (4), returns 0 and completes the init block with result 0. -/
theorem process_fw_init_ignores_result_off_clv :
    sst_h_x86.fw_init_result msg_fw_init_failed.mailbox_data = 5 ∧
    ctx_fw_init.pci_id ≠ sst_h_x86.SST_CLV_PCI_ID ∧
    (process_fw_init sst_h_x86 env_ok ctx_fw_init msg_fw_init_failed).1 = 0 ∧
    (process_fw_init sst_h_x86 env_ok ctx_fw_init msg_fw_init_failed).2.sst_state = 2 ∧
    (process_fw_init sst_h_x86 env_ok ctx_fw_init msg_fw_init_failed).2.sst_state
      ≠ sst_h_x86.SST_ERROR ∧
    block_at (process_fw_init sst_h_x86 env_ok ctx_fw_init msg_fw_init_failed).2 9
      = some { block_new 9 0 0xFF with ret_code := 0, condition := true } :=
  ⟨rfl, by decide, rfl, rfl, by decide, rfl⟩

/-- C16 (amended): on the CLV variant (pci_id = `SST_CLV_PCI_ID`), when the
firmware-init-complete event carries a nonzero result code `process_fw_init` sets the
firmware state to `SST_ERROR`, returns that code and completes the init block (drv_id
`FW_DWNL_ID`, msg_id 0) with it. On every other variant the result code is not examined:
the call returns 0, does not change the firmware state and completes the init block with
result 0. -/
theorem process_fw_init_result (H : sst_h) (E : kernel_env) (ctx : intel_sst_drv)
    (msg : ipc_post) :
    (ctx.pci_id = H.SST_CLV_PCI_ID → H.fw_init_result msg.mailbox_data ≠ 0 →
      process_fw_init H E ctx msg
        = ((H.fw_init_result msg.mailbox_data : Int),
           (sst_wake_up_block { ctx with sst_state := H.SST_ERROR }
             (H.fw_init_result msg.mailbox_data) H.FW_DWNL_ID 0 none 0).2) ∧
      (process_fw_init H E ctx msg).2.sst_state = H.SST_ERROR ∧
      (process_fw_init H E ctx msg).2.block_list
        = (sst_wake_up_block ctx (H.fw_init_result msg.mailbox_data) H.FW_DWNL_ID 0
            none 0).2.block_list) ∧
    (ctx.pci_id ≠ H.SST_CLV_PCI_ID →
      (process_fw_init H E ctx msg).1 = 0 ∧
      (process_fw_init H E ctx msg).2.sst_state = ctx.sst_state ∧
      (process_fw_init H E ctx msg).2.block_list
        = (sst_wake_up_block ctx 0 H.FW_DWNL_ID 0 none 0).2.block_list) := by
  constructor
  · intro hclv hres
    have h : process_fw_init H E ctx msg
        = ((H.fw_init_result msg.mailbox_data : Int),
           (sst_wake_up_block { ctx with sst_state := H.SST_ERROR }
             (H.fw_init_result msg.mailbox_data) H.FW_DWNL_ID 0 none 0).2) := by
      unfold process_fw_init
      simp [hclv, hres]
    refine ⟨h, ?_, ?_⟩
    · rw [h]
      exact sst_wake_up_block_sst_state _ _ _ _ _ _
    · rw [h]
      exact sst_wake_up_block_congr _ _ _ _ _ _ _ rfl
  · intro hclv
    have h : process_fw_init H E ctx msg
        = ((0 : Int), (sst_wake_up_block
            (match ctx.runtime_param.addr with
             | some addr => (sst_send_runtime_param H E ctx ctx.runtime_param addr).2
             | none => ctx) 0 H.FW_DWNL_ID 0 none 0).2) := by
      unfold process_fw_init
      simp [hclv]
    have hframe : (match ctx.runtime_param.addr with
        | some addr => (sst_send_runtime_param H E ctx ctx.runtime_param addr).2
        | none => ctx).block_list = ctx.block_list ∧
        (match ctx.runtime_param.addr with
        | some addr => (sst_send_runtime_param H E ctx ctx.runtime_param addr).2
        | none => ctx).sst_state = ctx.sst_state := by
      cases ctx.runtime_param.addr with
      | none => exact ⟨rfl, rfl⟩
      | some addr =>
        exact ⟨(sst_send_runtime_param_frame H E ctx ctx.runtime_param addr).1,
          (sst_send_runtime_param_frame H E ctx ctx.runtime_param addr).2.1⟩
    refine ⟨by rw [h], ?_, ?_⟩
    · rw [h]
      simp only
      rw [sst_wake_up_block_sst_state, hframe.2]
    · rw [h]
      exact sst_wake_up_block_congr _ _ _ _ _ _ _ hframe.1

/-- C16 (amended) evaluated on the CLV variant: the event with `init->result` = 5 sets
state `SST_ERROR` (4), returns 5 and completes the init block with 5. -/
theorem process_fw_init_result_witness :
    process_fw_init sst_h_x86 env_ok ctx_fw_init_clv msg_fw_init_failed
      = (5, { ctx_fw_init_clv with
              sst_state := 4,
              block_list := [{ block_new 9 0 0xFF with ret_code := 5, condition := true }],
              trace := [sst_event.wake_up] }) := by
  rw [((process_fw_init_result sst_h_x86 env_ok ctx_fw_init_clv msg_fw_init_failed).1
    rfl (by decide)).1]
  rfl

/-- C17: for every detection event whose result size is greater than
`MAX_VTSV_RESULT_SIZE` (86), `send_vtsv_result_event` returns the nonzero value -1 without
a fault and leaves the driver state, trace included, unchanged: no notification is
emitted, neither full nor truncated. -/
theorem send_vtsv_result_event_oversized (E : kernel_env) (ctx : intel_sst_drv)
    (data : Nat → Nat) (size : Int) (h : size > 86) :
    send_vtsv_result_event E ctx data size = Except.ok (-1, ctx) ∧ (-1 : Int) ≠ 0 := by
  unfold send_vtsv_result_event
  have h2 : size > (MAX_VTSV_RESULT_SIZE : Int) := by simpa [MAX_VTSV_RESULT_SIZE] using h
  exact ⟨by rw [if_pos h2], by decide⟩

/-- C17 evaluated at size 87, one more than the bound. -/
theorem send_vtsv_result_event_oversized_witness :
    (87 : Int) > 86 ∧
    send_vtsv_result_event env_ok ctx_idle (fun i => i) 87 = Except.ok (-1, ctx_idle) ∧
    (-1 : Int) ≠ 0 :=
  ⟨by decide, send_vtsv_result_event_oversized env_ok ctx_idle (fun i => i) 87 (by decide)⟩

/-- C18, as stated, fails: block (5, 2) is completed with the firmware result code 3;
the wait, woken by that completion and not by a signal, returns 0, not 3. A block
completed with the negative code -5 makes it return -EBUSY (-16), not -5. -/
theorem sst_wait_interruptible_drops_result :
    block_at (sst_wake_up_block ctx_two_blocks 3 2 5 none 0).2 2
      = some { block_new 2 5 2 with ret_code := 3, condition := true } ∧
    sst_wait_interruptible (sst_wake_up_block ctx_two_blocks 3 2 5 none 0).2 2 false = some 0 ∧
    sst_wait_interruptible (sst_wake_up_block ctx_two_blocks 3 2 5 none 0).2 2 false ≠ some 3 ∧
    sst_wait_interruptible (sst_wake_up_block ctx_two_blocks (-5) 2 5 none 0).2 2 false
      = some (-16) :=
  ⟨rfl, rfl, by decide, rfl⟩

/-- C18 (amended): when the wait is woken by the completion of the block and not by a
signal, `sst_wait_interruptible` returns -EBUSY if the block's result code is negative
and 0 otherwise; the result code r itself is returned only when r is 0 or -EBUSY. When a
signal ends the wait with the condition still false it returns -EINTR. -/
theorem sst_wait_interruptible_result (ctx : intel_sst_drv) (block : Nat) (b : sst_block)
    (signal : Bool) (hb : block_at ctx block = some b) :
    (b.condition = true →
      sst_wait_interruptible ctx block signal
        = some (if b.ret_code < 0 then -EBUSY else 0) ∧
      (sst_wait_interruptible ctx block signal = some b.ret_code ↔
        b.ret_code = 0 ∨ b.ret_code = -EBUSY)) ∧
    (b.condition = false → signal = true →
      sst_wait_interruptible ctx block signal = some (-EINTR)) := by
  constructor
  · intro hc
    have h : sst_wait_interruptible ctx block signal
        = some (if b.ret_code < 0 then -EBUSY else 0) := by
      unfold sst_wait_interruptible
      rw [hb]
      simp only [hc, if_true]
      split <;> rfl
    refine ⟨h, ?_⟩
    rw [h]
    by_cases hn : b.ret_code < 0
    · simp only [hn, if_true, Option.some.injEq]
      constructor
      · intro e; right; exact e.symm
      · intro e
        rcases e with e | e
        · rw [e] at hn; exact absurd hn (by decide)
        · exact e.symm
    · simp only [hn, if_false, Option.some.injEq]
      constructor
      · intro e; left; exact e.symm
      · intro e
        rcases e with e | e
        · exact e.symm
        · rw [e] at hn; exact absurd (by decide) hn
  · intro hc hs
    unfold sst_wait_interruptible
    rw [hb]
    simp [hc, hs]

/-- C18 (amended) evaluated on block (5, 2) completed with result code 3. -/
theorem sst_wait_interruptible_result_witness :
    block_at (sst_wake_up_block ctx_two_blocks 3 2 5 none 0).2 2
      = some { block_new 2 5 2 with ret_code := 3, condition := true } ∧
    sst_wait_interruptible (sst_wake_up_block ctx_two_blocks 3 2 5 none 0).2 2 false
      = some (if (3 : Int) < 0 then -EBUSY else 0) :=
  ⟨rfl,
   ((sst_wait_interruptible_result (sst_wake_up_block ctx_two_blocks 3 2 5 none 0).2 2
      { block_new 2 5 2 with ret_code := 3, condition := true } false rfl).1 rfl).1⟩

/-! ## Stream table indexing -/

/-- C20 at the failing input: with `max_streams = 4`, a drain notification for stream id 5
handled by `sst_process_reply_mfld` (header 0x0544) is rejected by `sst_validate_strid`
but reads `streams[5]` and invokes its drain callback; for stream id 31 (header 0x1F44)
it reads `streams[31]`. The sibling `sst_process_message_mfld` drops a period-elapsed
message (header 0x0597) for the same id 5 without reading the stream table. -/
theorem drain_notify_unvalidated_stream_id :
    sst_h_x86.part_msg_id 0x0544 = sst_h_x86.IPC_IA_DRAIN_STREAM ∧
    sst_h_x86.part_str_id 0x0544 = 5 ∧
    ctx_stale_stream.max_streams = 4 ∧
    sst_validate_strid ctx_stale_stream 5 = -EINVAL ∧
    (sst_process_reply_mfld sst_h_x86 env_ok ctx_stale_stream (reply_msg 0x0544 0)).trace
      = [sst_event.stream_index 5, sst_event.drain_notify 77] ∧
    (sst_process_reply_mfld sst_h_x86 env_ok ctx_stale_stream (reply_msg 0x1F44 0)).trace
      = [sst_event.stream_index 31] ∧
    (sst_process_message_mfld sst_h_x86 env_ok ctx_stale_stream (reply_msg 0x0597 0)).trace
      = [] :=
  ⟨rfl, rfl, rfl, rfl, rfl, rfl, rfl⟩

/-! ## Notifications -/

/-- The events of a period-elapsed notification for the stream with index `s`. -/
theorem period_elapsed_eq (H : sst_h) (E : kernel_env) (ctx : intel_sst_drv) (msg : ipc_post)
    (hlarge : H.high_large msg.mrfld_header = 0)
    (hcmd : H.high_msg_id msg.mrfld_header = H.IPC_CMD)
    (hp : H.header_low_payload msg.mrfld_header &&& H.SST_ASYNC_MSG_MASK
            = H.IPC_SST_PERIOD_ELAPSED_MRFLD)
    (hs : H.get_stream_id_mrfld ctx (H.header_low_payload msg.mrfld_header >>> 16) > 0) :
    sst_process_reply_mrfld H E ctx msg = Except.ok { ctx with trace := ctx.trace ++
      (sst_event.stream_index
          (H.get_stream_id_mrfld ctx (H.header_low_payload msg.mrfld_header >>> 16)) ::
        ((if (ctx.streams (H.get_stream_id_mrfld ctx
              (H.header_low_payload msg.mrfld_header >>> 16)).toNat).period_elapsed
          then [sst_event.period_elapsed (ctx.streams (H.get_stream_id_mrfld ctx
              (H.header_low_payload msg.mrfld_header >>> 16)).toNat).pcm_substream]
          else []) ++
         (if (ctx.streams (H.get_stream_id_mrfld ctx
              (H.header_low_payload msg.mrfld_header >>> 16)).toNat).compr_cb
          then [sst_event.compr_cb (ctx.streams (H.get_stream_id_mrfld ctx
              (H.header_low_payload msg.mrfld_header >>> 16)).toNat).compr_cb_param]
          else []))) } := by
  simp only [sst_process_reply_mrfld, hlarge, hcmd, hp, hs, if_true, and_self]
  rcases Bool.eq_false_or_eq_true (ctx.streams (H.get_stream_id_mrfld ctx
      (H.header_low_payload msg.mrfld_header >>> 16)).toNat).period_elapsed with h1 | h1 <;>
  rcases Bool.eq_false_or_eq_true (ctx.streams (H.get_stream_id_mrfld ctx
      (H.header_low_payload msg.mrfld_header >>> 16)).toNat).compr_cb with h2 | h2 <;>
  simp [h1, h2, emit]

/-- The events of a drain-complete notification for the stream with index `s`. -/
theorem drain_complete_eq (H : sst_h) (E : kernel_env) (ctx : intel_sst_drv) (msg : ipc_post)
    (hlarge : H.high_large msg.mrfld_header = 0)
    (hcmd : H.high_msg_id msg.mrfld_header = H.IPC_CMD)
    (hp : ¬ H.header_low_payload msg.mrfld_header &&& H.SST_ASYNC_MSG_MASK
            = H.IPC_SST_PERIOD_ELAPSED_MRFLD)
    (hd : H.header_low_payload msg.mrfld_header &&& H.SST_ASYNC_MSG_MASK
            = H.IPC_IA_DRAIN_STREAM_MRFLD)
    (hs : H.get_stream_id_mrfld ctx (H.header_low_payload msg.mrfld_header >>> 16) > 0) :
    sst_process_reply_mrfld H E ctx msg = Except.ok { ctx with trace := ctx.trace ++
      (sst_event.stream_index
          (H.get_stream_id_mrfld ctx (H.header_low_payload msg.mrfld_header >>> 16)) ::
        (if (ctx.streams (H.get_stream_id_mrfld ctx
              (H.header_low_payload msg.mrfld_header >>> 16)).toNat).drain_notify
          then [sst_event.drain_notify (ctx.streams (H.get_stream_id_mrfld ctx
              (H.header_low_payload msg.mrfld_header >>> 16)).toNat).drain_cb_param]
          else [])) } := by
  have hp2 : ¬ H.IPC_IA_DRAIN_STREAM_MRFLD = H.IPC_SST_PERIOD_ELAPSED_MRFLD := hd ▸ hp
  simp only [sst_process_reply_mrfld, hlarge, hcmd, hd, hp2, hs, if_true, if_false,
    and_self, false_and, process_drain_notify]
  rcases Bool.eq_false_or_eq_true (ctx.streams (H.get_stream_id_mrfld ctx
      (H.header_low_payload msg.mrfld_header >>> 16)).toNat).drain_notify with h1 | h1 <;>
  simp [h1, emit]

/-- A notification whose pipe id maps to no valid stream id is dropped. -/
theorem notification_dropped (H : sst_h) (E : kernel_env) (ctx : intel_sst_drv)
    (msg : ipc_post) (hlarge : H.high_large msg.mrfld_header = 0)
    (hcmd : H.high_msg_id msg.mrfld_header = H.IPC_CMD)
    (hid : H.header_low_payload msg.mrfld_header &&& H.SST_ASYNC_MSG_MASK
             = H.IPC_SST_PERIOD_ELAPSED_MRFLD ∨
           H.header_low_payload msg.mrfld_header &&& H.SST_ASYNC_MSG_MASK
             = H.IPC_IA_DRAIN_STREAM_MRFLD)
    (hs : ¬ H.get_stream_id_mrfld ctx (H.header_low_payload msg.mrfld_header >>> 16) > 0) :
    sst_process_reply_mrfld H E ctx msg = Except.ok ctx := by
  by_cases hp : H.header_low_payload msg.mrfld_header &&& H.SST_ASYNC_MSG_MASK
      = H.IPC_SST_PERIOD_ELAPSED_MRFLD
  · simp only [sst_process_reply_mrfld, hlarge, hcmd, hp, hs, if_true, if_false, and_self]
  · have hd := hid.resolve_left hp
    have hp2 : ¬ H.IPC_IA_DRAIN_STREAM_MRFLD = H.IPC_SST_PERIOD_ELAPSED_MRFLD := hd ▸ hp
    simp only [sst_process_reply_mrfld, hlarge, hcmd, hd, hp2, hs, if_true, if_false,
      and_self, false_and]

/-- C23: a reply handled by `sst_process_reply_mrfld` with the large flag clear, header
msg_id `IPC_CMD` and low-word message id period-elapsed or drain-complete is handled without
fault, whatever the result and driver-id fields of the header are. The resulting state is
the given one with only events `t` added to the trace, so the Block Registry is unchanged.
When the pipe id does not map to a stream id `> 0` nothing is added, and the state is the
given one; otherwise the added events are the access to the stream's table entry followed
by callbacks of that stream. -/
theorem sst_process_reply_mrfld_notification (H : sst_h) (E : kernel_env)
    (ctx : intel_sst_drv) (msg : ipc_post)
    (hlarge : H.high_large msg.mrfld_header = 0)
    (hcmd : H.high_msg_id msg.mrfld_header = H.IPC_CMD)
    (hid : H.header_low_payload msg.mrfld_header &&& H.SST_ASYNC_MSG_MASK
             = H.IPC_SST_PERIOD_ELAPSED_MRFLD ∨
           H.header_low_payload msg.mrfld_header &&& H.SST_ASYNC_MSG_MASK
             = H.IPC_IA_DRAIN_STREAM_MRFLD) :
    ∃ r t, sst_process_reply_mrfld H E ctx msg = Except.ok r ∧
      r = { ctx with trace := ctx.trace ++ t } ∧
      r.block_list = ctx.block_list ∧
      (¬ H.get_stream_id_mrfld ctx (H.header_low_payload msg.mrfld_header >>> 16) > 0 →
        t = [] ∧ r = ctx) ∧
      (∀ e ∈ t,
        e = sst_event.stream_index
              (H.get_stream_id_mrfld ctx (H.header_low_payload msg.mrfld_header >>> 16)) ∨
        (∃ p, e = sst_event.period_elapsed p) ∨ (∃ p, e = sst_event.compr_cb p) ∨
        (∃ p, e = sst_event.drain_notify p)) := by
  by_cases hs : H.get_stream_id_mrfld ctx (H.header_low_payload msg.mrfld_header >>> 16) > 0
  · by_cases hp : H.header_low_payload msg.mrfld_header &&& H.SST_ASYNC_MSG_MASK
        = H.IPC_SST_PERIOD_ELAPSED_MRFLD
    · refine ⟨_, _, period_elapsed_eq H E ctx msg hlarge hcmd hp hs, rfl, rfl,
        fun h => absurd hs h, ?_⟩
      intro e he
      simp only [List.mem_cons, List.mem_append] at he
      rcases he with he | he | he
      · exact Or.inl he
      · split at he
        · exact Or.inr (Or.inl ⟨_, List.mem_singleton.mp he⟩)
        · simp at he
      · split at he
        · exact Or.inr (Or.inr (Or.inl ⟨_, List.mem_singleton.mp he⟩))
        · simp at he
    · refine ⟨_, _, drain_complete_eq H E ctx msg hlarge hcmd hp (hid.resolve_left hp) hs,
        rfl, rfl, fun h => absurd hs h, ?_⟩
      intro e he
      simp only [List.mem_cons] at he
      rcases he with he | he
      · exact Or.inl he
      · split at he
        · exact Or.inr (Or.inr (Or.inr ⟨_, List.mem_singleton.mp he⟩))
        · simp at he
  · exact ⟨ctx, [], notification_dropped H E ctx msg hlarge hcmd hid hs, by simp, rfl,
      fun _ => ⟨rfl, rfl⟩, fun e he => by simp at he⟩


theorem sst_process_reply_mrfld_notification_witness :
    sst_process_reply_mrfld sst_h_x86 env_ok ctx_streaming (reply_msg 0 0x050070010007000A)
        = Except.ok { ctx_streaming with
            trace := [sst_event.stream_index 2, sst_event.period_elapsed 0x70] } ∧
    sst_process_reply_mrfld sst_h_x86 env_ok ctx_streaming (reply_msg 0 0x0500700100090078)
        = Except.ok ctx_streaming ∧
    ∃ r t, sst_process_reply_mrfld sst_h_x86 env_ok ctx_streaming
          (reply_msg 0 0x0500700100070078) = Except.ok r ∧
      r = { ctx_streaming with trace := ctx_streaming.trace ++ t } ∧
      r.block_list = ctx_streaming.block_list ∧
      (¬ sst_h_x86.get_stream_id_mrfld ctx_streaming
          (sst_h_x86.header_low_payload (reply_msg 0 0x0500700100070078).mrfld_header >>> 16) > 0 →
        t = [] ∧ r = ctx_streaming) ∧
      (∀ e ∈ t,
        e = sst_event.stream_index (sst_h_x86.get_stream_id_mrfld ctx_streaming
          (sst_h_x86.header_low_payload (reply_msg 0 0x0500700100070078).mrfld_header >>> 16)) ∨
        (∃ p, e = sst_event.period_elapsed p) ∨ (∃ p, e = sst_event.compr_cb p) ∨
        (∃ p, e = sst_event.drain_notify p)) :=
  ⟨rfl, rfl,
   sst_process_reply_mrfld_notification sst_h_x86 env_ok ctx_streaming
     (reply_msg 0 0x0500700100070078) (by decide) (by decide) (Or.inr (by decide))⟩

/-! ## Detection result size -/

theorem vtsv_loop_negative (tmp : Nat → Nat) :
    ∀ (n i : Nat) (size : Int) (acc : List Nat), size < 0 → MAX_VTSV_RESULT_SIZE - i = n →
      vtsv_loop tmp size i acc = Except.error sst_fault.vtsv_result_overrun
  | 0, i, size, acc, hs, hn => by
    have hle : MAX_VTSV_RESULT_SIZE ≤ i := by omega
    rw [vtsv_loop]
    simp [ne_of_lt hs, hle]
  | n + 1, i, size, acc, hs, hn => by
    have hlt : ¬ MAX_VTSV_RESULT_SIZE ≤ i := by omega
    rw [vtsv_loop]
    simp only [ne_of_lt hs, hlt, if_false]
    exact vtsv_loop_negative tmp n (i + 1) (size - 1) _ (by omega) (by omega)

theorem send_vtsv_result_event_negative (E : kernel_env) (ctx : intel_sst_drv)
    (data : Nat → Nat) (size : Int) (hs : size < 0) :
    send_vtsv_result_event E ctx data size = Except.error sst_fault.vtsv_result_overrun := by
  have hgt : ¬ size > (MAX_VTSV_RESULT_SIZE : Int) := by
    have : (0 : Int) ≤ (MAX_VTSV_RESULT_SIZE : Int) := Int.ofNat_nonneg _
    omega
  simp only [send_vtsv_result_event, hgt, if_false,
    vtsv_loop_negative data _ 0 size [] hs rfl]

theorem res_size_short (msg_size : Nat) (h : msg_size < 4) :
    to_int32 ((msg_size % 2 ^ 32 + 2 ^ 32 - 4) % 2 ^ 32) = (msg_size : Int) - 4 := by
  unfold to_int32
  have h1 : (msg_size % 2 ^ 32 + 2 ^ 32 - 4) % 2 ^ 32 = msg_size + 4294967292 := by omega
  rw [h1]
  have h2 : (msg_size + 4294967292) % 2 ^ 32 = msg_size + 4294967292 := by omega
  rw [h2]
  have h3 : ¬ msg_size + 4294967292 < 2 ^ 31 := by omega
  rw [if_neg h3]
  push_cast
  omega

theorem process_fw_async_large_msg_short (H : sst_h) (E : kernel_env) (ctx : intel_sst_drv)
    (data : List Nat) (msg_size : Nat)
    (hid : read_u32 (fun i => data.getD i 0) = H.IPC_IA_VTSV_DETECTED)
    (hne : H.IPC_IA_VTSV_DETECTED ≠ H.IPC_IA_FW_ASYNC_ERR_MRFLD) (h : msg_size < 4) :
    process_fw_async_large_msg H E ctx data msg_size
      = Except.error sst_fault.vtsv_result_overrun := by
  have hneg : to_int32 ((msg_size % 2 ^ 32 + 2 ^ 32 - 4) % 2 ^ 32) < 0 := by
    rw [res_size_short msg_size h]; omega
  unfold process_fw_async_large_msg
  generalize to_int32 ((msg_size % 2 ^ 32 + 2 ^ 32 - 4) % 2 ^ 32) = r at hneg ⊢
  rw [hid]
  simp only [if_neg hne, if_true]
  rw [send_vtsv_result_event_negative E ctx _ _ hneg]

/-- C25 at the failing input: for a detection message of length 3, shorter than the 4-byte
message id, `process_fw_async_large_msg` passes on the result size `3 - 4 = -1`. That size
is not rejected by the test `size > MAX_VTSV_RESULT_SIZE` and does not lie in 0..86:
`send_vtsv_result_event` enters its `while (size)` loop with it, the loop never reaches 0
and stores past `result[85]`. The reply processor reaches this on a large async reply
whose low word is 3. -/
theorem vtsv_result_size_below_message_id :
    to_int32 ((3 % 2 ^ 32 + 2 ^ 32 - 4) % 2 ^ 32) = -1 ∧
    ¬ ((-1 : Int) > (MAX_VTSV_RESULT_SIZE : Int)) ∧
    send_vtsv_result_event env_ok ctx_idle (fun _ => 0) (-1)
      = Except.error sst_fault.vtsv_result_overrun ∧
    process_fw_async_large_msg sst_h_x86 env_ok ctx_idle [0x28, 0x10, 0] 3
      = Except.error sst_fault.vtsv_result_overrun ∧
    sst_process_reply_mrfld sst_h_x86 env_ok ctx_idle msg_vtsv_short
      = Except.error sst_fault.vtsv_result_overrun := by
  refine ⟨by decide, by decide, send_vtsv_result_event_negative _ _ _ _ (by decide),
    process_fw_async_large_msg_short _ _ _ _ _ (by decide) (by decide) (by decide), ?_⟩
  have h : sst_process_reply_mrfld sst_h_x86 env_ok ctx_idle msg_vtsv_short
      = (match process_fw_async_large_msg sst_h_x86 env_ok
            (emit ctx_idle (sst_event.kzalloc 3 true)) [0x28, 0x10, 0] 3 with
         | Except.error f => Except.error f
         | Except.ok ctx2 => Except.ok (emit ctx2 sst_event.kfree_data)) := rfl
  rw [h, process_fw_async_large_msg_short _ _ _ _ _ (by decide) (by decide) (by decide)]

/-! ## Synchronous poster against the queued path -/

theorem sync_busy_wait_idle (busy : Nat → Nat) (reg : Nat) (dsp : Nat → Nat)
    (shim : Nat → Nat) (h : busy (shim reg) = 0) :
    sync_busy_wait busy reg dsp 0 shim = (true, 0, shim) := by
  rw [sync_busy_wait]
  simp [sst_shim_read, h]

theorem sync_mfld_idle (H : sst_h) (ctx : intel_sst_drv) (dsp : Nat → Nat) (msg : ipc_post)
    (hb : H.part_busy (ctx.shim ctx.ipcx) = 0) :
    sst_sync_post_message_mfld H ctx dsp msg
      = { retval := 0,
          ctx := sst_shim_write
            (if H.part_large msg.header ≠ 0 then
              { ctx with mailbox := memcpy_toio ctx.mailbox H.SST_MAILBOX_SEND
                                      msg.mailbox_data (H.part_data msg.header) }
             else ctx) ctx.ipcx msg.header,
          reads := 1, delays := 0 } := by
  unfold sst_sync_post_message_mfld
  rw [sync_busy_wait_idle _ _ _ _ hb]

theorem sync_mrfld_idle (H : sst_h) (ctx : intel_sst_drv) (dsp : Nat → Nat) (msg : ipc_post)
    (hb : H.high_busy (ctx.shim H.SST_IPCX) = 0) :
    sst_sync_post_message_mrfld H ctx dsp msg
      = { retval := 0,
          ctx := sst_shim_write
            (if H.high_large msg.mrfld_header ≠ 0 then
              { ctx with mailbox := memcpy_toio ctx.mailbox H.SST_MAILBOX_SEND
                                      msg.mailbox_data
                                      (H.header_low_payload msg.mrfld_header) }
             else ctx) H.SST_IPCX msg.mrfld_header,
          reads := 1, delays := 0 } := by
  unfold sst_sync_post_message_mrfld
  rw [sync_busy_wait_idle _ _ _ _ hb]

theorem sync_mrfld32_idle (H : sst_h) (ctx : intel_sst_drv) (dsp : Nat → Nat)
    (msg : ipc_post) (hb : H.part_busy (ctx.shim H.SST_IPCX) = 0) :
    sst_sync_post_message_mrfld32 H ctx dsp msg
      = { retval := 0,
          ctx := sst_shim_write
            (if char_to_u32 (msg.mailbox_data 0) ≠ 0 then
              { ctx with mailbox := memcpy_toio ctx.mailbox H.SST_MAILBOX_SEND
                                      msg.mailbox_data
                                      ((char_to_u32 (msg.mailbox_data 0) + 4) % 2 ^ 32) }
             else ctx) H.SST_IPCX msg.header,
          reads := 1, delays := 0 } := by
  unfold sst_sync_post_message_mrfld32
  rw [sync_busy_wait_idle _ _ _ _ hb]

theorem queued_mfld_idle (H : sst_h) (ctx : intel_sst_drv) (msg : ipc_post)
    (hq : ctx.ipc_dispatch_list = [])
    (hb : H.part_busy (ctx.shim ctx.ipcx) = 0) :
    queued_post (sst_post_message_mfld H) ctx msg
      = sst_shim_write
            (if H.part_large msg.header ≠ 0 then
              { ctx with mailbox := memcpy_toio ctx.mailbox H.SST_MAILBOX_SEND
                                      msg.mailbox_data (H.part_data msg.header) }
             else ctx) ctx.ipcx msg.header := by
  cases ctx
  simp only at hq hb
  subst hq
  simp [queued_post, sst_post_message_mfld, sst_shim_read, hb]

theorem queued_mrfld_idle (H : sst_h) (ctx : intel_sst_drv) (msg : ipc_post)
    (hq : ctx.ipc_dispatch_list = [])
    (hb : H.high_busy (ctx.shim H.SST_IPCX) = 0) :
    queued_post (sst_post_message_mrfld H) ctx msg
      = sst_shim_write
            (if H.high_large msg.mrfld_header ≠ 0 then
              { ctx with mailbox := memcpy_toio ctx.mailbox H.SST_MAILBOX_SEND
                                      msg.mailbox_data
                                      (H.header_low_payload msg.mrfld_header) }
             else ctx) H.SST_IPCX msg.mrfld_header := by
  cases ctx
  simp only at hq hb
  subst hq
  simp [queued_post, sst_post_message_mrfld, sst_shim_read, hb]

theorem queued_mrfld32_idle (H : sst_h) (ctx : intel_sst_drv) (msg : ipc_post)
    (hq : ctx.ipc_dispatch_list = [])
    (hb : H.part_busy (ctx.shim H.SST_IPCX) = 0) :
    queued_post (sst_post_message_mrfld32 H) ctx msg
      = sst_shim_write
            { ctx with mailbox := memcpy_toio ctx.mailbox H.SST_MAILBOX_SEND
                                    msg.mailbox_data
                                    ((read_u32 msg.mailbox_data + 4) % 2 ^ 32) }
            H.SST_IPCX msg.header := by
  cases ctx
  simp only at hq hb
  subst hq
  simp [queued_post, sst_post_message_mrfld32, sst_shim_read, hb]

theorem size_word_small (p : Nat → Nat) (h : read_u32 p ≤ 127) :
    char_to_u32 (p 0) = read_u32 p := by
  unfold read_u32 at h ⊢
  unfold char_to_u32
  have h0 : p 0 % 256 < 128 := by omega
  rw [if_pos h0]
  omega

/-- C26, counterexample: on the mrfld32 variant, with the dispatch queue empty and the
doorbell not busy, the two paths leave different bytes in the mailbox send region. For a
payload whose size word is 0 the synchronous poster copies nothing (the mailbox keeps
0xEE at offset 0) while the queued path copies the 4-byte size word (offset 0 becomes 0).
For a payload whose size word is 0x100 the synchronous poster reads the first byte, 0, and
copies nothing, while the queued path copies 260 bytes (offset 4 becomes 7). -/
theorem sync_post_mrfld32_mailbox_differs :
    ctx_mrfld32.ipc_dispatch_list = [] ∧
    sst_h_x86.part_busy (ctx_mrfld32.shim sst_h_x86.SST_IPCX) = 0 ∧
    (sst_sync_post_message_mrfld32 sst_h_x86 ctx_mrfld32 dsp_stuck (msg_size_word 0)).retval
      = 0 ∧
    (sst_sync_post_message_mrfld32 sst_h_x86 ctx_mrfld32 dsp_stuck
      (msg_size_word 0)).ctx.mailbox (sst_h_x86.SST_MAILBOX_SEND + 0) = 0xEE ∧
    (queued_post (sst_post_message_mrfld32 sst_h_x86) ctx_mrfld32
      (msg_size_word 0)).mailbox (sst_h_x86.SST_MAILBOX_SEND + 0) = 0 ∧
    (sst_sync_post_message_mrfld32 sst_h_x86 ctx_mrfld32 dsp_stuck
      (msg_size_word 0x100)).ctx.mailbox (sst_h_x86.SST_MAILBOX_SEND + 4) = 0xEE ∧
    (queued_post (sst_post_message_mrfld32 sst_h_x86) ctx_mrfld32
      (msg_size_word 0x100)).mailbox (sst_h_x86.SST_MAILBOX_SEND + 4) = 7 := by
  have hb : sst_h_x86.part_busy (ctx_mrfld32.shim sst_h_x86.SST_IPCX) = 0 := by decide
  rw [sync_mrfld32_idle sst_h_x86 ctx_mrfld32 dsp_stuck (msg_size_word 0) hb,
    sync_mrfld32_idle sst_h_x86 ctx_mrfld32 dsp_stuck (msg_size_word 0x100) hb,
    queued_mrfld32_idle sst_h_x86 ctx_mrfld32 (msg_size_word 0) rfl hb,
    queued_mrfld32_idle sst_h_x86 ctx_mrfld32 (msg_size_word 0x100) rfl hb]
  exact ⟨rfl, hb, rfl, by decide, by decide, by decide, by decide⟩

/-- C26, amended: with the dispatch queue empty and the doorbell not busy, the synchronous
poster returns 0 and, for the mfld and the mrfld variant, leaves the engine in the very
state the queued path (append the message, then the poster of the variant) leaves it in:
the same value in the doorbell register and the same bytes in the mailbox. For the mrfld32
variant the synchronous poster returns 0 and the doorbell holds the same value, the
header, on both paths; the mailbox is the same when the 32-bit size word at the start of
the payload is in 1..127; when the size word is 0 the synchronous poster leaves the
mailbox as it was and the queued path copies the 4-byte size word to the send region.
`sst_send_ipc_msg_nowait` returns 0 in every case. -/
theorem sync_post_matches_queued (H : sst_h) (ctx : intel_sst_drv) (dsp : Nat → Nat)
    (msg : ipc_post) (hq : ctx.ipc_dispatch_list = []) :
    (sst_send_ipc_msg_nowait H ctx msg).1 = 0 ∧
    (H.part_busy (ctx.shim ctx.ipcx) = 0 →
      (sst_sync_post_message_mfld H ctx dsp msg).retval = 0 ∧
      (sst_sync_post_message_mfld H ctx dsp msg).ctx
        = queued_post (sst_post_message_mfld H) ctx msg ∧
      (sst_sync_post_message_mfld H ctx dsp msg).ctx.shim ctx.ipcx
        = (queued_post (sst_post_message_mfld H) ctx msg).shim ctx.ipcx ∧
      (sst_sync_post_message_mfld H ctx dsp msg).ctx.mailbox
        = (queued_post (sst_post_message_mfld H) ctx msg).mailbox) ∧
    (H.high_busy (ctx.shim H.SST_IPCX) = 0 →
      (sst_sync_post_message_mrfld H ctx dsp msg).retval = 0 ∧
      (sst_sync_post_message_mrfld H ctx dsp msg).ctx
        = queued_post (sst_post_message_mrfld H) ctx msg ∧
      (sst_sync_post_message_mrfld H ctx dsp msg).ctx.shim H.SST_IPCX
        = (queued_post (sst_post_message_mrfld H) ctx msg).shim H.SST_IPCX ∧
      (sst_sync_post_message_mrfld H ctx dsp msg).ctx.mailbox
        = (queued_post (sst_post_message_mrfld H) ctx msg).mailbox) ∧
    (H.part_busy (ctx.shim H.SST_IPCX) = 0 →
      (sst_sync_post_message_mrfld32 H ctx dsp msg).retval = 0 ∧
      (sst_sync_post_message_mrfld32 H ctx dsp msg).ctx.shim H.SST_IPCX = msg.header ∧
      (queued_post (sst_post_message_mrfld32 H) ctx msg).shim H.SST_IPCX = msg.header ∧
      (1 ≤ read_u32 msg.mailbox_data ∧ read_u32 msg.mailbox_data ≤ 127 →
        (sst_sync_post_message_mrfld32 H ctx dsp msg).ctx
          = queued_post (sst_post_message_mrfld32 H) ctx msg ∧
        (sst_sync_post_message_mrfld32 H ctx dsp msg).ctx.mailbox
          = (queued_post (sst_post_message_mrfld32 H) ctx msg).mailbox) ∧
      (read_u32 msg.mailbox_data = 0 →
        (sst_sync_post_message_mrfld32 H ctx dsp msg).ctx.mailbox = ctx.mailbox ∧
        (queued_post (sst_post_message_mrfld32 H) ctx msg).mailbox
          = memcpy_toio ctx.mailbox H.SST_MAILBOX_SEND msg.mailbox_data 4)) := by
  refine ⟨rfl, fun hb => ?_, fun hb => ?_, fun hb => ?_⟩
  · rw [sync_mfld_idle H ctx dsp msg hb, queued_mfld_idle H ctx msg hq hb]
    exact ⟨rfl, rfl, rfl, rfl⟩
  · rw [sync_mrfld_idle H ctx dsp msg hb, queued_mrfld_idle H ctx msg hq hb]
    exact ⟨rfl, rfl, rfl, rfl⟩
  · rw [sync_mrfld32_idle H ctx dsp msg hb, queued_mrfld32_idle H ctx msg hq hb]
    refine ⟨rfl, by simp [sst_shim_write], by simp [sst_shim_write], fun hs => ?_,
      fun hz => ?_⟩
    · have hc := size_word_small msg.mailbox_data hs.2
      have hne : read_u32 msg.mailbox_data ≠ 0 := by omega
      rw [hc, if_pos hne]
      exact ⟨rfl, rfl⟩
    · have hc := size_word_small msg.mailbox_data (by omega)
      rw [hz] at hc
      simp [hc, hz, sst_shim_write]

theorem sync_post_matches_queued_witness :
    ctx_idle.ipc_dispatch_list = [] ∧
    (sst_sync_post_message_mrfld sst_h_x86 ctx_idle dsp_stuck
        (msg_large 0 0x2001300500000003)).retval = 0 ∧
    (sst_sync_post_message_mrfld sst_h_x86 ctx_idle dsp_stuck
        (msg_large 0 0x2001300500000003)).ctx
      = queued_post (sst_post_message_mrfld sst_h_x86) ctx_idle
          (msg_large 0 0x2001300500000003) ∧
    (sst_sync_post_message_mrfld32 sst_h_x86 ctx_mrfld32 dsp_stuck (msg_size_word 5)).ctx
      = queued_post (sst_post_message_mrfld32 sst_h_x86) ctx_mrfld32 (msg_size_word 5) ∧
    (queued_post (sst_post_message_mrfld32 sst_h_x86) ctx_mrfld32 (msg_size_word 5)).mailbox 8
      = 7 :=
  ⟨rfl,
   ((sync_post_matches_queued sst_h_x86 ctx_idle dsp_stuck (msg_large 0 0x2001300500000003)
      rfl).2.2.1 (by decide)).1,
   ((sync_post_matches_queued sst_h_x86 ctx_idle dsp_stuck (msg_large 0 0x2001300500000003)
      rfl).2.2.1 (by decide)).2.1,
   ((((sync_post_matches_queued sst_h_x86 ctx_mrfld32 dsp_stuck (msg_size_word 5)
      rfl).2.2.2 (by decide)).2.2.2.1) ⟨by decide, by decide⟩).1,
   by rw [queued_mrfld32_idle sst_h_x86 ctx_mrfld32 (msg_size_word 5) rfl (by decide)]
      decide⟩

/-! ## Firmware-init success path -/

theorem sst_wake_up_block_queue (ctx : intel_sst_drv) (result : Int) (drv_id ipc : Nat)
    (data : Option (List Nat)) (size : Nat) :
    (sst_wake_up_block ctx result drv_id ipc data size).2.ipc_dispatch_list
      = ctx.ipc_dispatch_list := by
  unfold sst_wake_up_block
  cases wake_up_scan result drv_id ipc data size ctx.block_list <;> rfl

theorem process_fw_init_success_eq (H : sst_h) (E : kernel_env) (ctx : intel_sst_drv)
    (msg : ipc_post)
    (hok : ¬ (ctx.pci_id = H.SST_CLV_PCI_ID ∧ H.fw_init_result msg.mailbox_data ≠ 0)) :
    process_fw_init H E ctx msg
      = ((0 : Int), (sst_wake_up_block
          (match ctx.runtime_param.addr with
           | some addr => (sst_send_runtime_param H E ctx ctx.runtime_param addr).2
           | none => ctx) 0 H.FW_DWNL_ID 0 none 0).2) := by
  unfold process_fw_init
  simp only [hok, if_false]

/-- C24, counterexample: a runtime parameter configuration is pending and the init event
reports success, but the allocation of the message header fails. `process_fw_init` returns
0 and completes the init block, yet no message is appended: the dispatch queue is as it
was and nothing is written to the doorbell. With the allocations succeeding the message is
appended and, the doorbell being free, posted at once. -/
theorem process_fw_init_no_message_on_enomem :
    ctx_fw_init_param.runtime_param.addr.isSome = true ∧
    sst_h_x86.fw_init_result msg_fw_init_ok.mailbox_data = 0 ∧
    (process_fw_init sst_h_x86 env_nomem ctx_fw_init_param msg_fw_init_ok).1 = 0 ∧
    (process_fw_init sst_h_x86 env_nomem ctx_fw_init_param msg_fw_init_ok).2.ipc_dispatch_list
      = ctx_fw_init_param.ipc_dispatch_list ∧
    (process_fw_init sst_h_x86 env_nomem ctx_fw_init_param msg_fw_init_ok).2.shim_writes
      = [] ∧
    block_at (process_fw_init sst_h_x86 env_nomem ctx_fw_init_param msg_fw_init_ok).2 9
      = some { block_new 9 0 0xFF with ret_code := 0, condition := true } ∧
    (process_fw_init sst_h_x86 env_ok ctx_fw_init_param msg_fw_init_ok).2.shim_writes
      = [(0x38, 0x80122155)] :=
  ⟨rfl, by decide, rfl, rfl, rfl, rfl, by decide⟩

/-- C24, amended: when the firmware-init-complete event reports success (the call does not
take the CLV failure path), `process_fw_init` returns 0 and completes the init block
(drv_id `FW_DWNL_ID`, msg_id 0) with result 0 and no payload. When a runtime parameter
configuration is pending (`runtime_param.param.addr` non-null) and both allocations of
`sst_create_ipc_msg` succeed, a large set-runtime-parameters message `m` is appended to
the dispatch queue and the poster is called before that completion. When none is pending,
or an allocation fails, the completion acts on the given state and the dispatch queue is
unchanged. -/
theorem process_fw_init_success (H : sst_h) (E : kernel_env) (ctx : intel_sst_drv)
    (msg : ipc_post)
    (hok : ¬ (ctx.pci_id = H.SST_CLV_PCI_ID ∧ H.fw_init_result msg.mailbox_data ≠ 0)) :
    (process_fw_init H E ctx msg).1 = 0 ∧
    (process_fw_init H E ctx msg).2.block_list
      = (sst_wake_up_block ctx 0 H.FW_DWNL_ID 0 none 0).2.block_list ∧
    (∀ addr, ctx.runtime_param.addr = some addr → E.kzalloc_msg = true →
      E.kzalloc_mailbox = true →
      ∃ m : ipc_post,
        m.header = H.set_part_data
          (H.sst_fill_header 0 H.IPC_IA_SET_RUNTIME_PARAMS 1 ctx.runtime_param.str_id)
          (4 + H.sizeof_runtime_params + ctx.runtime_param.size) ∧
        m.is_large = true ∧
        (process_fw_init H E ctx msg).2
          = (sst_wake_up_block
              (ops_post_message H
                { ctx with ipc_dispatch_list := ctx.ipc_dispatch_list ++ [m] })
              0 H.FW_DWNL_ID 0 none 0).2) ∧
    ((ctx.runtime_param.addr = none ∨ E.kzalloc_msg = false ∨ E.kzalloc_mailbox = false) →
      (process_fw_init H E ctx msg).2 = (sst_wake_up_block ctx 0 H.FW_DWNL_ID 0 none 0).2 ∧
      (process_fw_init H E ctx msg).2.ipc_dispatch_list = ctx.ipc_dispatch_list) := by
  have h := process_fw_init_success_eq H E ctx msg hok
  refine ⟨by rw [h], ?_, ?_, ?_⟩
  · rw [h]
    apply sst_wake_up_block_congr
    cases ha : ctx.runtime_param.addr with
    | none => rfl
    | some addr => exact (sst_send_runtime_param_frame H E ctx ctx.runtime_param addr).1
  · intro addr ha hm hb
    rw [h, ha]
    simp only [sst_send_runtime_param, sst_create_ipc_msg, hm, hb, if_true,
      Bool.true_eq_false, if_false, sst_send_ipc_msg_nowait]
    exact ⟨_, rfl, rfl, rfl⟩
  · intro hc
    have h2 : process_fw_init H E ctx msg
        = ((0 : Int), (sst_wake_up_block ctx 0 H.FW_DWNL_ID 0 none 0).2) := by
      rw [h]
      rcases hc with ha | hm | hb
      · rw [ha]
      · cases ha : ctx.runtime_param.addr with
        | none => rfl
        | some addr => simp [sst_send_runtime_param, sst_create_ipc_msg, hm]
      · cases ha : ctx.runtime_param.addr with
        | none => rfl
        | some addr =>
          cases hm : E.kzalloc_msg <;> simp [sst_send_runtime_param, sst_create_ipc_msg, hm, hb]
    rw [h2]
    exact ⟨rfl, sst_wake_up_block_queue _ _ _ _ _ _⟩

theorem process_fw_init_success_witness :
    ¬ (ctx_fw_init_param.pci_id = sst_h_x86.SST_CLV_PCI_ID ∧
        sst_h_x86.fw_init_result msg_fw_init_ok.mailbox_data ≠ 0) ∧
    (process_fw_init sst_h_x86 env_nomem ctx_fw_init_param msg_fw_init_ok).2.ipc_dispatch_list
      = ctx_fw_init_param.ipc_dispatch_list ∧
    (process_fw_init sst_h_x86 env_ok ctx_fw_init_param msg_fw_init_ok).1 = 0 ∧
    (process_fw_init sst_h_x86 env_ok ctx_fw_init_param msg_fw_init_ok).2.shim 0x38
      = 0x80122155 ∧
    block_at (process_fw_init sst_h_x86 env_ok ctx_fw_init_param msg_fw_init_ok).2 9
      = some { block_new 9 0 0xFF with ret_code := 0, condition := true } :=
  ⟨by decide,
   ((process_fw_init_success sst_h_x86 env_nomem ctx_fw_init_param msg_fw_init_ok
      (by decide)).2.2.2 (Or.inr (Or.inl rfl))).2,
   (process_fw_init_success sst_h_x86 env_ok ctx_fw_init_param msg_fw_init_ok
      (by decide)).1,
   by decide, rfl⟩

/-! ## Power island fields -/

theorem testBit_three (k : Nat) : Nat.testBit 3 k = decide (k < 2) := by
  have h := Nat.testBit_two_pow_sub_one 2 k
  simpa using h

theorem testBit_two (k : Nat) : Nat.testBit 2 k = decide (k = 1) := by
  have h := @Nat.testBit_two_pow 1 k
  simp only [pow_one] at h
  rw [h]
  by_cases hk : k = 1 <;> simp [hk, eq_comm]

theorem d0i3_mask_bit (n j : Nat) (hn : n < 16) :
    ((PMC_D0I3_MASK <<< (BITS_PER_LSS * n)) % 2 ^ 32).testBit j = decide (j / 2 = n) := by
  rw [Nat.testBit_mod_two_pow, Nat.testBit_shiftLeft]
  simp only [PMC_D0I3_MASK, BITS_PER_LSS, testBit_three]
  by_cases h : j / 2 = n
  · have h1 : j < 32 := by omega
    have h2 : j ≥ 2 * n := by omega
    have h3 : j - 2 * n < 2 := by omega
    simp [h, h1, h2, h3]
  · by_cases h2 : j ≥ 2 * n
    · have h3 : ¬ j - 2 * n < 2 := by omega
      simp [h, h3]
    · simp [h, h2]

theorem sr_mask_bit (n j : Nat) (hn : n < 16) :
    ((SR_MASK <<< (BITS_PER_LSS * n)) % 2 ^ 32).testBit j = decide (j = 2 * n + 1) := by
  rw [Nat.testBit_mod_two_pow, Nat.testBit_shiftLeft]
  simp only [SR_MASK, BITS_PER_LSS, testBit_two]
  by_cases h : j = 2 * n + 1
  · have h1 : j < 32 := by omega
    have h2 : j ≥ 2 * n := by omega
    have h3 : j - 2 * n = 1 := by omega
    simp [h1, h2, h3, h]
    omega
  · by_cases h2 : j ≥ 2 * n
    · have h3 : ¬ j - 2 * n = 1 := by omega
      simp [h, h3]
    · simp [h, h2]

theorem not32_bit (x j : Nat) :
    (not32 x).testBit j = (decide (j < 32) && !(x % 2 ^ 32).testBit j) := by
  have hx : x % 2 ^ 32 < 2 ^ 32 := Nat.mod_lt _ (by norm_num)
  have h := Nat.testBit_two_pow_sub_succ hx j
  have e : not32 x = 2 ^ 32 - (x % 2 ^ 32 + 1) := by unfold not32; omega
  rw [e, h]

theorem island_selected_iff (islands i : Nat) :
    islands &&& (0x1 <<< i) ≠ 0 ↔ islands.testBit i = true := by
  rw [Nat.one_shiftLeft, Nat.and_two_pow]
  cases islands.testBit i <;> simp

theorem island_bit_high (islands : Nat) (state_type : Int) (v n j : Nat) (hv : v < 2 ^ 32)
    (hn : n ≤ 16) (hj : 32 ≤ j) : island_bit islands state_type v n j = false := by
  have h1 : ¬ j < 2 * n := by omega
  have h2 : v.testBit j = false :=
    Nat.testBit_lt_two_pow (lt_of_lt_of_le hv (Nat.pow_le_pow_right (by norm_num) hj))
  simp [island_bit, h1, h2]

theorem not32_d0i3_bit (n j : Nat) (hn : n < 16) :
    (not32 ((PMC_D0I3_MASK <<< (BITS_PER_LSS * n)) % 2 ^ 32)).testBit j
      = (decide (j < 32) && !decide (j / 2 = n)) := by
  rw [not32_bit, Nat.mod_mod, d0i3_mask_bit n j hn]

theorem set_power_island_fst (islands : Nat) (state_type : Int) (acc : Nat × Nat) (n : Nat) :
    (set_power_island islands state_type acc n).1
      = if islands.testBit n = true then
          if state_type = ISLAND_DOWN then
            acc.1 ||| (PMC_D0I3_MASK <<< (BITS_PER_LSS * n)) % 2 ^ 32
          else if state_type = ISLAND_UP then
            acc.1 &&& not32 ((PMC_D0I3_MASK <<< (BITS_PER_LSS * n)) % 2 ^ 32)
          else if state_type = ISLAND_SR then
            (acc.1 &&& not32 ((PMC_D0I3_MASK <<< (BITS_PER_LSS * n)) % 2 ^ 32))
              ||| (SR_MASK <<< (BITS_PER_LSS * n)) % 2 ^ 32
          else acc.1
        else acc.1 := by
  unfold set_power_island
  by_cases hsel : islands.testBit n = true
  · have hl : islands &&& (0x1 <<< n) ≠ 0 := (island_selected_iff islands n).2 hsel
    rw [if_pos hsel]
    simp only [hl, ne_eq, not_false_eq_true, if_true]
    split_ifs <;> rfl
  · have hl : ¬ islands &&& (0x1 <<< n) ≠ 0 := fun h =>
      hsel ((island_selected_iff islands n).1 h)
    rw [if_neg hsel]
    simp only [hl, if_false]

theorem island_bit_selected (islands : Nat) (state_type : Int) (v n j : Nat)
    (hj : j / 2 = n) (hsel : islands.testBit n = true) :
    island_bit islands state_type v (n + 1) j
      = if state_type = ISLAND_DOWN then true
        else if state_type = ISLAND_UP then false
        else if state_type = ISLAND_SR then decide (j % 2 = 1)
        else v.testBit j := by
  have h1 : j < 2 * (n + 1) := by omega
  have h2 : islands.testBit (j / 2) = true := by rw [hj]; exact hsel
  unfold island_bit
  rw [if_pos ⟨h1, h2⟩]

theorem island_bit_unselected (islands : Nat) (state_type : Int) (v n j : Nat)
    (hj : j / 2 = n) (hsel : ¬ islands.testBit n = true) :
    island_bit islands state_type v (n + 1) j = v.testBit j := by
  have h2 : ¬ islands.testBit (j / 2) = true := by rw [hj]; exact hsel
  unfold island_bit
  rw [if_neg (fun h => h2 h.2)]

theorem island_bit_below (islands : Nat) (state_type : Int) (v n j : Nat) (hj : j / 2 = n) :
    island_bit islands state_type v n j = v.testBit j := by
  have h0 : ¬ j < 2 * n := by omega
  unfold island_bit
  rw [if_neg (fun h => h0 h.1)]

theorem island_bit_other (islands : Nat) (state_type : Int) (v n j : Nat) (hj : ¬ j / 2 = n) :
    island_bit islands state_type v (n + 1) j = island_bit islands state_type v n j := by
  have h1 : j < 2 * (n + 1) ↔ j < 2 * n := by omega
  simp only [island_bit, h1]

theorem set_power_island_bits (islands : Nat) (state_type : Int) (v n : Nat) (hv : v < 2 ^ 32)
    (hn : n < 16) (acc : Nat × Nat)
    (hacc : ∀ j, acc.1.testBit j = island_bit islands state_type v n j) (j : Nat) :
    (set_power_island islands state_type acc n).1.testBit j
      = island_bit islands state_type v (n + 1) j := by
  have hhigh : ¬ j < 32 → acc.1.testBit j = false := fun h =>
    (hacc j).trans (island_bit_high islands state_type v n j hv (by omega) (by omega))
  rw [set_power_island_fst]
  by_cases hsel : islands.testBit n = true
  · rw [if_pos hsel]
    by_cases hj : j / 2 = n
    · rw [island_bit_selected islands state_type v n j hj hsel]
      have hjd : decide (j / 2 = n) = true := decide_eq_true hj
      have h3 : decide (j < 32) = true := decide_eq_true (by omega)
      by_cases hd : state_type = ISLAND_DOWN
      · rw [if_pos hd, if_pos hd, Nat.testBit_or, d0i3_mask_bit n j hn, hjd, Bool.or_true]
      · rw [if_neg hd, if_neg hd]
        by_cases hu : state_type = ISLAND_UP
        · rw [if_pos hu, if_pos hu, Nat.testBit_and, not32_d0i3_bit n j hn, hjd]
          simp
        · rw [if_neg hu, if_neg hu]
          by_cases hs : state_type = ISLAND_SR
          · rw [if_pos hs, if_pos hs, Nat.testBit_or, Nat.testBit_and,
              not32_d0i3_bit n j hn, sr_mask_bit n j hn, hjd]
            have e : (j = 2 * n + 1) ↔ (j % 2 = 1) := by omega
            simp [e]
          · rw [if_neg hs, if_neg hs, hacc j, island_bit_below islands state_type v n j hj]
    · rw [island_bit_other islands state_type v n j hj, ← hacc j]
      have hjd : decide (j / 2 = n) = false := decide_eq_false hj
      by_cases hd : state_type = ISLAND_DOWN
      · rw [if_pos hd, Nat.testBit_or, d0i3_mask_bit n j hn, hjd, Bool.or_false]
      · rw [if_neg hd]
        by_cases hu : state_type = ISLAND_UP
        · rw [if_pos hu, Nat.testBit_and, not32_d0i3_bit n j hn, hjd]
          by_cases h32 : j < 32
          · simp [h32]
          · simp [h32, hhigh h32]
        · rw [if_neg hu]
          by_cases hs : state_type = ISLAND_SR
          · have h4 : decide (j = 2 * n + 1) = false := decide_eq_false (by omega)
            rw [if_pos hs, Nat.testBit_or, Nat.testBit_and, not32_d0i3_bit n j hn,
              sr_mask_bit n j hn, hjd, h4]
            by_cases h32 : j < 32
            · simp [h32]
            · simp [h32, hhigh h32]
          · rw [if_neg hs]
  · rw [if_neg hsel, hacc j]
    by_cases hj : j / 2 = n
    · rw [island_bit_unselected islands state_type v n j hj hsel,
        island_bit_below islands state_type v n j hj]
    · rw [island_bit_other islands state_type v n j hj]

theorem power_loop_bits (islands : Nat) (state_type : Int) (v : Nat) (hv : v < 2 ^ 32) :
    ∀ n, n ≤ 16 → ∀ j,
      ((List.range n).foldl (set_power_island islands state_type) (v, 0)).1.testBit j
        = island_bit islands state_type v n j
  | 0, _, j => by simp [island_bit]
  | n + 1, hn, j => by
    rw [List.range_succ, List.foldl_append]
    exact set_power_island_bits islands state_type v n hv (by omega) _
      (power_loop_bits islands state_type v hv n (by omega)) j

theorem island_bit_field (islands : Nat) (state_type : Int) (v i k : Nat) (hi : i < 16)
    (hsel : islands.testBit i = true) (hk : k < 2) :
    island_bit islands state_type v 16 (BITS_PER_LSS * i + k)
      = if state_type = ISLAND_DOWN then true
        else if state_type = ISLAND_UP then false
        else if state_type = ISLAND_SR then decide (k = 1)
        else v.testBit (BITS_PER_LSS * i + k) := by
  have h1 : BITS_PER_LSS * i + k < 2 * 16 := by unfold BITS_PER_LSS; omega
  have h2 : islands.testBit ((BITS_PER_LSS * i + k) / 2) = true := by
    have e : (BITS_PER_LSS * i + k) / 2 = i := by unfold BITS_PER_LSS; omega
    rw [e]; exact hsel
  have e2 : ((BITS_PER_LSS * i + k) % 2 = 1) ↔ (k = 1) := by unfold BITS_PER_LSS; omega
  unfold island_bit
  rw [if_pos ⟨h1, h2⟩]
  simp only [e2]

/-- C27: when the driver data is set, `pmc_nc_set_power_state` takes the lock, reads the
register, writes one value `w` to it and releases the lock. For the prior 32-bit value
`v` of the register, every island mask and every `state_type`: `w` is a 32-bit value; for
each island `i < 16` selected in the mask the 2-bit field of `w` at bits `2i+1..2i` is 3
for `ISLAND_DOWN`, 0 for `ISLAND_UP` and 2 for `ISLAND_SR`; every bit of `w` outside the
fields of the selected islands is the bit of `v`; and for any other `state_type`
`w = v`. -/
theorem pmc_nc_set_power_state_fields (E : pmc_env) (islands : Nat) (state_type : Int)
    (reg : Nat) (hp : E.pmc = true) :
    ∃ w, (pmc_nc_set_power_state E islands state_type reg).trace
        = [pmc_event.down, pmc_event.msgbus_read32 PUNIT_PORT reg,
           pmc_event.msgbus_write32 PUNIT_PORT reg w, pmc_event.up] ∧
      w < 2 ^ 32 ∧
      (∀ i, i < MAX_POWER_ISLANDS → islands.testBit i = true →
        (state_type = ISLAND_DOWN → (w >>> (BITS_PER_LSS * i)) &&& PMC_D0I3_MASK = 3) ∧
        (state_type = ISLAND_UP → (w >>> (BITS_PER_LSS * i)) &&& PMC_D0I3_MASK = 0) ∧
        (state_type = ISLAND_SR → (w >>> (BITS_PER_LSS * i)) &&& PMC_D0I3_MASK = 2)) ∧
      (∀ j, ¬ (j / BITS_PER_LSS < MAX_POWER_ISLANDS ∧
                islands.testBit (j / BITS_PER_LSS) = true) →
        w.testBit j = (E.msgbus reg % 2 ^ 32).testBit j) ∧
      (state_type ≠ ISLAND_DOWN → state_type ≠ ISLAND_UP → state_type ≠ ISLAND_SR →
        w = E.msgbus reg % 2 ^ 32) := by
  have hv : E.msgbus reg % 2 ^ 32 < 2 ^ 32 := Nat.mod_lt _ (by norm_num)
  have hbits : ∀ j, ((List.range MAX_POWER_ISLANDS).foldl
      (set_power_island islands state_type) (E.msgbus reg % 2 ^ 32, 0)).1.testBit j
      = island_bit islands state_type (E.msgbus reg % 2 ^ 32) 16 j :=
    power_loop_bits islands state_type (E.msgbus reg % 2 ^ 32) hv 16 (le_refl _)
  have hpf : ¬ E.pmc = false := by rw [hp]; decide
  refine ⟨((List.range MAX_POWER_ISLANDS).foldl (set_power_island islands state_type)
    (E.msgbus reg % 2 ^ 32, 0)).1, ?_, ?_, ?_, ?_, ?_⟩
  · unfold pmc_nc_set_power_state
    rw [if_neg hpf]
  · apply Nat.lt_pow_two_of_testBit
    intro j hj
    exact (hbits j).trans (island_bit_high islands state_type _ 16 j hv (le_refl _) hj)
  · intro i hi hsel
    have hfield : ∀ k, ((((List.range MAX_POWER_ISLANDS).foldl
        (set_power_island islands state_type) (E.msgbus reg % 2 ^ 32, 0)).1
          >>> (BITS_PER_LSS * i)) &&& PMC_D0I3_MASK).testBit k
        = (island_bit islands state_type (E.msgbus reg % 2 ^ 32) 16 (BITS_PER_LSS * i + k)
            && decide (k < 2)) := by
      intro k
      rw [Nat.testBit_and, Nat.testBit_shiftRight]
      unfold PMC_D0I3_MASK
      rw [testBit_three]
      exact congrArg (· && decide (k < 2)) (hbits _)
    refine ⟨fun hd => ?_, fun hu => ?_, fun hs => ?_⟩
    · apply Nat.eq_of_testBit_eq
      intro k
      rw [hfield k, testBit_three]
      by_cases hk : k < 2
      · rw [island_bit_field islands state_type _ i k hi hsel hk, if_pos hd]
        simp
      · simp [hk]
    · have hnd : ¬ state_type = ISLAND_DOWN := by rw [hu]; decide
      apply Nat.eq_of_testBit_eq
      intro k
      rw [hfield k, Nat.zero_testBit]
      by_cases hk : k < 2
      · rw [island_bit_field islands state_type _ i k hi hsel hk, if_neg hnd, if_pos hu]
        simp
      · simp [hk]
    · have hnd : ¬ state_type = ISLAND_DOWN := by rw [hs]; decide
      have hnu : ¬ state_type = ISLAND_UP := by rw [hs]; decide
      apply Nat.eq_of_testBit_eq
      intro k
      rw [hfield k, testBit_two]
      by_cases hk : k < 2
      · rw [island_bit_field islands state_type _ i k hi hsel hk, if_neg hnd, if_neg hnu,
          if_pos hs]
        simp [hk]
      · have hk1 : ¬ k = 1 := by omega
        simp [hk, hk1]
  · intro j hj
    rw [hbits j]
    unfold island_bit
    have hneg : ¬ (j < 2 * 16 ∧ islands.testBit (j / 2) = true) := by
      intro h
      apply hj
      unfold BITS_PER_LSS MAX_POWER_ISLANDS
      exact ⟨by omega, h.2⟩
    rw [if_neg hneg]
  · intro hd hu hs
    apply Nat.eq_of_testBit_eq
    intro j
    rw [hbits j]
    unfold island_bit
    simp only [if_neg hd, if_neg hu, if_neg hs, ite_self]

theorem pmc_nc_set_power_state_fields_witness :
    pmc_env_x86.pmc = true ∧
    (pmc_nc_set_power_state pmc_env_x86 0b101 ISLAND_SR 0x60).trace
      = [pmc_event.down, pmc_event.msgbus_read32 0x04 0x60,
         pmc_event.msgbus_write32 0x04 0x60 0x1234566A, pmc_event.up] ∧
    ∃ w, (pmc_nc_set_power_state pmc_env_x86 0b101 ISLAND_SR 0x60).trace
        = [pmc_event.down, pmc_event.msgbus_read32 PUNIT_PORT 0x60,
           pmc_event.msgbus_write32 PUNIT_PORT 0x60 w, pmc_event.up] ∧
      w < 2 ^ 32 ∧
      (∀ i, i < MAX_POWER_ISLANDS → Nat.testBit 0b101 i = true →
        (ISLAND_SR = ISLAND_DOWN → (w >>> (BITS_PER_LSS * i)) &&& PMC_D0I3_MASK = 3) ∧
        (ISLAND_SR = ISLAND_UP → (w >>> (BITS_PER_LSS * i)) &&& PMC_D0I3_MASK = 0) ∧
        (ISLAND_SR = ISLAND_SR → (w >>> (BITS_PER_LSS * i)) &&& PMC_D0I3_MASK = 2)) ∧
      (∀ j, ¬ (j / BITS_PER_LSS < MAX_POWER_ISLANDS ∧
                Nat.testBit 0b101 (j / BITS_PER_LSS) = true) →
        w.testBit j = (pmc_env_x86.msgbus 0x60 % 2 ^ 32).testBit j) ∧
      (ISLAND_SR ≠ ISLAND_DOWN → ISLAND_SR ≠ ISLAND_UP → ISLAND_SR ≠ ISLAND_SR →
        w = pmc_env_x86.msgbus 0x60 % 2 ^ 32) :=
  ⟨rfl, rfl, pmc_nc_set_power_state_fields pmc_env_x86 0b101 ISLAND_SR 0x60 rfl⟩

/-! ## Allocation failure in message and block creation -/

theorem sst_create_block_and_ipc_msg_failure (E : kernel_env) (large : Bool)
    (ctx : intel_sst_drv) (kz : Option Nat) (msg_id drv_id : Nat)
    (hfail : (sst_create_block_and_ipc_msg E large ctx kz msg_id drv_id).retval ≠ 0) :
    (sst_create_block_and_ipc_msg E large ctx kz msg_id drv_id).retval = -ENOMEM ∧
    (sst_create_block_and_ipc_msg E large ctx kz msg_id drv_id).ctx = ctx ∧
    (sst_create_block_and_ipc_msg E large ctx kz msg_id drv_id).block = none ∧
    live_buffers [] (sst_create_block_and_ipc_msg E large ctx kz msg_id drv_id).mem
      = if large = true ∧ E.kzalloc_msg = true ∧ E.kzalloc_mailbox = true
        then [sst_buffer.mailbox_data] else [] := by
  rcases E with ⟨kd, km, kb, ks, ko, ku⟩
  cases large <;> cases km <;> cases kb <;> cases kz <;>
    first
    | exact absurd rfl hfail
    | exact ⟨rfl, rfl, rfl, rfl⟩

/-- C22 at the failing input: a large request whose header and payload allocations
succeed and whose block allocation fails. `sst_create_block_and_ipc_msg` returns -ENOMEM
and leaves the Block Registry unchanged, but frees only the message header: the
mailbox-sized payload buffer stays allocated, with no pointer to it left but the one in
the freed header. For a short request in the same situation, and when the header or the
payload allocation fails, nothing stays allocated. -/
theorem sst_create_block_and_ipc_msg_leaks_mailbox :
    (sst_create_block_and_ipc_msg env_ok true ctx_one_block none 7 3).retval = -ENOMEM ∧
    (sst_create_block_and_ipc_msg env_ok true ctx_one_block none 7 3).ctx.block_list
      = ctx_one_block.block_list ∧
    (sst_create_block_and_ipc_msg env_ok true ctx_one_block none 7 3).mem
      = [mem_event.kzalloc sst_buffer.ipc_post true,
         mem_event.kzalloc sst_buffer.mailbox_data true,
         mem_event.kzalloc sst_buffer.block false,
         mem_event.kfree sst_buffer.ipc_post] ∧
    live_buffers [] (sst_create_block_and_ipc_msg env_ok true ctx_one_block none 7 3).mem
      = [sst_buffer.mailbox_data] ∧
    live_buffers [] (sst_create_block_and_ipc_msg env_ok false ctx_one_block none 7 3).mem
      = [] ∧
    live_buffers []
      (sst_create_block_and_ipc_msg env_nomem_mailbox true ctx_one_block (some 8) 7 3).mem
      = [] ∧
    live_buffers []
      (sst_create_block_and_ipc_msg env_nomem true ctx_one_block (some 8) 7 3).mem = [] :=
  ⟨rfl, rfl, rfl, rfl, rfl, rfl, rfl⟩

/-! ## Removals from the dispatch queue and its lock -/

theorem poster_ops_locked (b : Bool) (q : List ipc_post) :
    lock_run lock_free
      (lock_op.spin_lock ::
        (match q with
         | [] => [lock_op.spin_unlock]
         | msg :: _ =>
           if b then [lock_op.spin_unlock]
           else [lock_op.list_del msg.header, lock_op.spin_unlock])) = lock_free := by
  cases q with
  | nil => rfl
  | cons m rest => cases b <;> rfl

theorem ops_post_message_ops_locked (H : sst_h) (ctx : intel_sst_drv) :
    lock_run lock_free (ops_post_message_ops H ctx) = lock_free := by
  unfold ops_post_message_ops
  cases ctx.post_message with
  | mfld =>
    have h := poster_ops_locked
      (decide (H.part_busy (sst_shim_read ctx.shim ctx.ipcx) ≠ 0)) ctx.ipc_dispatch_list
    simpa [sst_post_message_mfld_ops] using h
  | mrfld =>
    have h := poster_ops_locked
      (decide (H.high_busy (sst_shim_read ctx.shim H.SST_IPCX) ≠ 0)) ctx.ipc_dispatch_list
    simpa [sst_post_message_mrfld_ops] using h
  | mrfld32 =>
    have h := poster_ops_locked
      (decide (H.part_busy (sst_shim_read ctx.shim H.SST_IPCX) ≠ 0)) ctx.ipc_dispatch_list
    simpa [sst_post_message_mrfld32_ops] using h

theorem lock_run_unlocked_dels (q : List ipc_post) (acc : List Nat) :
    lock_run { held := false, unlocked_dels := acc }
        (q.map (fun m => lock_op.list_del m.header))
      = { held := false, unlocked_dels := acc ++ q.map (fun m => m.header) } := by
  induction q generalizing acc with
  | nil => simp [lock_run]
  | cons m rest ih =>
    have h := ih (acc ++ [m.header])
    simp only [lock_run, List.map_cons, List.foldl_cons, lock_step] at h ⊢
    simpa using h

theorem sst_do_recovery_ops_unlocked (ctx : intel_sst_drv) :
    lock_run lock_free (sst_do_recovery_ops ctx)
      = { held := false, unlocked_dels := ctx.ipc_dispatch_list.map (fun m => m.header) } := by
  have h := lock_run_unlocked_dels ctx.ipc_dispatch_list []
  simp only [lock_run, List.nil_append] at h
  simp only [sst_do_recovery_ops, dump_sst_shim_ops, lock_run, List.foldl_append,
    List.foldl_cons, List.foldl_nil, lock_step, lock_free]
  exact h

theorem sst_do_recovery_freed (H : sst_h) (ctx : intel_sst_drv) :
    freed_headers (sst_do_recovery H ctx).trace
      = freed_headers ctx.trace ++ ctx.ipc_dispatch_list.map ipc_post.header ∧
    (sst_do_recovery H ctx).ipc_dispatch_list = [] := by
  obtain ⟨t1, d1, e1, -, f1⟩ := sst_do_recovery_eq H ctx
  have P1 := recovery_nf_proj ctx H.SST_UN_INIT [] (reset_sst_shim H ctx).shim
    (reset_sst_shim H ctx).shim_writes d1 (ctx.trace ++ t1)
  rw [← e1] at P1
  obtain ⟨-, hq1, -, -, ht1, -⟩ := P1
  exact ⟨by rw [ht1, freed_headers_append, f1], hq1⟩

/-- C21 at the failing input: recovery of an engine with one message (header 0x80000905)
still queued. `sst_do_recovery` takes `ipc_spin_lock` for the `list_empty` test only and
releases it before its `list_for_each_entry_safe` loop, so the `list_del` of the pending
message runs with the lock free. The message is removed and freed, and the queue is left
empty, as the state model shows. The poster removes the same message with the lock
held. -/
theorem sst_do_recovery_drains_unlocked :
    sst_do_recovery_ops ctx_pending
      = [lock_op.spin_lock, lock_op.spin_unlock, lock_op.spin_lock, lock_op.spin_unlock,
         lock_op.list_del 0x80000905] ∧
    lock_run lock_free (sst_do_recovery_ops ctx_pending)
      = { held := false, unlocked_dels := [0x80000905] } ∧
    freed_headers (sst_do_recovery sst_h_x86 ctx_pending).trace = [0x80000905] ∧
    (sst_do_recovery sst_h_x86 ctx_pending).ipc_dispatch_list = [] ∧
    sst_post_message_mrfld_ops sst_h_x86 ctx_pending
      = [lock_op.spin_lock, lock_op.list_del 0x80000905, lock_op.spin_unlock] ∧
    lock_run lock_free (sst_post_message_mrfld_ops sst_h_x86 ctx_pending) = lock_free :=
  ⟨rfl, rfl, (sst_do_recovery_freed sst_h_x86 ctx_pending).1,
   (sst_do_recovery_freed sst_h_x86 ctx_pending).2, rfl, rfl⟩

end Sst
